import Mathlib

/-!
# Core Video memory lock arbiter and VideoToolbox reorder engine

A shallow embedding of `sys/applemedia/corevideomemory.c` and of the
configuration, submission and reorder logic of `sys/applemedia/vtdec.c`.

Conventions of the embedding:

* C `guint` fields are natural numbers kept below `2 ^ 32`; every arithmetic
  step on them is reduced modulo `2 ^ 32`, as the atomic helpers do.
* C `int` values are integers in `[-2 ^ 31, 2 ^ 31)`; arithmetic on them is
  reduced to that range by two's complement wrap-around (`wrap_int`), and a
  `gsize` stored in a `gint` keeps its low 32 bits (`gsize_to_gint`).
* Calls into VideoToolbox and into the video decoder base class are external
  as well: their results are arguments (`status`, `downstream`, `backend`),
  the calls made are listed in `calls`.
* The reorder queue is a list from the head of the GLib queue; it is popped
  from its tail.
* A region is kept apart from the handle it points to: a function on a region
  takes the handle and returns it as it is afterwards. Regions are named by
  their addresses where the code follows a pointer to one (`parent`).
* Calls into Core Video are external. A function that may issue one takes the
  value that call returns (`cvret`) as an argument and reports the calls it
  issued, in order, in the `calls` field of its outcome.
* The per-buffer mutex is not represented: the operations are applied one
  after another.
-/

set_option linter.unusedVariables false

namespace AppleMedia

/-! ## corevideomemory.h -/

/-- Lock state of the wrapped pixel buffer (`GstCoreVideoLockState`). -/
inductive GstCoreVideoLockState
  | GST_CORE_VIDEO_MEMORY_UNLOCKED
  | GST_CORE_VIDEO_MEMORY_LOCKED_READONLY
  | GST_CORE_VIDEO_MEMORY_LOCKED_READ_WRITE
  deriving DecidableEq, Repr

open GstCoreVideoLockState

/-- The wrapper around one `CVPixelBuffer` (`GstCoreVideoPixelBuffer`).
`buf` is the opaque native handle; `refcount` and `lock_count` are `guint`. -/
structure GstCoreVideoPixelBuffer where
  refcount : Nat
  buf : Nat
  lock_state : GstCoreVideoLockState
  lock_count : Nat
  deriving DecidableEq, Repr

/-- Number of values of a C `guint` (32 bits). -/
def GUINT_RANGE : Nat := 4294967296

/-- Flag bit `GST_MAP_READ` of `GstMapFlags`. -/
def GST_MAP_READ : Nat := 1

/-- Flag bit `GST_MAP_WRITE` of `GstMapFlags`. -/
def GST_MAP_WRITE : Nat := 2

/-- Both map flag bits, `GST_MAP_READWRITE`. -/
def GST_MAP_READWRITE : Nat := 3

/-- Core Video option flag `kCVPixelBufferLock_ReadOnly`. -/
def kCVPixelBufferLock_ReadOnly : Nat := 1

/-- Core Video status `kCVReturnSuccess`. -/
def kCVReturnSuccess : Int := 0

/-- A call into Core Video issued by the lock arbiter, with its arguments. -/
inductive CVCall
  | CVPixelBufferLockBaseAddress (buf : Nat) (lockFlags : Nat)
  | CVPixelBufferUnlockBaseAddress (buf : Nat) (lockFlags : Nat)
  deriving DecidableEq, Repr

/-- What a lock or unlock operation produced: the `gboolean` it returned, the
wrapper afterwards, and the native calls it issued. -/
structure LockOutcome where
  ret : Bool
  gpixbuf : GstCoreVideoPixelBuffer
  calls : List CVCall
  deriving DecidableEq, Repr

/-- Atomic increment of a `guint` (`g_atomic_int_inc`). -/
def g_atomic_int_inc (n : Nat) : Nat := (n + 1) % GUINT_RANGE

/-- The value a `guint` holds after `g_atomic_int_dec_and_test`, that is the
old value minus one modulo `2 ^ 32` (zero wraps to the largest value); the
test itself is whether this value is zero. -/
def g_atomic_int_dec (n : Nat) : Nat :=
  if n = 0 then GUINT_RANGE - 1 else (n - 1) % GUINT_RANGE

/-! ## corevideomemory.c -/

/-- Wrapper creation (`gst_core_video_pixel_buffer_create`). -/
def gst_core_video_pixel_buffer_create (pixbuf : Nat) : GstCoreVideoPixelBuffer :=
  { refcount := 1
    buf := pixbuf
    lock_state := GST_CORE_VIDEO_MEMORY_UNLOCKED
    lock_count := 0 }

/-- Whether the map flags ask for write access (`flags & GST_MAP_WRITE`). -/
def wants_write (flags : Nat) : Bool := flags &&& GST_MAP_WRITE != 0

/-- Locking (`gst_core_video_pixel_buffer_lock`). `cvret` is what
`CVPixelBufferLockBaseAddress` returns if it is called. -/
def gst_core_video_pixel_buffer_lock (cvret : Int) (gpixbuf : GstCoreVideoPixelBuffer)
    (flags : Nat) : LockOutcome :=
  match gpixbuf.lock_state with
  | GST_CORE_VIDEO_MEMORY_UNLOCKED =>
    let lockFlags := if wants_write flags then 0 else kCVPixelBufferLock_ReadOnly
    let call := CVCall.CVPixelBufferLockBaseAddress gpixbuf.buf lockFlags
    if cvret != kCVReturnSuccess then
      { ret := false, gpixbuf := gpixbuf, calls := [call] }
    else
      { ret := true
        gpixbuf :=
          { gpixbuf with
            lock_state :=
              if wants_write flags then GST_CORE_VIDEO_MEMORY_LOCKED_READ_WRITE
              else GST_CORE_VIDEO_MEMORY_LOCKED_READONLY
            lock_count := g_atomic_int_inc gpixbuf.lock_count }
        calls := [call] }
  | GST_CORE_VIDEO_MEMORY_LOCKED_READONLY =>
    if wants_write flags then
      { ret := false, gpixbuf := gpixbuf, calls := [] }
    else
      { ret := true
        gpixbuf := { gpixbuf with lock_count := g_atomic_int_inc gpixbuf.lock_count }
        calls := [] }
  | GST_CORE_VIDEO_MEMORY_LOCKED_READ_WRITE =>
    { ret := true
      gpixbuf := { gpixbuf with lock_count := g_atomic_int_inc gpixbuf.lock_count }
      calls := [] }

/-- Unlocking (`gst_core_video_pixel_buffer_unlock`). `cvret` is what
`CVPixelBufferUnlockBaseAddress` returns if it is called. -/
def gst_core_video_pixel_buffer_unlock (cvret : Int) (gpixbuf : GstCoreVideoPixelBuffer) :
    LockOutcome :=
  if gpixbuf.lock_state = GST_CORE_VIDEO_MEMORY_UNLOCKED then
    { ret := false, gpixbuf := gpixbuf, calls := [] }
  else if g_atomic_int_dec gpixbuf.lock_count != 0 then
    { ret := true
      gpixbuf := { gpixbuf with lock_count := g_atomic_int_dec gpixbuf.lock_count }
      calls := [] }
  else
    let lockFlags :=
      if gpixbuf.lock_state = GST_CORE_VIDEO_MEMORY_LOCKED_READONLY then
        kCVPixelBufferLock_ReadOnly
      else 0
    let call := CVCall.CVPixelBufferUnlockBaseAddress gpixbuf.buf lockFlags
    if cvret != kCVReturnSuccess then
      { ret := false
        gpixbuf :=
          { gpixbuf with
            lock_count := g_atomic_int_inc (g_atomic_int_dec gpixbuf.lock_count) }
        calls := [call] }
    else
      { ret := true
        gpixbuf :=
          { gpixbuf with
            lock_state := GST_CORE_VIDEO_MEMORY_UNLOCKED
            lock_count := g_atomic_int_dec gpixbuf.lock_count }
        calls := [call] }

/-! ### Sequences of lock and unlock operations -/

/-- One operation on a wrapper, together with the status the native call
returns should the operation issue one. -/
inductive LockOp
  | lock (flags : Nat) (cvret : Int)
  | unlock (cvret : Int)
  deriving DecidableEq, Repr

/-- Outcome of a single operation. -/
def LockOp.apply (op : LockOp) (gpixbuf : GstCoreVideoPixelBuffer) : LockOutcome :=
  match op with
  | LockOp.lock flags cvret => gst_core_video_pixel_buffer_lock cvret gpixbuf flags
  | LockOp.unlock cvret => gst_core_video_pixel_buffer_unlock cvret gpixbuf

/-- A wrapper together with the native calls issued on it so far. -/
structure Traced where
  gpixbuf : GstCoreVideoPixelBuffer
  trace : List CVCall
  deriving DecidableEq, Repr

/-- Apply one operation and append its native calls to the trace. -/
def Traced.step (t : Traced) (op : LockOp) : Traced :=
  { gpixbuf := (op.apply t.gpixbuf).gpixbuf
    trace := t.trace ++ (op.apply t.gpixbuf).calls }

/-- Apply the operations one after another. -/
def Traced.run (t : Traced) (ops : List LockOp) : Traced :=
  ops.foldl Traced.step t

/-- A freshly created wrapper with an empty trace. -/
def Traced.fresh (pixbuf : Nat) : Traced :=
  { gpixbuf := gst_core_video_pixel_buffer_create pixbuf, trace := [] }

/-- A request without the native status: what the caller controls. -/
inductive LockReq
  | lock (flags : Nat)
  | unlock
  deriving DecidableEq, Repr

/-- Pair a request with the status of its native call. -/
def LockReq.withStatus (cvret : Int) : LockReq → LockOp
  | LockReq.lock flags => LockOp.lock flags cvret
  | LockReq.unlock => LockOp.unlock cvret

/-- Replay a trace of native calls against the protocol "lock, unlock, lock,
...". `expectLock` tells which kind of call must come next. The result is the
expectation after the last call, or `none` when some call comes out of turn. -/
def replay_trace : Bool → List CVCall → Option Bool
  | expectLock, [] => some expectLock
  | true, CVCall.CVPixelBufferLockBaseAddress _ _ :: rest => replay_trace false rest
  | false, CVCall.CVPixelBufferUnlockBaseAddress _ _ :: rest => replay_trace true rest
  | _, _ :: _ => none

/-- The trace alternates lock, unlock, lock, ... starting with a lock. -/
def alternates (trace : List CVCall) : Bool := (replay_trace true trace).isSome

/-- The option flags of the native call that a request with these map flags
makes on an unlocked wrapper, and that the matching unlock makes. -/
def native_flags (flags : Nat) : Nat :=
  if flags &&& GST_MAP_WRITE = 0 then kCVPixelBufferLock_ReadOnly else 0

/-! ## vtdec.c: reorder depth -/

/-- Two's complement wrap-around of an integer into the range of a C `int`
(32 bits). -/
def wrap_int (x : Int) : Int := (x + 2147483648) % 4294967296 - 2147483648

/-- A byte of a mapped buffer (`guint8`). -/
abbrev guint8 := Fin 256

/-- The part of `GstVideoInfo` the decoder reads; all fields are `gint`. -/
structure GstVideoInfo where
  width : Int
  height : Int
  fps_n : Int
  fps_d : Int
  deriving DecidableEq, Repr

/-- The macro `GST_ROUND_UP_16(num)`, that is `((num) + 15) & ~15`, on a C
`int`: add 15 with wrap-around, then clear the four low bits. -/
def GST_ROUND_UP_16 (num : Int) : Int :=
  wrap_int (num + 15) - wrap_int (num + 15) % 16

/-- Narrowing of a `gsize` to a `gint`: the low 32 bits read as a two's
complement number. -/
def gsize_to_gint (n : Nat) : Int :=
  if n % 4294967296 < 2147483648 then ((n % 4294967296 : Nat) : Int)
  else ((n % 4294967296 : Nat) : Int) - 4294967296

/-- Profile and level octets of an avcC blob
(`parse_h264_profile_and_level_from_codec_data`). `codec_data` is the mapped
content of the buffer; its `gsize` length is narrowed to the `gint size` the
function compares. `none` is the return value `FALSE`; on `TRUE` the result
holds `*profile` and `*level`. -/
def parse_h264_profile_and_level_from_codec_data (codec_data : List guint8) :
    Option (Int × Int) :=
  let size : Int := gsize_to_gint codec_data.length
  if size < 7 then none
  else if (codec_data.getD 0 0).val != 1 then none
  else some (((codec_data.getD 1 0).val : Int), ((codec_data.getD 3 0).val : Int))

/-- Level to decoded-picture-buffer capacity in macroblocks
(`get_dpb_max_mb_s_from_level`); `-1` for an unknown level. -/
def get_dpb_max_mb_s_from_level (level : Int) : Int :=
  match level with
  | 10 => 396
  | 11 => 900
  | 12 => 2376
  | 13 => 2376
  | 20 => 2376
  | 21 => 4752
  | 22 => 8100
  | 30 => 8100
  | 31 => 18000
  | 32 => 20480
  | 40 => 32768
  | 41 => 32768
  | 42 => 34816
  | 50 => 110400
  | 51 => 184320
  | 52 => 184320
  | _ => -1

/-- Result of `compute_h264_decode_picture_buffer_length`: the `gboolean`
returned and the value left in `*length`. -/
structure DpbLength where
  ret : Bool
  length : Int
  deriving DecidableEq, Repr

/-- Reorder depth of an H.264 stream
(`compute_h264_decode_picture_buffer_length`). The result `none` stands for
the integer division trapping on a zero divisor; otherwise the function
returns normally. The quotient of two `int`s truncates toward zero; `floor`
of it and the `MIN` with 16 are exact in `double`. -/
def compute_h264_decode_picture_buffer_length (video_info : GstVideoInfo)
    (codec_data : List guint8) : Option DpbLength :=
  let dpb_mb_size : Int := 16
  let max_dpb_size_frames : Int := 16
  let width_in_mb_s := (GST_ROUND_UP_16 video_info.width).tdiv dpb_mb_size
  let height_in_mb_s := (GST_ROUND_UP_16 video_info.height).tdiv dpb_mb_size
  match parse_h264_profile_and_level_from_codec_data codec_data with
  | none => some { ret := false, length := 0 }
  | some (profile, level) =>
    if video_info.width = 0 || video_info.height = 0 then
      some { ret := false, length := 0 }
    else if profile = 66 then
      some { ret := true, length := 0 }
    else
      let max_dpb_mb_s := get_dpb_max_mb_s_from_level level
      if max_dpb_mb_s = -1 then
        some { ret := false, length := 0 }
      else
        let mb_count := wrap_int (width_in_mb_s * height_in_mb_s)
        if mb_count = 0 then none
        else some { ret := true, length := min (max_dpb_mb_s.tdiv mb_count) max_dpb_size_frames }

/-- Codec tag `kCMVideoCodecType_H264` (the four characters avc1). -/
def kCMVideoCodecType_H264 : Nat := 0x61766331

/-- Reorder queue length for a codec (`gst_vtdec_compute_reorder_queue_length`):
the `gboolean` returned and the value of `vtdec->reorder_queue_length`
afterwards, which for H.264 is written through `length` even on failure. -/
def gst_vtdec_compute_reorder_queue_length (video_info : GstVideoInfo)
    (cm_format : Nat) (codec_data : List guint8) : Option DpbLength :=
  if cm_format = kCMVideoCodecType_H264 then
    compute_h264_decode_picture_buffer_length video_info codec_data
  else
    some { ret := true, length := 0 }

/-! ## vtdec.c: reorder queue -/

/-- The invalid clock time `GST_CLOCK_TIME_NONE`, all 64 bits set. -/
def GST_CLOCK_TIME_NONE : Nat := 18446744073709551615

/-- Validity test `GST_CLOCK_TIME_IS_VALID`. -/
def GST_CLOCK_TIME_IS_VALID (t : Nat) : Bool := t != GST_CLOCK_TIME_NONE

/-- Flow return codes are `gint`; `GST_FLOW_OK` is zero. -/
abbrev GstFlowReturn := Int

/-- The success code `GST_FLOW_OK`. -/
def GST_FLOW_OK : GstFlowReturn := 0

/-- Status `noErr` of the decode backend. -/
def noErr : Int := 0

/-- Time stamp handed over by the backend (`CMTime`); `value` is a signed
64-bit count. -/
structure CMTime where
  value : Int
  timescale : Int
  deriving DecidableEq, Repr

/-- Conversion of a signed 64-bit value to the unsigned `GstClockTime`. -/
def to_guint64 (v : Int) : Nat := (v % 18446744073709551616).toNat

/-- An output buffer: the wrapped image and its time stamps
(`GST_BUFFER_PTS`, `GST_BUFFER_DURATION`). -/
structure GstBuffer where
  pts : Nat
  duration : Nat
  image_buffer : Nat
  deriving DecidableEq, Repr

/-- A frame token (`GstVideoCodecFrame`): its decode sequence number and the
output buffer attached to it, if any. -/
structure GstVideoCodecFrame where
  decode_frame_number : Int
  output_buffer : Option GstBuffer
  deriving DecidableEq, Repr

/-- The time stamp `GST_BUFFER_PTS (frame->output_buffer)`. Every frame in the
reorder queue carries a buffer; the value for a frame without one only makes
the function total. -/
def GstVideoCodecFrame.buffer_pts (frame : GstVideoCodecFrame) : Nat :=
  match frame.output_buffer with
  | some buf => buf.pts
  | none => GST_CLOCK_TIME_NONE

/-- Comparison used for sorted insertion (`sort_frames_by_pts`). -/
def sort_frames_by_pts (frame1 frame2 : GstVideoCodecFrame) : Int :=
  let pts1 := frame1.buffer_pts
  let pts2 := frame2.buffer_pts
  if !GST_CLOCK_TIME_IS_VALID pts1 || !GST_CLOCK_TIME_IS_VALID pts2 then 0
  else if pts1 < pts2 then -1
  else if pts1 = pts2 then 0
  else 1

/-- GLib `g_queue_insert_sorted` on a queue listed from its head: walk from
the head while `func (element, data) < 0`, then insert before the element
reached. -/
def g_queue_insert_sorted {α : Type} (func : α → α → Int) (data : α) : List α → List α
  | [] => [data]
  | x :: rest =>
    if func x data < 0 then x :: g_queue_insert_sorted func data rest
    else data :: x :: rest

/-- GLib `g_async_queue_push_sorted`: sorted insertion with the comparison
inverted, because the asynchronous queue is popped from its tail. -/
def g_async_queue_push_sorted {α : Type} (queue : List α) (data : α)
    (func : α → α → Int) : List α :=
  g_queue_insert_sorted (fun v1 v2 => - func v1 v2) data queue

/-- GLib `g_async_queue_try_pop`: remove and return the tail element, or
nothing when the queue is empty. -/
def g_async_queue_try_pop {α : Type} (queue : List α) : Option α × List α :=
  (queue.getLast?, queue.dropLast)

/-- GLib `g_async_queue_length` with no thread waiting on the queue. -/
def g_async_queue_length {α : Type} (queue : List α) : Int := queue.length

/-- The texture cache seen from the decoder: the function
`gst_core_video_texture_cache_get_gl_buffer` from an output buffer pointer to
the texture-backed buffer, either of which may be null. -/
abbrev TextureCache := Option GstBuffer → Option GstBuffer

/-- The decoder instance (`GstVtdec`) with the output state of its base
class. The reorder queue is listed from its head. -/
structure GstVtdec where
  video_info : GstVideoInfo
  reorder_queue_length : Int
  reorder_queue : List GstVideoCodecFrame
  session : Option Nat
  format_description : Option Nat
  texture_cache : Option TextureCache
  output_state : Option GstVideoInfo

/-- A call the decoder makes into its base class or into the backend. -/
inductive DecoderCall
  | VTDecompressionSessionWaitForAsynchronousFrames
  | gst_video_decoder_drop_frame (frame : GstVideoCodecFrame)
  | gst_video_decoder_release_frame (frame : GstVideoCodecFrame)
  | gst_video_decoder_finish_frame (frame : GstVideoCodecFrame)
  | VTDecompressionSessionDecodeFrame (frame : GstVideoCodecFrame)
  | GST_VIDEO_DECODER_ERROR (status : Int)
  deriving DecidableEq, Repr

/-- Flag bit `kVTDecodeInfo_FrameDropped`. -/
def kVTDecodeInfo_FrameDropped : Nat := 2

/-- What the completion callback did: the decoder afterwards and the calls
made. -/
structure CallbackOutcome where
  vtdec : GstVtdec
  calls : List DecoderCall

/-- The completion callback (`gst_vtdec_session_output_callback`).
`image_buffer` is `none` for a null image. The buffer made by
`gst_core_video_buffer_new` is represented by the image it wraps. -/
def gst_vtdec_session_output_callback (vtdec : GstVtdec) (frame : GstVideoCodecFrame)
    (status : Int) (info_flags : Nat) (image_buffer : Option Nat) (pts duration : CMTime) :
    CallbackOutcome :=
  if status != noErr then
    { vtdec := vtdec, calls := [DecoderCall.gst_video_decoder_drop_frame frame] }
  else
    match image_buffer with
    | none => { vtdec := vtdec, calls := [DecoderCall.gst_video_decoder_drop_frame frame] }
    | some image =>
      match vtdec.output_state with
      | none => { vtdec := vtdec, calls := [DecoderCall.gst_video_decoder_release_frame frame] }
      | some _ =>
        let buf : GstBuffer :=
          { pts := to_guint64 pts.value
            duration := to_guint64 duration.value
            image_buffer := image }
        let queued : GstVideoCodecFrame := { frame with output_buffer := some buf }
        { vtdec :=
            { vtdec with
              reorder_queue :=
                g_async_queue_push_sorted vtdec.reorder_queue queued sort_frames_by_pts }
          calls := [] }

/-- State of the emission loop of `gst_vtdec_push_frames_if_needed`.
`popped` lists the frames taken from the queue so far, as they were queued;
`finished` counts the calls of `gst_video_decoder_finish_frame`. -/
structure PushState where
  reorder_queue : List GstVideoCodecFrame
  ret : GstFlowReturn
  calls : List DecoderCall
  popped : List GstVideoCodecFrame
  finished : Nat
  deriving DecidableEq, Repr

/-- The `while` loop of `gst_vtdec_push_frames_if_needed`. `downstream i` is
what the `i`-th call of `gst_video_decoder_finish_frame` of this invocation
returns. Every iteration that does not leave the loop removes a frame, so
`fuel` above the queue length is never used up. -/
def push_frames_loop (reorder_queue_length : Int) (texture_cache : Option TextureCache)
    (drain flush : Bool) (downstream : Nat → GstFlowReturn) : Nat → PushState → PushState
  | 0, s => s
  | fuel + 1, s =>
    if decide (g_async_queue_length s.reorder_queue >= reorder_queue_length) || drain || flush then
      match g_async_queue_try_pop s.reorder_queue with
      | (none, _) => s
      | (some frame, rest) =>
        let handed : GstVideoCodecFrame :=
          match texture_cache with
          | some get_gl_buffer => { frame with output_buffer := get_gl_buffer frame.output_buffer }
          | none => frame
        if flush then
          push_frames_loop reorder_queue_length texture_cache drain flush downstream fuel
            { s with
              reorder_queue := rest
              calls := s.calls ++ [DecoderCall.gst_video_decoder_drop_frame handed]
              popped := s.popped ++ [frame] }
        else
          let ret := downstream s.finished
          let s1 : PushState :=
            { reorder_queue := rest
              ret := ret
              calls := s.calls ++ [DecoderCall.gst_video_decoder_finish_frame handed]
              popped := s.popped ++ [frame]
              finished := s.finished + 1 }
          if ret != GST_FLOW_OK then s1
          else push_frames_loop reorder_queue_length texture_cache drain flush downstream fuel s1
    else s

/-- What one invocation of `gst_vtdec_push_frames_if_needed` did. -/
structure PushOutcome where
  ret : GstFlowReturn
  vtdec : GstVtdec
  calls : List DecoderCall
  popped : List GstVideoCodecFrame

/-- Emission of queued frames (`gst_vtdec_push_frames_if_needed`). The
renegotiation block at its start acts on the source pad and on the format of
the texture cache only, neither of which is part of this state. -/
def gst_vtdec_push_frames_if_needed (vtdec : GstVtdec) (drain flush : Bool)
    (downstream : Nat → GstFlowReturn) : PushOutcome :=
  let start : PushState :=
    { reorder_queue := vtdec.reorder_queue
      ret := GST_FLOW_OK
      calls :=
        if drain then [DecoderCall.VTDecompressionSessionWaitForAsynchronousFrames] else []
      popped := []
      finished := 0 }
  let stop :=
    push_frames_loop vtdec.reorder_queue_length vtdec.texture_cache drain flush downstream
      (vtdec.reorder_queue.length + 1) start
  { ret := stop.ret
    vtdec := { vtdec with reorder_queue := stop.reorder_queue }
    calls := stop.calls
    popped := stop.popped }

/-- The frame as handed to the base class by the emission loop: with a
texture cache its output buffer is replaced by the texture-backed one. -/
def handed_frame (texture_cache : Option TextureCache) (frame : GstVideoCodecFrame) :
    GstVideoCodecFrame :=
  match texture_cache with
  | some get_gl_buffer => { frame with output_buffer := get_gl_buffer frame.output_buffer }
  | none => frame

/-! ### Interleavings of completion callbacks and emission calls -/

/-- Where the streaming thread stands in a steady-state call of
`gst_vtdec_push_frames_if_needed` (`drain` and `flush` both false): outside
any call, about to test the `while` condition, about to call
`g_async_queue_try_pop` after the condition held, or holding the frame it
popped and about to hand it to `gst_video_decoder_finish_frame`. -/
inductive EmitPc
  | outside
  | at_check
  | at_pop
  | at_finish (frame : GstVideoCodecFrame)
  deriving DecidableEq, Repr

/-- One action seen by the reorder queue. A completion callback runs on a
thread of the backend; its insertion is one operation on the queue. `advance`
is the next action of the streaming thread: entering a call, testing the loop
condition, popping, or delivering the frame in hand, `ret` being what
`gst_video_decoder_finish_frame` returns if that is the action. Callbacks can
come between any two actions of the streaming thread. -/
inductive VtStep
  | callback (frame : GstVideoCodecFrame) (status : Int) (info_flags : Nat)
      (image_buffer : Option Nat) (pts duration : CMTime)
  | advance (ret : GstFlowReturn)

/-- The decoder, the position of the streaming thread, the frames popped from
the queue so far, as they were queued, and the frames handed downstream so
far, as they were handed. -/
structure VtRun where
  vtdec : GstVtdec
  pc : EmitPc
  popped : List GstVideoCodecFrame
  emitted : List GstVideoCodecFrame

/-- Apply one action. The streaming thread follows the loop of
`gst_vtdec_push_frames_if_needed`: the condition
`g_async_queue_length (reorder_queue) >= reorder_queue_length`, then
`g_async_queue_try_pop` (with a texture cache the output buffer of the frame
popped is replaced at once), then `gst_video_decoder_finish_frame` on that
frame; it leaves the call when the condition fails, when the pop returns
null, or when the delivery does not return `GST_FLOW_OK`. -/
def VtRun.step (r : VtRun) : VtStep → VtRun
  | VtStep.callback frame status info_flags image_buffer pts duration =>
    { r with
      vtdec :=
        (gst_vtdec_session_output_callback r.vtdec frame status info_flags image_buffer pts
          duration).vtdec }
  | VtStep.advance ret =>
    match r.pc with
    | EmitPc.outside => { r with pc := EmitPc.at_check }
    | EmitPc.at_check =>
      if g_async_queue_length r.vtdec.reorder_queue >= r.vtdec.reorder_queue_length then
        { r with pc := EmitPc.at_pop }
      else
        { r with pc := EmitPc.outside }
    | EmitPc.at_pop =>
      match g_async_queue_try_pop r.vtdec.reorder_queue with
      | (none, _) => { r with pc := EmitPc.outside }
      | (some frame, rest) =>
        { r with
          vtdec := { r.vtdec with reorder_queue := rest }
          pc := EmitPc.at_finish (handed_frame r.vtdec.texture_cache frame)
          popped := r.popped ++ [frame] }
    | EmitPc.at_finish frame =>
      { r with
        pc := if ret != GST_FLOW_OK then EmitPc.outside else EmitPc.at_check
        emitted := r.emitted ++ [frame] }

/-- Apply the actions one after another. -/
def VtRun.run (r : VtRun) (steps : List VtStep) : VtRun :=
  steps.foldl VtRun.step r

/-- The start of an interleaving: the streaming thread outside any call,
nothing popped, nothing handed downstream. -/
def VtRun.start (vtdec : GstVtdec) : VtRun :=
  { vtdec := vtdec, pc := EmitPc.outside, popped := [], emitted := [] }

/-- A configured decoder with an empty reorder queue and the given reorder
depth. -/
def GstVtdec.idle (reorder_queue_length : Int) (texture_cache : Option TextureCache) :
    GstVtdec :=
  { video_info := { width := 0, height := 0, fps_n := 0, fps_d := 1 }
    reorder_queue_length := reorder_queue_length
    reorder_queue := []
    session := some 1
    format_description := some 1
    texture_cache := texture_cache
    output_state := some { width := 0, height := 0, fps_n := 0, fps_d := 1 } }

/-- Successive calls of `g_async_queue_try_pop`, at most `n` of them, until
the queue is empty: the elements in the order they are returned. -/
def successive_pops {α : Type} : Nat → List α → List α
  | 0, _ => []
  | n + 1, queue =>
    match g_async_queue_try_pop queue with
    | (none, _) => []
    | (some x, rest) => x :: successive_pops n rest

/-- Number of frames one emission call takes from a queue of `n` frames when
no delivery fails: all of them when draining or when the depth is not
positive, otherwise those above `depth - 1`. -/
def emit_count (reorder_queue_length : Int) (drain : Bool) (n : Nat) : Nat :=
  if drain then n
  else if reorder_queue_length ≤ 0 then n
  else if reorder_queue_length ≤ n then n + 1 - reorder_queue_length.toNat
  else 0

/-- Discarding of queued frames (`gst_vtdec_flush`): the emission with
`drain = FALSE`, `flush = TRUE`, whose result is ignored; returns `TRUE`. -/
def gst_vtdec_flush (vtdec : GstVtdec) (downstream : Nat → GstFlowReturn) :
    Bool × PushOutcome :=
  (true, gst_vtdec_push_frames_if_needed vtdec false true downstream)

/-- End of stream (`gst_vtdec_finish`): the emission with `drain = TRUE`,
`flush = FALSE`. -/
def gst_vtdec_finish (vtdec : GstVtdec) (downstream : Nat → GstFlowReturn) : PushOutcome :=
  gst_vtdec_push_frames_if_needed vtdec true false downstream

/-- The flow return `GST_FLOW_NOT_NEGOTIATED`. -/
def GST_FLOW_NOT_NEGOTIATED : GstFlowReturn := -4

/-- What `gst_vtdec_handle_frame` did. -/
structure HandleOutcome where
  ret : GstFlowReturn
  vtdec : GstVtdec
  calls : List DecoderCall

/-- Submission of an input frame (`gst_vtdec_handle_frame`). `status` is what
`VTDecompressionSessionDecodeFrame` returns. The macro
`GST_VIDEO_DECODER_ERROR` belongs to the base class: it counts the error and
assigns its verdict to `ret`; that verdict is the parameter `decoder_error`. -/
def gst_vtdec_handle_frame (vtdec : GstVtdec) (frame : GstVideoCodecFrame)
    (downstream : Nat → GstFlowReturn) (status : Int) (decoder_error : GstFlowReturn) :
    HandleOutcome :=
  match vtdec.format_description with
  | none => { ret := GST_FLOW_NOT_NEGOTIATED, vtdec := vtdec, calls := [] }
  | some _ =>
    let pushed := gst_vtdec_push_frames_if_needed vtdec false false downstream
    if pushed.ret != GST_FLOW_OK then
      { ret := pushed.ret, vtdec := pushed.vtdec, calls := pushed.calls }
    else if status != noErr then
      { ret := decoder_error
        vtdec := pushed.vtdec
        calls :=
          pushed.calls ++
            [DecoderCall.VTDecompressionSessionDecodeFrame frame,
              DecoderCall.GST_VIDEO_DECODER_ERROR status] }
    else
      { ret := pushed.ret
        vtdec := pushed.vtdec
        calls := pushed.calls ++ [DecoderCall.VTDecompressionSessionDecodeFrame frame] }

/-! ## vtdec.c: configuration -/

/-- Codec tag `kCMVideoCodecType_MPEG2Video` (the four characters mp2v). -/
def kCMVideoCodecType_MPEG2Video : Nat := 0x6d703276

/-- Codec tag `kCMVideoCodecType_JPEG` (the four characters jpeg). -/
def kCMVideoCodecType_JPEG : Nat := 0x6a706567

/-- The input state handed to `set_format`: the name of the first caps
structure, the video info the caps describe, and the codec data buffer, which
may be null. -/
structure GstVideoCodecState where
  caps_name : String
  info : GstVideoInfo
  codec_data : Option (List guint8)

/-- A call on the decode backend that opens or closes a session. -/
inductive SessionCall
  | VTDecompressionSessionInvalidate (session : Nat)
  | VTDecompressionSessionCreate (format_description : Option Nat)
  deriving DecidableEq, Repr

/-- What the backend answers during one configuration: the format description
`CMVideoFormatDescriptionCreate` yields (null on failure), the status of
`VTDecompressionSessionCreate` and the session it stores on success. -/
structure VtBackend where
  format_description : Option Nat
  session_status : Int
  session : Nat

/-- Result of a configuration step: the `gboolean` returned, the decoder
afterwards and the backend calls made. -/
structure SessionOutcome where
  ret : Bool
  vtdec : GstVtdec
  calls : List SessionCall

/-- Closing of the session (`gst_vtdec_invalidate_session`); without a
session the `g_return_if_fail` leaves at once. -/
def gst_vtdec_invalidate_session (vtdec : GstVtdec) : GstVtdec × List SessionCall :=
  match vtdec.session with
  | none => (vtdec, [])
  | some session =>
    ({ vtdec with session := none }, [SessionCall.VTDecompressionSessionInvalidate session])

/-- Opening of a session (`gst_vtdec_create_session`). -/
def gst_vtdec_create_session (vtdec : GstVtdec) (backend : VtBackend) : SessionOutcome :=
  if backend.session_status != noErr then
    { ret := false
      vtdec := vtdec
      calls := [SessionCall.VTDecompressionSessionCreate vtdec.format_description] }
  else
    { ret := true
      vtdec := { vtdec with session := some backend.session }
      calls := [SessionCall.VTDecompressionSessionCreate vtdec.format_description] }

/-- The codec tag chosen from the caps name in `gst_vtdec_set_format`. -/
def cm_format_of_caps_name (caps_name : String) : Nat :=
  if caps_name = "video/x-h264" then kCMVideoCodecType_H264
  else if caps_name = "video/mpeg" then kCMVideoCodecType_MPEG2Video
  else if caps_name = "image/jpeg" then kCMVideoCodecType_JPEG
  else 0

/-- Configuration (`gst_vtdec_set_format`). The result `none` stands for the
integer division of the depth computation trapping. The latency report and
the negotiation of the output format act on the base class only. -/
def gst_vtdec_set_format (vtdec : GstVtdec) (state : GstVideoCodecState)
    (backend : VtBackend) : Option SessionOutcome :=
  let cm_format := cm_format_of_caps_name state.caps_name
  if cm_format = kCMVideoCodecType_H264 && state.codec_data.isNone then
    some { ret := true, vtdec := vtdec, calls := [] }
  else
    let closed :=
      if vtdec.session.isSome then gst_vtdec_invalidate_session vtdec else (vtdec, [])
    let vtdec1 : GstVtdec := { closed.1 with video_info := state.info }
    match
      gst_vtdec_compute_reorder_queue_length vtdec1.video_info cm_format
        (state.codec_data.getD []) with
    | none => none
    | some depth =>
      let vtdec2 : GstVtdec := { vtdec1 with reorder_queue_length := depth.length }
      if !depth.ret then
        some { ret := false, vtdec := vtdec2, calls := closed.2 }
      else
        let vtdec3 : GstVtdec :=
          { vtdec2 with format_description := backend.format_description }
        let opened := gst_vtdec_create_session vtdec3 backend
        if !opened.ret then
          some { ret := false, vtdec := opened.vtdec, calls := closed.2 ++ opened.calls }
        else
          some
            { ret := true
              vtdec := { opened.vtdec with output_state := some opened.vtdec.video_info }
              calls := closed.2 ++ opened.calls }

/-- Shutdown (`gst_vtdec_stop`): close the session if there is one and free
the texture cache. -/
def gst_vtdec_stop (vtdec : GstVtdec) : SessionOutcome :=
  let closed :=
    if vtdec.session.isSome then gst_vtdec_invalidate_session vtdec else (vtdec, [])
  { ret := true, vtdec := { closed.1 with texture_cache := none }, calls := closed.2 }

/-! ### Sequences of configuration and stop calls -/

/-- A call of the base class on the decoder that touches the session. -/
inductive ConfigOp
  | set_format (state : GstVideoCodecState) (backend : VtBackend)
  | stop

/-- The effect of one backend call on the sessions the backend holds open and
on the largest number of them seen so far. `created` is the session a
`VTDecompressionSessionCreate` call opens, if it succeeds. -/
def replay_session_call (created : Option Nat) (ledger : List Nat × Nat) :
    SessionCall → List Nat × Nat
  | SessionCall.VTDecompressionSessionInvalidate session => (ledger.1.erase session, ledger.2)
  | SessionCall.VTDecompressionSessionCreate _ =>
    match created with
    | none => ledger
    | some session => (session :: ledger.1, max ledger.2 (ledger.1.length + 1))

/-- The decoder across a sequence of calls, with the backend calls made so
far, the sessions open in the backend and the largest number of sessions that
were open at the same time. -/
structure ConfigRun where
  vtdec : GstVtdec
  calls : List SessionCall
  open_sessions : List Nat
  peak : Nat

/-- Apply one call; `none` when the depth computation traps. -/
def ConfigRun.step (r : ConfigRun) : ConfigOp → Option ConfigRun
  | ConfigOp.set_format state backend =>
    match gst_vtdec_set_format r.vtdec state backend with
    | none => none
    | some out =>
      let created :=
        if backend.session_status != noErr then none else some backend.session
      let ledger := out.calls.foldl (replay_session_call created) (r.open_sessions, r.peak)
      some
        { vtdec := out.vtdec
          calls := r.calls ++ out.calls
          open_sessions := ledger.1
          peak := ledger.2 }
  | ConfigOp.stop =>
    let out := gst_vtdec_stop r.vtdec
    let ledger := out.calls.foldl (replay_session_call none) (r.open_sessions, r.peak)
    some
      { vtdec := out.vtdec
        calls := r.calls ++ out.calls
        open_sessions := ledger.1
        peak := ledger.2 }

/-- Apply the calls one after another. -/
def ConfigRun.run : ConfigRun → List ConfigOp → Option ConfigRun
  | r, [] => some r
  | r, op :: ops =>
    match r.step op with
    | none => none
    | some r1 => r1.run ops

/-- The start of a sequence: the backend holds open exactly the session the
decoder holds, if any. -/
def ConfigRun.start (vtdec : GstVtdec) : ConfigRun :=
  { vtdec := vtdec
    calls := []
    open_sessions := vtdec.session.toList
    peak := vtdec.session.toList.length }

/-! ## corevideomemory.c: regions -/

/-- The sentinel `GST_CORE_VIDEO_NO_PLANE`, `(size_t) -1`. -/
def GST_CORE_VIDEO_NO_PLANE : Nat := 18446744073709551615

/-- A region (`GstCoreVideoMemory`): the `GstMemory` fields the allocator
sets and the plane. The handle `gpixbuf` it points to is passed alongside,
since several regions share one handle. `parent` is the address of the parent
region, if any. -/
structure GstCoreVideoMemory where
  flags : Nat
  parent : Option Nat
  maxsize : Nat
  align : Nat
  offset : Nat
  size : Nat
  plane : Nat
  deriving DecidableEq, Repr

/-- Result of `gst_core_video_mem_map`: the pointer returned (`0` is `NULL`),
the handle afterwards and the Core Video lock calls made. -/
structure MapOutcome where
  ret : Nat
  gpixbuf : GstCoreVideoPixelBuffer
  calls : List CVCall
  deriving DecidableEq, Repr

/-- Mapping of a region (`gst_core_video_mem_map`). `cvret` is the status the
native lock call returns if it is made; `base_address` is what
`CVPixelBufferGetBaseAddress` returns and `base_address_of_plane` what
`CVPixelBufferGetBaseAddressOfPlane` returns for a plane, `0` being `NULL`. -/
def gst_core_video_mem_map (cvret : Int) (base_address : Nat)
    (base_address_of_plane : Nat → Nat) (mem : GstCoreVideoMemory)
    (gpixbuf : GstCoreVideoPixelBuffer) (flags : Nat) : MapOutcome :=
  let locked := gst_core_video_pixel_buffer_lock cvret gpixbuf flags
  if !locked.ret then
    { ret := 0, gpixbuf := locked.gpixbuf, calls := locked.calls }
  else if mem.plane != GST_CORE_VIDEO_NO_PLANE then
    { ret := base_address_of_plane mem.plane, gpixbuf := locked.gpixbuf, calls := locked.calls }
  else
    { ret := base_address, gpixbuf := locked.gpixbuf, calls := locked.calls }

/-- Unmapping of a region (`gst_core_video_mem_unmap`): the result of the
unlock is discarded. -/
def gst_core_video_mem_unmap (cvret : Int) (gpixbuf : GstCoreVideoPixelBuffer) : LockOutcome :=
  gst_core_video_pixel_buffer_unlock cvret gpixbuf

/-- Mini-object flag `GST_MINI_OBJECT_FLAG_LOCKABLE`, which `gst_memory_init`
gives every memory. -/
def GST_MINI_OBJECT_FLAG_LOCKABLE : Nat := 1

/-- Mini-object flag `GST_MINI_OBJECT_FLAG_LOCK_READONLY`: only read locks can
be taken on the object. -/
def GST_MINI_OBJECT_FLAG_LOCK_READONLY : Nat := 2

/-- Taking a reference (`gst_core_video_pixel_buffer_ref`). -/
def gst_core_video_pixel_buffer_ref (gpixbuf : GstCoreVideoPixelBuffer) :
    GstCoreVideoPixelBuffer :=
  { gpixbuf with refcount := g_atomic_int_inc gpixbuf.refcount }

/-- Result of `gst_core_video_pixel_buffer_unref`: the handle afterwards
(`none` once it is freed), the native buffers handed to
`CVPixelBufferRelease`, and whether the still-locked error was logged. -/
structure UnrefOutcome where
  gpixbuf : Option GstCoreVideoPixelBuffer
  released : List Nat
  error : Bool
  deriving DecidableEq, Repr

/-- Dropping a reference (`gst_core_video_pixel_buffer_unref`). -/
def gst_core_video_pixel_buffer_unref (gpixbuf : GstCoreVideoPixelBuffer) : UnrefOutcome :=
  if g_atomic_int_dec gpixbuf.refcount = 0 then
    { gpixbuf := none
      released := [gpixbuf.buf]
      error := gpixbuf.lock_state != GST_CORE_VIDEO_MEMORY_UNLOCKED }
  else
    { gpixbuf := some { gpixbuf with refcount := g_atomic_int_dec gpixbuf.refcount }
      released := []
      error := false }

/-- A reference count operation. -/
inductive RefOp
  | ref
  | unref
  deriving DecidableEq, Repr

/-- A handle over its lifetime: the handle while it exists, the native buffers
released so far and the number of still-locked errors logged. -/
structure Lifetime where
  handle : Option GstCoreVideoPixelBuffer
  released : List Nat
  errors : Nat
  deriving DecidableEq, Repr

/-- Apply one operation. Once the handle is freed there is nothing left to
operate on. -/
def Lifetime.step (l : Lifetime) (op : RefOp) : Lifetime :=
  match l.handle with
  | none => l
  | some gpixbuf =>
    match op with
    | RefOp.ref => { l with handle := some (gst_core_video_pixel_buffer_ref gpixbuf) }
    | RefOp.unref =>
      { handle := (gst_core_video_pixel_buffer_unref gpixbuf).gpixbuf
        released := l.released ++ (gst_core_video_pixel_buffer_unref gpixbuf).released
        errors :=
          l.errors + (if (gst_core_video_pixel_buffer_unref gpixbuf).error then 1 else 0) }

/-- Apply the operations one after another. -/
def Lifetime.run (l : Lifetime) (ops : List RefOp) : Lifetime :=
  ops.foldl Lifetime.step l

/-- The lifetime of a handle starts with nothing released. -/
def Lifetime.start (gpixbuf : GstCoreVideoPixelBuffer) : Lifetime :=
  { handle := some gpixbuf, released := [], errors := 0 }

/-- A new region and the handle after the region took its reference. -/
structure RegionOutcome where
  mem : GstCoreVideoMemory
  gpixbuf : GstCoreVideoPixelBuffer
  deriving DecidableEq, Repr

/-- Creation of a region (`gst_core_video_memory_new`). `gst_memory_init`
stores the arguments and adds the lockable flag; the region takes a reference
on the handle. -/
def gst_core_video_memory_new (flags : Nat) (parent : Option Nat)
    (gpixbuf : GstCoreVideoPixelBuffer) (plane maxsize align offset size : Nat) :
    RegionOutcome :=
  { mem :=
      { flags := flags ||| GST_MINI_OBJECT_FLAG_LOCKABLE
        parent := parent
        maxsize := maxsize
        align := align
        offset := offset
        size := size
        plane := plane }
    gpixbuf := gst_core_video_pixel_buffer_ref gpixbuf }

/-- Wrapping of a handle, whole or one plane
(`gst_core_video_memory_new_wrapped`). -/
def gst_core_video_memory_new_wrapped (gpixbuf : GstCoreVideoPixelBuffer) (plane size : Nat) :
    RegionOutcome :=
  gst_core_video_memory_new 0 none gpixbuf plane size 0 0 size

/-- Sharing of a region (`gst_core_video_mem_share`). `gmem_addr` is the
address of `gmem`, `flags_at` reads the flags of the region at an address
(`GST_MINI_OBJECT_FLAGS`), `gpixbuf` is the handle `gmem` points to. `offset`
and `size` are `gssize`; the sums are taken as `gsize`, that is modulo
`2 ^ 64`. -/
def gst_core_video_mem_share (flags_at : Nat → Nat) (gmem_addr : Nat)
    (gmem : GstCoreVideoMemory) (gpixbuf : GstCoreVideoPixelBuffer) (offset size : Int) :
    RegionOutcome :=
  let parent : Nat :=
    match gmem.parent with
    | some p => p
    | none => gmem_addr
  let parent_flags : Nat :=
    match gmem.parent with
    | some p => flags_at p
    | none => gmem.flags
  let size1 : Int := if size = -1 then (gmem.size : Int) - offset else size
  gst_core_video_memory_new (parent_flags ||| GST_MINI_OBJECT_FLAG_LOCK_READONLY) (some parent)
    gpixbuf gmem.plane gmem.maxsize gmem.align (to_guint64 ((gmem.offset : Int) + offset))
    (to_guint64 size1)

/-- A chain of shares: each step shares the region made by the step before and
stores the result at the address the step names. The state is the address of
the current region, the region and the handle. -/
def share_chain (flags_at : Nat → Nat) :
    Nat × GstCoreVideoMemory × GstCoreVideoPixelBuffer → List (Nat × Int × Int) →
      Nat × GstCoreVideoMemory × GstCoreVideoPixelBuffer
  | current, [] => current
  | current, (addr, offset, size) :: rest =>
    share_chain flags_at
      (addr,
        (gst_core_video_mem_share flags_at current.1 current.2.1 current.2.2 offset size).mem,
        (gst_core_video_mem_share flags_at current.1 current.2.1 current.2.2 offset size).gpixbuf)
      rest

/-- What `gst_memory_map` hands back: success, the fields `data`, `size` and
`maxsize` of the map info, the handle afterwards and the Core Video lock calls
made. -/
structure MemoryMapOutcome where
  ok : Bool
  data : Nat
  size : Nat
  maxsize : Nat
  gpixbuf : GstCoreVideoPixelBuffer
  calls : List CVCall
  deriving DecidableEq, Repr

/-- The entry point `gst_memory_map` of the GstMemory layer, through which
`gst_core_video_mem_map` is reached; it is GStreamer core code, outside this
plugin. It refuses a write request on a memory flagged
`GST_MINI_OBJECT_FLAG_LOCK_READONLY`; `granted` is the verdict of the rest of
the mini-object lock. It then calls the allocator's map function, fails when
that returns null, and otherwise reports the address plus the region's offset
and the region's size. -/
def gst_memory_map (granted : Bool) (cvret : Int) (base_address : Nat)
    (base_address_of_plane : Nat → Nat) (mem : GstCoreVideoMemory)
    (gpixbuf : GstCoreVideoPixelBuffer) (flags : Nat) : MemoryMapOutcome :=
  if (mem.flags &&& GST_MINI_OBJECT_FLAG_LOCK_READONLY != 0 && wants_write flags) ||
      !granted then
    { ok := false, data := 0, size := 0, maxsize := 0, gpixbuf := gpixbuf, calls := [] }
  else
    let mapped :=
      gst_core_video_mem_map cvret base_address base_address_of_plane mem gpixbuf flags
    if mapped.ret = 0 then
      { ok := false, data := 0, size := 0, maxsize := 0, gpixbuf := mapped.gpixbuf,
        calls := mapped.calls }
    else
      { ok := true
        data := mapped.ret + mem.offset
        size := mem.size
        maxsize := mem.maxsize - mem.offset
        gpixbuf := mapped.gpixbuf
        calls := mapped.calls }

/-- Span query (`gst_core_video_mem_is_span`): the answer and the value behind
`offset`, which the function does not write. -/
def gst_core_video_mem_is_span (mem1 mem2 : GstCoreVideoMemory) (offset : Nat) : Bool × Nat :=
  (false, offset)

/-! ## Reorder queue: insertion sequences -/

/-- The queue after the completion callback has inserted `frames` one after
another, first to last, behind what `queue` held. -/
def insert_frames (queue : List GstVideoCodecFrame) (frames : List GstVideoCodecFrame) :
    List GstVideoCodecFrame :=
  frames.foldl (fun q f => g_async_queue_push_sorted q f sort_frames_by_pts) queue

/-- An operation on a handle: a lock or unlock with the status of its native
call, or a reference taken or dropped by a region. -/
inductive HandleOp
  | lock (flags : Nat) (cvret : Int)
  | unlock (cvret : Int)
  | ref
  | unref
  deriving DecidableEq, Repr

/-- The handle after one operation; `none` when the operation frees it. -/
def HandleOp.apply (op : HandleOp) (gpixbuf : GstCoreVideoPixelBuffer) :
    Option GstCoreVideoPixelBuffer :=
  match op with
  | HandleOp.lock flags cvret =>
    some (gst_core_video_pixel_buffer_lock cvret gpixbuf flags).gpixbuf
  | HandleOp.unlock cvret => some (gst_core_video_pixel_buffer_unlock cvret gpixbuf).gpixbuf
  | HandleOp.ref => some (gst_core_video_pixel_buffer_ref gpixbuf)
  | HandleOp.unref => (gst_core_video_pixel_buffer_unref gpixbuf).gpixbuf

/-- The handle after a sequence of operations; `none` when one of them frees
it. -/
def handle_after : GstCoreVideoPixelBuffer → List HandleOp → Option GstCoreVideoPixelBuffer
  | gpixbuf, [] => some gpixbuf
  | gpixbuf, op :: ops =>
    match op.apply gpixbuf with
    | none => none
    | some next => handle_after next ops

/-! ## Sample values -/

/-- A decoded frame with the given sequence number and time stamp. -/
def frame_at (number : Int) (pts : Nat) : GstVideoCodecFrame :=
  { decode_frame_number := number
    output_buffer := some { pts := pts, duration := 40, image_buffer := 0 } }

/-- A configured decoder with reorder depth `depth` holding `queue`, listed
from the head of the queue. -/
def vtdec_holding (depth : Int) (queue : List GstVideoCodecFrame) : GstVtdec :=
  { GstVtdec.idle depth none with reorder_queue := queue }

/-- A configuration for H.264 followed by a reconfiguration for JPEG, the
backend opening a session each time. -/
def sample_reconfiguration : List ConfigOp :=
  [ConfigOp.set_format
      { caps_name := "video/x-h264"
        info := { width := 1280, height := 720, fps_n := 30, fps_d := 1 }
        codec_data := some [1, 100, 0, 31, 255, 225, 0] }
      { format_description := some 7, session_status := 0, session := 9 },
    ConfigOp.set_format
      { caps_name := "image/jpeg"
        info := { width := 640, height := 480, fps_n := 30, fps_d := 1 }
        codec_data := none }
      { format_description := some 8, session_status := 0, session := 10 }]

/-- A wrapped plane of 4096 bytes, as `gst_core_video_memory_new_wrapped`
makes it. -/
def sample_region : GstCoreVideoMemory :=
  (gst_core_video_memory_new_wrapped (gst_core_video_pixel_buffer_create 7) 0 4096).mem

/-- The handle of `sample_region` after the region took its reference. -/
def sample_handle : GstCoreVideoPixelBuffer :=
  (gst_core_video_memory_new_wrapped (gst_core_video_pixel_buffer_create 7) 0 4096).gpixbuf

/-! ## Lock arbiter: basic facts -/

theorem wants_write_eq_true_iff (flags : Nat) :
    wants_write flags = true ↔ flags &&& GST_MAP_WRITE ≠ 0 := by
  simp [wants_write]

theorem wants_write_eq_false_iff (flags : Nat) :
    wants_write flags = false ↔ flags &&& GST_MAP_WRITE = 0 := by
  simp [wants_write]

theorem g_atomic_int_inc_lt (n : Nat) : g_atomic_int_inc n < GUINT_RANGE :=
  Nat.mod_lt _ (by decide)

theorem g_atomic_int_dec_lt (n : Nat) : g_atomic_int_dec n < GUINT_RANGE := by
  unfold g_atomic_int_dec GUINT_RANGE
  split <;> omega

theorem g_atomic_int_inc_of_lt {n : Nat} (h : n + 1 < GUINT_RANGE) :
    g_atomic_int_inc n = n + 1 := by
  unfold g_atomic_int_inc
  exact Nat.mod_eq_of_lt h

theorem g_atomic_int_dec_of_pos {n : Nat} (h0 : 0 < n) (h : n < GUINT_RANGE) :
    g_atomic_int_dec n = n - 1 := by
  unfold g_atomic_int_dec GUINT_RANGE at *
  split <;> omega

theorem g_atomic_int_dec_zero : g_atomic_int_dec 0 = GUINT_RANGE - 1 := by
  unfold g_atomic_int_dec
  rfl

theorem g_atomic_int_dec_eq_add_mod (n : Nat) :
    g_atomic_int_dec n = (n + (GUINT_RANGE - 1)) % GUINT_RANGE := by
  unfold g_atomic_int_dec GUINT_RANGE
  split <;> omega

theorem g_atomic_int_dec_eq_zero_iff {n : Nat} (h : n < GUINT_RANGE) :
    g_atomic_int_dec n = 0 ↔ n = 1 := by
  unfold g_atomic_int_dec GUINT_RANGE at *
  split <;> omega

theorem g_atomic_int_inc_dec {n : Nat} (h : n < GUINT_RANGE) :
    g_atomic_int_inc (g_atomic_int_dec n) = n := by
  unfold g_atomic_int_inc g_atomic_int_dec GUINT_RANGE at *
  split <;> omega

/-- C1: a lock request carrying the write flag on a wrapper that is locked
read-only returns failure, issues no native call and leaves the wrapper,
in particular `lock_state` and `lock_count`, as it was. -/
theorem C1_write_lock_on_readonly_rejected (cvret : Int) (gpixbuf : GstCoreVideoPixelBuffer)
    (flags : Nat)
    (hstate : gpixbuf.lock_state = GST_CORE_VIDEO_MEMORY_LOCKED_READONLY)
    (hwrite : flags &&& GST_MAP_WRITE ≠ 0) :
    (gst_core_video_pixel_buffer_lock cvret gpixbuf flags).ret = false ∧
    (gst_core_video_pixel_buffer_lock cvret gpixbuf flags).calls = [] ∧
    (gst_core_video_pixel_buffer_lock cvret gpixbuf flags).gpixbuf.lock_state
      = gpixbuf.lock_state ∧
    (gst_core_video_pixel_buffer_lock cvret gpixbuf flags).gpixbuf.lock_count
      = gpixbuf.lock_count := by
  have hw : wants_write flags = true := (wants_write_eq_true_iff flags).mpr hwrite
  simp [gst_core_video_pixel_buffer_lock, hstate, hw]

/-- C1 at a wrapper locked read-only three times and a read-write request. -/
theorem C1_write_lock_on_readonly_rejected_witness :
    (GST_MAP_READWRITE &&& GST_MAP_WRITE ≠ 0) ∧
    (gst_core_video_pixel_buffer_lock 0
      { refcount := 2, buf := 7, lock_state := GST_CORE_VIDEO_MEMORY_LOCKED_READONLY,
        lock_count := 3 } GST_MAP_READWRITE).ret = false ∧
    (gst_core_video_pixel_buffer_lock 0
      { refcount := 2, buf := 7, lock_state := GST_CORE_VIDEO_MEMORY_LOCKED_READONLY,
        lock_count := 3 } GST_MAP_READWRITE).calls = [] ∧
    (gst_core_video_pixel_buffer_lock 0
      { refcount := 2, buf := 7, lock_state := GST_CORE_VIDEO_MEMORY_LOCKED_READONLY,
        lock_count := 3 } GST_MAP_READWRITE).gpixbuf.lock_state
      = GST_CORE_VIDEO_MEMORY_LOCKED_READONLY ∧
    (gst_core_video_pixel_buffer_lock 0
      { refcount := 2, buf := 7, lock_state := GST_CORE_VIDEO_MEMORY_LOCKED_READONLY,
        lock_count := 3 } GST_MAP_READWRITE).gpixbuf.lock_count = 3 :=
  ⟨by decide,
    C1_write_lock_on_readonly_rejected 0
      { refcount := 2, buf := 7, lock_state := GST_CORE_VIDEO_MEMORY_LOCKED_READONLY,
        lock_count := 3 } GST_MAP_READWRITE rfl (by decide)⟩

/-! ## Lock arbiter: the branches of lock and unlock -/

theorem lock_unlocked_fail (cvret : Int) (g : GstCoreVideoPixelBuffer) (flags : Nat)
    (hs : g.lock_state = GST_CORE_VIDEO_MEMORY_UNLOCKED) (hc : cvret ≠ kCVReturnSuccess) :
    gst_core_video_pixel_buffer_lock cvret g flags =
      { ret := false, gpixbuf := g
        calls := [CVCall.CVPixelBufferLockBaseAddress g.buf
          (if wants_write flags then 0 else kCVPixelBufferLock_ReadOnly)] } := by
  unfold gst_core_video_pixel_buffer_lock
  rw [hs]
  have hb : (cvret != kCVReturnSuccess) = true := bne_iff_ne.mpr hc
  simp only [hb, if_true]

theorem lock_unlocked_ok (cvret : Int) (g : GstCoreVideoPixelBuffer) (flags : Nat)
    (hs : g.lock_state = GST_CORE_VIDEO_MEMORY_UNLOCKED) (hc : cvret = kCVReturnSuccess) :
    gst_core_video_pixel_buffer_lock cvret g flags =
      { ret := true
        gpixbuf :=
          { g with
            lock_state :=
              if wants_write flags then GST_CORE_VIDEO_MEMORY_LOCKED_READ_WRITE
              else GST_CORE_VIDEO_MEMORY_LOCKED_READONLY
            lock_count := g_atomic_int_inc g.lock_count }
        calls := [CVCall.CVPixelBufferLockBaseAddress g.buf
          (if wants_write flags then 0 else kCVPixelBufferLock_ReadOnly)] } := by
  unfold gst_core_video_pixel_buffer_lock
  rw [hs]
  have hb : (cvret != kCVReturnSuccess) = false := by rw [hc]; exact bne_self_eq_false _
  simp only [hb, Bool.false_eq_true, if_false]

theorem lock_readonly_write (cvret : Int) (g : GstCoreVideoPixelBuffer) (flags : Nat)
    (hs : g.lock_state = GST_CORE_VIDEO_MEMORY_LOCKED_READONLY)
    (hw : wants_write flags = true) :
    gst_core_video_pixel_buffer_lock cvret g flags =
      { ret := false, gpixbuf := g, calls := [] } := by
  unfold gst_core_video_pixel_buffer_lock
  rw [hs]
  simp only [hw, if_true]

theorem lock_readonly_read (cvret : Int) (g : GstCoreVideoPixelBuffer) (flags : Nat)
    (hs : g.lock_state = GST_CORE_VIDEO_MEMORY_LOCKED_READONLY)
    (hw : wants_write flags = false) :
    gst_core_video_pixel_buffer_lock cvret g flags =
      { ret := true
        gpixbuf := { g with lock_count := g_atomic_int_inc g.lock_count }
        calls := [] } := by
  unfold gst_core_video_pixel_buffer_lock
  rw [hs]
  simp only [hw, Bool.false_eq_true, if_false]

theorem lock_readwrite (cvret : Int) (g : GstCoreVideoPixelBuffer) (flags : Nat)
    (hs : g.lock_state = GST_CORE_VIDEO_MEMORY_LOCKED_READ_WRITE) :
    gst_core_video_pixel_buffer_lock cvret g flags =
      { ret := true
        gpixbuf := { g with lock_count := g_atomic_int_inc g.lock_count }
        calls := [] } := by
  unfold gst_core_video_pixel_buffer_lock
  rw [hs]

theorem unlock_unlocked (cvret : Int) (g : GstCoreVideoPixelBuffer)
    (hs : g.lock_state = GST_CORE_VIDEO_MEMORY_UNLOCKED) :
    gst_core_video_pixel_buffer_unlock cvret g = { ret := false, gpixbuf := g, calls := [] } := by
  unfold gst_core_video_pixel_buffer_unlock
  rw [if_pos hs]

theorem unlock_still_locked (cvret : Int) (g : GstCoreVideoPixelBuffer)
    (hs : g.lock_state ≠ GST_CORE_VIDEO_MEMORY_UNLOCKED)
    (hd : g_atomic_int_dec g.lock_count ≠ 0) :
    gst_core_video_pixel_buffer_unlock cvret g =
      { ret := true
        gpixbuf := { g with lock_count := g_atomic_int_dec g.lock_count }
        calls := [] } := by
  unfold gst_core_video_pixel_buffer_unlock
  rw [if_neg hs, if_pos (bne_iff_ne.mpr hd)]

theorem unlock_last_fail (cvret : Int) (g : GstCoreVideoPixelBuffer)
    (hs : g.lock_state ≠ GST_CORE_VIDEO_MEMORY_UNLOCKED)
    (hd : g_atomic_int_dec g.lock_count = 0) (hc : cvret ≠ kCVReturnSuccess) :
    gst_core_video_pixel_buffer_unlock cvret g =
      { ret := false
        gpixbuf := { g with lock_count := g_atomic_int_inc (g_atomic_int_dec g.lock_count) }
        calls := [CVCall.CVPixelBufferUnlockBaseAddress g.buf
          (if g.lock_state = GST_CORE_VIDEO_MEMORY_LOCKED_READONLY then
            kCVPixelBufferLock_ReadOnly else 0)] } := by
  unfold gst_core_video_pixel_buffer_unlock
  have hb : ¬ ((g_atomic_int_dec g.lock_count != 0) = true) := by
    rw [bne_iff_ne]; exact fun h => h hd
  rw [if_neg hs, if_neg hb]
  exact if_pos (bne_iff_ne.mpr hc)

theorem unlock_last_ok (cvret : Int) (g : GstCoreVideoPixelBuffer)
    (hs : g.lock_state ≠ GST_CORE_VIDEO_MEMORY_UNLOCKED)
    (hd : g_atomic_int_dec g.lock_count = 0) (hc : cvret = kCVReturnSuccess) :
    gst_core_video_pixel_buffer_unlock cvret g =
      { ret := true
        gpixbuf :=
          { g with
            lock_state := GST_CORE_VIDEO_MEMORY_UNLOCKED
            lock_count := g_atomic_int_dec g.lock_count }
        calls := [CVCall.CVPixelBufferUnlockBaseAddress g.buf
          (if g.lock_state = GST_CORE_VIDEO_MEMORY_LOCKED_READONLY then
            kCVPixelBufferLock_ReadOnly else 0)] } := by
  unfold gst_core_video_pixel_buffer_unlock
  have hb : ¬ ((g_atomic_int_dec g.lock_count != 0) = true) := by
    rw [bne_iff_ne]; exact fun h => h hd
  have hb2 : ¬ ((cvret != kCVReturnSuccess) = true) := by
    rw [bne_iff_ne]; exact fun h => h hc
  rw [if_neg hs, if_neg hb]
  exact if_neg hb2

/-! ## Lock arbiter: sequences of operations -/

theorem LockOp.apply_lock (flags : Nat) (cvret : Int) (g : GstCoreVideoPixelBuffer) :
    (LockOp.lock flags cvret).apply g = gst_core_video_pixel_buffer_lock cvret g flags := rfl

theorem LockOp.apply_unlock (cvret : Int) (g : GstCoreVideoPixelBuffer) :
    (LockOp.unlock cvret).apply g = gst_core_video_pixel_buffer_unlock cvret g := rfl

theorem Traced.run_nil (t : Traced) : t.run [] = t := rfl

theorem Traced.run_cons (t : Traced) (op : LockOp) (ops : List LockOp) :
    t.run (op :: ops) = (t.step op).run ops := rfl

theorem Traced.run_append (t : Traced) (ops1 ops2 : List LockOp) :
    t.run (ops1 ++ ops2) = (t.run ops1).run ops2 := by
  unfold Traced.run
  exact List.foldl_append _ _ _ _

theorem Traced.step_gpixbuf (t : Traced) (op : LockOp) :
    (t.step op).gpixbuf = (op.apply t.gpixbuf).gpixbuf := rfl

theorem Traced.step_trace (t : Traced) (op : LockOp) :
    (t.step op).trace = t.trace ++ (op.apply t.gpixbuf).calls := rfl

/-- A property of the wrapper that every operation preserves holds after any
sequence of operations. -/
theorem Traced.run_preserves (P : GstCoreVideoPixelBuffer → Prop)
    (hstep : ∀ (op : LockOp) (g : GstCoreVideoPixelBuffer), P g → P (op.apply g).gpixbuf)
    (ops : List LockOp) (t : Traced) (h : P t.gpixbuf) : P (t.run ops).gpixbuf := by
  induction ops generalizing t with
  | nil => exact h
  | cons op ops ih =>
    rw [Traced.run_cons]
    exact ih (t.step op) (hstep op t.gpixbuf h)

theorem readonly_ne_unlocked :
    GST_CORE_VIDEO_MEMORY_LOCKED_READONLY ≠ GST_CORE_VIDEO_MEMORY_UNLOCKED := by
  intro h; cases h

theorem readwrite_ne_unlocked :
    GST_CORE_VIDEO_MEMORY_LOCKED_READ_WRITE ≠ GST_CORE_VIDEO_MEMORY_UNLOCKED := by
  intro h; cases h

theorem locked_mode_ne_unlocked (w : Bool) :
    (if w = true then GST_CORE_VIDEO_MEMORY_LOCKED_READ_WRITE
      else GST_CORE_VIDEO_MEMORY_LOCKED_READONLY) ≠ GST_CORE_VIDEO_MEMORY_UNLOCKED := by
  cases w
  · exact readonly_ne_unlocked
  · exact readwrite_ne_unlocked

/-- Every operation keeps the counter in the `guint` range and keeps it at
zero whenever the wrapper is unlocked. -/
theorem apply_keeps_unlocked_zero (op : LockOp) (g : GstCoreVideoPixelBuffer)
    (h : g.lock_count < GUINT_RANGE ∧
      (g.lock_state = GST_CORE_VIDEO_MEMORY_UNLOCKED → g.lock_count = 0)) :
    (op.apply g).gpixbuf.lock_count < GUINT_RANGE ∧
      ((op.apply g).gpixbuf.lock_state = GST_CORE_VIDEO_MEMORY_UNLOCKED →
        (op.apply g).gpixbuf.lock_count = 0) := by
  obtain ⟨hlt, hz⟩ := h
  cases op with
  | lock flags cvret =>
    rw [LockOp.apply_lock]
    cases hs : g.lock_state with
    | GST_CORE_VIDEO_MEMORY_UNLOCKED =>
      by_cases hc : cvret = kCVReturnSuccess
      · rw [lock_unlocked_ok cvret g flags hs hc]
        dsimp only
        exact ⟨g_atomic_int_inc_lt _, fun h => absurd h (locked_mode_ne_unlocked _)⟩
      · rw [lock_unlocked_fail cvret g flags hs hc]
        dsimp only
        exact ⟨hlt, fun _ => hz hs⟩
    | GST_CORE_VIDEO_MEMORY_LOCKED_READONLY =>
      cases hw : wants_write flags with
      | true =>
        rw [lock_readonly_write cvret g flags hs hw]
        dsimp only
        exact ⟨hlt, fun h => absurd (hs.symm.trans h) readonly_ne_unlocked⟩
      | false =>
        rw [lock_readonly_read cvret g flags hs hw]
        dsimp only
        exact ⟨g_atomic_int_inc_lt _, fun h => absurd (hs.symm.trans h) readonly_ne_unlocked⟩
    | GST_CORE_VIDEO_MEMORY_LOCKED_READ_WRITE =>
      rw [lock_readwrite cvret g flags hs]
      dsimp only
      exact ⟨g_atomic_int_inc_lt _, fun h => absurd (hs.symm.trans h) readwrite_ne_unlocked⟩
  | unlock cvret =>
    rw [LockOp.apply_unlock]
    by_cases hs : g.lock_state = GST_CORE_VIDEO_MEMORY_UNLOCKED
    · rw [unlock_unlocked cvret g hs]
      dsimp only
      exact ⟨hlt, fun _ => hz hs⟩
    · by_cases hd : g_atomic_int_dec g.lock_count = 0
      · by_cases hc : cvret = kCVReturnSuccess
        · rw [unlock_last_ok cvret g hs hd hc]
          dsimp only
          exact ⟨g_atomic_int_dec_lt _, fun _ => hd⟩
        · rw [unlock_last_fail cvret g hs hd hc]
          dsimp only
          exact ⟨g_atomic_int_inc_lt _, fun h => absurd h hs⟩
      · rw [unlock_still_locked cvret g hs hd]
        dsimp only
        exact ⟨g_atomic_int_dec_lt _, fun h => absurd h hs⟩

theorem zero_lt_guint_range : 0 < GUINT_RANGE := by decide

/-- In every state reached from creation the counter is in the `guint` range
and an unlocked wrapper has lock depth zero. -/
theorem reachable_unlocked_zero (pixbuf : Nat) (ops : List LockOp) :
    ((Traced.fresh pixbuf).run ops).gpixbuf.lock_count < GUINT_RANGE ∧
      (((Traced.fresh pixbuf).run ops).gpixbuf.lock_state = GST_CORE_VIDEO_MEMORY_UNLOCKED →
        ((Traced.fresh pixbuf).run ops).gpixbuf.lock_count = 0) :=
  Traced.run_preserves
    (fun g => g.lock_count < GUINT_RANGE ∧
      (g.lock_state = GST_CORE_VIDEO_MEMORY_UNLOCKED → g.lock_count = 0))
    apply_keeps_unlocked_zero ops (Traced.fresh pixbuf)
    ⟨zero_lt_guint_range, fun _ => rfl⟩

theorem wants_write_read : wants_write GST_MAP_READ = false := by decide

theorem wants_write_readwrite : wants_write GST_MAP_READWRITE = true := by decide

theorem g_atomic_int_inc_mod (n : Nat) :
    g_atomic_int_inc (n % GUINT_RANGE) = (n + 1) % GUINT_RANGE := by
  unfold g_atomic_int_inc GUINT_RANGE
  omega

/-- Repeated read locks on a fresh wrapper: the counter is the number of
locks modulo `2 ^ 32`. -/
theorem run_read_locks (pixbuf : Nat) (n : Nat) (hn : 0 < n) :
    ((Traced.fresh pixbuf).run
        (List.replicate n (LockOp.lock GST_MAP_READ kCVReturnSuccess))).gpixbuf
      = { refcount := 1, buf := pixbuf, lock_state := GST_CORE_VIDEO_MEMORY_LOCKED_READONLY,
          lock_count := n % GUINT_RANGE } := by
  induction n with
  | zero => exact absurd hn (Nat.lt_irrefl 0)
  | succ n ih =>
    rw [List.replicate_succ', Traced.run_append, Traced.run_cons, Traced.run_nil,
      Traced.step_gpixbuf, LockOp.apply_lock]
    cases n with
    | zero =>
      rw [List.replicate_zero, Traced.run_nil]
      have hs : (Traced.fresh pixbuf).gpixbuf.lock_state = GST_CORE_VIDEO_MEMORY_UNLOCKED := rfl
      rw [lock_unlocked_ok _ _ _ hs rfl, wants_write_read]
      rfl
    | succ m =>
      rw [ih (Nat.succ_pos m), lock_readonly_read _ _ _ rfl wants_write_read]
      dsimp only
      rw [g_atomic_int_inc_mod]

/-! ## Lock arbiter: the claims -/

/-- One operation of any kind keeps the depth in range and at 0 while the
handle is unlocked; references do not touch the lock fields. -/
theorem handle_op_keeps_unlocked_zero (op : HandleOp) (g next : GstCoreVideoPixelBuffer)
    (h : g.lock_count < GUINT_RANGE ∧
      (g.lock_state = GST_CORE_VIDEO_MEMORY_UNLOCKED → g.lock_count = 0))
    (hop : op.apply g = some next) :
    next.lock_count < GUINT_RANGE ∧
      (next.lock_state = GST_CORE_VIDEO_MEMORY_UNLOCKED → next.lock_count = 0) := by
  cases op with
  | lock flags cvret =>
    have e : next = ((LockOp.lock flags cvret).apply g).gpixbuf := by
      unfold HandleOp.apply at hop
      simp only [Option.some.injEq] at hop
      rw [← hop, LockOp.apply_lock]
    rw [e]
    exact apply_keeps_unlocked_zero (LockOp.lock flags cvret) g h
  | unlock cvret =>
    have e : next = ((LockOp.unlock cvret).apply g).gpixbuf := by
      unfold HandleOp.apply at hop
      simp only [Option.some.injEq] at hop
      rw [← hop, LockOp.apply_unlock]
    rw [e]
    exact apply_keeps_unlocked_zero (LockOp.unlock cvret) g h
  | ref =>
    unfold HandleOp.apply at hop
    simp only [Option.some.injEq] at hop
    rw [← hop]
    exact h
  | unref =>
    unfold HandleOp.apply gst_core_video_pixel_buffer_unref at hop
    dsimp only at hop
    split at hop
    · exact absurd hop (by simp)
    · simp only [Option.some.injEq] at hop
      rw [← hop]
      exact h

/-- On every handle reached from creation by locks, unlocks and references
taken and dropped, an unlocked handle has depth 0. -/
theorem handle_after_unlocked_zero :
    ∀ (ops : List HandleOp) (start g : GstCoreVideoPixelBuffer),
      (start.lock_count < GUINT_RANGE ∧
        (start.lock_state = GST_CORE_VIDEO_MEMORY_UNLOCKED → start.lock_count = 0)) →
      handle_after start ops = some g →
      g.lock_count < GUINT_RANGE ∧
        (g.lock_state = GST_CORE_VIDEO_MEMORY_UNLOCKED → g.lock_count = 0) := by
  intro ops
  induction ops with
  | nil =>
    intro start g h hrun
    unfold handle_after at hrun
    simp only [Option.some.injEq] at hrun
    rw [← hrun]
    exact h
  | cons op ops ih =>
    intro start g h hrun
    unfold handle_after at hrun
    cases hop : op.apply start with
    | none =>
      rw [hop] at hrun
      exact absurd hrun (by simp)
    | some next =>
      rw [hop] at hrun
      exact ih next g (handle_op_keeps_unlocked_zero op start next h hop) hrun

/-- C6: on every handle whose `lock_state` is Unlocked, whatever its reference
count, a lock request issues exactly one native lock call, read-only when the
write flag is absent and read-write when it is present. When that call
succeeds the request succeeds with the matching lock state and the depth
raised by one, which is depth 1 on every handle reached from creation by
locks, unlocks and references taken and dropped; when it fails the request
fails and the handle is as before, unlocked, at depth 0 on every such
handle. -/
theorem C6_first_lock (cvret : Int) (flags : Nat) (g : GstCoreVideoPixelBuffer)
    (hstate : g.lock_state = GST_CORE_VIDEO_MEMORY_UNLOCKED) :
    (gst_core_video_pixel_buffer_lock cvret g flags).calls =
        [CVCall.CVPixelBufferLockBaseAddress g.buf
          (if flags &&& GST_MAP_WRITE = 0 then kCVPixelBufferLock_ReadOnly else 0)] ∧
    (cvret = kCVReturnSuccess →
      (gst_core_video_pixel_buffer_lock cvret g flags).ret = true ∧
      (gst_core_video_pixel_buffer_lock cvret g flags).gpixbuf.lock_state =
        (if flags &&& GST_MAP_WRITE = 0 then GST_CORE_VIDEO_MEMORY_LOCKED_READONLY
          else GST_CORE_VIDEO_MEMORY_LOCKED_READ_WRITE) ∧
      (gst_core_video_pixel_buffer_lock cvret g flags).gpixbuf.lock_count =
        g_atomic_int_inc g.lock_count ∧
      (∀ (pixbuf : Nat) (ops : List HandleOp),
        handle_after (gst_core_video_pixel_buffer_create pixbuf) ops = some g →
        (gst_core_video_pixel_buffer_lock cvret g flags).gpixbuf.lock_count = 1)) ∧
    (cvret ≠ kCVReturnSuccess →
      (gst_core_video_pixel_buffer_lock cvret g flags).ret = false ∧
      (gst_core_video_pixel_buffer_lock cvret g flags).gpixbuf = g ∧
      (gst_core_video_pixel_buffer_lock cvret g flags).gpixbuf.lock_state =
        GST_CORE_VIDEO_MEMORY_UNLOCKED ∧
      (∀ (pixbuf : Nat) (ops : List HandleOp),
        handle_after (gst_core_video_pixel_buffer_create pixbuf) ops = some g →
        (gst_core_video_pixel_buffer_lock cvret g flags).gpixbuf.lock_count = 0)) := by
  have hzero : ∀ (pixbuf : Nat) (ops : List HandleOp),
      handle_after (gst_core_video_pixel_buffer_create pixbuf) ops = some g →
      g.lock_count = 0 := by
    intro pixbuf ops hreach
    exact (handle_after_unlocked_zero ops (gst_core_video_pixel_buffer_create pixbuf) g
      ⟨zero_lt_guint_range, fun _ => rfl⟩ hreach).2 hstate
  by_cases hw : flags &&& GST_MAP_WRITE = 0
  · have hww : wants_write flags = false := (wants_write_eq_false_iff flags).mpr hw
    refine ⟨?_, ?_, ?_⟩
    · by_cases hc : cvret = kCVReturnSuccess
      · rw [lock_unlocked_ok cvret g flags hstate hc, hww, if_pos hw]; rfl
      · rw [lock_unlocked_fail cvret g flags hstate hc, hww, if_pos hw]; rfl
    · intro hc
      rw [lock_unlocked_ok cvret g flags hstate hc, hww, if_pos hw]
      refine ⟨rfl, rfl, rfl, ?_⟩
      intro pixbuf ops hreach
      dsimp only
      rw [hzero pixbuf ops hreach]
      rfl
    · intro hc
      rw [lock_unlocked_fail cvret g flags hstate hc]
      exact ⟨rfl, rfl, hstate, fun pixbuf ops hreach => hzero pixbuf ops hreach⟩
  · have hww : wants_write flags = true := (wants_write_eq_true_iff flags).mpr hw
    refine ⟨?_, ?_, ?_⟩
    · by_cases hc : cvret = kCVReturnSuccess
      · rw [lock_unlocked_ok cvret g flags hstate hc, hww, if_neg hw]; rfl
      · rw [lock_unlocked_fail cvret g flags hstate hc, hww, if_neg hw]; rfl
    · intro hc
      rw [lock_unlocked_ok cvret g flags hstate hc, hww, if_neg hw]
      refine ⟨rfl, rfl, rfl, ?_⟩
      intro pixbuf ops hreach
      dsimp only
      rw [hzero pixbuf ops hreach]
      rfl
    · intro hc
      rw [lock_unlocked_fail cvret g flags hstate hc]
      exact ⟨rfl, rfl, hstate, fun pixbuf ops hreach => hzero pixbuf ops hreach⟩

/-- C6 at a handle shared by two regions, reached by a reference, a read lock
and its unlock, asked for write access while the native call succeeds. -/
theorem C6_first_lock_witness :
    handle_after (gst_core_video_pixel_buffer_create 7)
        [HandleOp.ref, HandleOp.lock GST_MAP_READ kCVReturnSuccess,
          HandleOp.unlock kCVReturnSuccess] =
      some { refcount := 2, buf := 7, lock_state := GST_CORE_VIDEO_MEMORY_UNLOCKED,
             lock_count := 0 } ∧
    (gst_core_video_pixel_buffer_lock kCVReturnSuccess
        { refcount := 2, buf := 7, lock_state := GST_CORE_VIDEO_MEMORY_UNLOCKED,
          lock_count := 0 } GST_MAP_READWRITE).calls =
        [CVCall.CVPixelBufferLockBaseAddress 7 0] ∧
    (gst_core_video_pixel_buffer_lock kCVReturnSuccess
        { refcount := 2, buf := 7, lock_state := GST_CORE_VIDEO_MEMORY_UNLOCKED,
          lock_count := 0 } GST_MAP_READWRITE).ret = true ∧
    (gst_core_video_pixel_buffer_lock kCVReturnSuccess
        { refcount := 2, buf := 7, lock_state := GST_CORE_VIDEO_MEMORY_UNLOCKED,
          lock_count := 0 } GST_MAP_READWRITE).gpixbuf.lock_state =
        GST_CORE_VIDEO_MEMORY_LOCKED_READ_WRITE ∧
    (gst_core_video_pixel_buffer_lock kCVReturnSuccess
        { refcount := 2, buf := 7, lock_state := GST_CORE_VIDEO_MEMORY_UNLOCKED,
          lock_count := 0 } GST_MAP_READWRITE).gpixbuf.lock_count = 1 := by
  have hreach :
      handle_after (gst_core_video_pixel_buffer_create 7)
          [HandleOp.ref, HandleOp.lock GST_MAP_READ kCVReturnSuccess,
            HandleOp.unlock kCVReturnSuccess] =
        some { refcount := 2, buf := 7, lock_state := GST_CORE_VIDEO_MEMORY_UNLOCKED,
               lock_count := 0 } := by
    decide
  have h := C6_first_lock kCVReturnSuccess GST_MAP_READWRITE
    { refcount := 2, buf := 7, lock_state := GST_CORE_VIDEO_MEMORY_UNLOCKED, lock_count := 0 }
    rfl
  exact ⟨hreach, h.1, (h.2.1 rfl).1, (h.2.1 rfl).2.1, (h.2.1 rfl).2.2.2 7 _ hreach⟩

/-- C7 (as amended): when the wrapper is locked read-only and the request has
no write flag, or the wrapper is locked read-write (any request), and the lock
depth is below the largest value of the 32-bit counter, the lock request
succeeds, raises the lock depth by exactly one, leaves the lock state as set
by the first locker and issues no native call. -/
theorem C7_nested_lock (cvret : Int) (g : GstCoreVideoPixelBuffer) (flags : Nat)
    (hmode : (g.lock_state = GST_CORE_VIDEO_MEMORY_LOCKED_READONLY ∧
        flags &&& GST_MAP_WRITE = 0) ∨
      g.lock_state = GST_CORE_VIDEO_MEMORY_LOCKED_READ_WRITE)
    (hdepth : g.lock_count + 1 < GUINT_RANGE) :
    (gst_core_video_pixel_buffer_lock cvret g flags).ret = true ∧
    (gst_core_video_pixel_buffer_lock cvret g flags).gpixbuf.lock_count = g.lock_count + 1 ∧
    (gst_core_video_pixel_buffer_lock cvret g flags).gpixbuf.lock_state = g.lock_state ∧
    (gst_core_video_pixel_buffer_lock cvret g flags).calls = [] := by
  rcases hmode with ⟨hs, hw⟩ | hs
  · rw [lock_readonly_read cvret g flags hs ((wants_write_eq_false_iff flags).mpr hw)]
    exact ⟨rfl, g_atomic_int_inc_of_lt hdepth, rfl, rfl⟩
  · rw [lock_readwrite cvret g flags hs]
    exact ⟨rfl, g_atomic_int_inc_of_lt hdepth, rfl, rfl⟩

/-- C7 (as amended) at a wrapper locked read-write twice and a read request. -/
theorem C7_nested_lock_witness :
    (((GST_CORE_VIDEO_MEMORY_LOCKED_READ_WRITE = GST_CORE_VIDEO_MEMORY_LOCKED_READONLY ∧
        GST_MAP_READ &&& GST_MAP_WRITE = 0) ∨
      GST_CORE_VIDEO_MEMORY_LOCKED_READ_WRITE = GST_CORE_VIDEO_MEMORY_LOCKED_READ_WRITE) ∧
      2 + 1 < GUINT_RANGE) ∧
    (gst_core_video_pixel_buffer_lock 0
      { refcount := 2, buf := 7, lock_state := GST_CORE_VIDEO_MEMORY_LOCKED_READ_WRITE,
        lock_count := 2 } GST_MAP_READ).ret = true ∧
    (gst_core_video_pixel_buffer_lock 0
      { refcount := 2, buf := 7, lock_state := GST_CORE_VIDEO_MEMORY_LOCKED_READ_WRITE,
        lock_count := 2 } GST_MAP_READ).gpixbuf.lock_count = 2 + 1 ∧
    (gst_core_video_pixel_buffer_lock 0
      { refcount := 2, buf := 7, lock_state := GST_CORE_VIDEO_MEMORY_LOCKED_READ_WRITE,
        lock_count := 2 } GST_MAP_READ).gpixbuf.lock_state =
      GST_CORE_VIDEO_MEMORY_LOCKED_READ_WRITE ∧
    (gst_core_video_pixel_buffer_lock 0
      { refcount := 2, buf := 7, lock_state := GST_CORE_VIDEO_MEMORY_LOCKED_READ_WRITE,
        lock_count := 2 } GST_MAP_READ).calls = [] :=
  ⟨⟨Or.inr rfl, by decide⟩,
    C7_nested_lock 0
      { refcount := 2, buf := 7, lock_state := GST_CORE_VIDEO_MEMORY_LOCKED_READ_WRITE,
        lock_count := 2 } GST_MAP_READ (Or.inr rfl) (by decide)⟩

/-- C7 as stated fails at the top of the counter: after 4294967295 read locks
on a fresh wrapper the lock depth is 4294967295, and one more read lock
succeeds but leaves the depth at 0 instead of one more. -/
theorem C7_nested_lock_counterexample :
    ((Traced.fresh 7).run
        (List.replicate 4294967295 (LockOp.lock GST_MAP_READ kCVReturnSuccess))).gpixbuf
      = { refcount := 1, buf := 7, lock_state := GST_CORE_VIDEO_MEMORY_LOCKED_READONLY,
          lock_count := 4294967295 } ∧
    (gst_core_video_pixel_buffer_lock kCVReturnSuccess
      { refcount := 1, buf := 7, lock_state := GST_CORE_VIDEO_MEMORY_LOCKED_READONLY,
        lock_count := 4294967295 } GST_MAP_READ).ret = true ∧
    (gst_core_video_pixel_buffer_lock kCVReturnSuccess
      { refcount := 1, buf := 7, lock_state := GST_CORE_VIDEO_MEMORY_LOCKED_READONLY,
        lock_count := 4294967295 } GST_MAP_READ).gpixbuf.lock_count = 0 ∧
    ¬ ((gst_core_video_pixel_buffer_lock kCVReturnSuccess
      { refcount := 1, buf := 7, lock_state := GST_CORE_VIDEO_MEMORY_LOCKED_READONLY,
        lock_count := 4294967295 } GST_MAP_READ).gpixbuf.lock_count = 4294967295 + 1) := by
  refine ⟨?_, ?_, ?_, ?_⟩
  · rw [run_read_locks 7 4294967295 (by decide)]
    rfl
  · rw [lock_readonly_read _ _ _ rfl wants_write_read]
  · rw [lock_readonly_read _ _ _ rfl wants_write_read]
    rfl
  · rw [lock_readonly_read _ _ _ rfl wants_write_read]
    decide

/-- C8: unlocking a locked wrapper of lock depth `d >= 1`. If `d > 1` the
call succeeds, the depth becomes `d - 1`, the lock state is unchanged and no
native unlock is issued. If `d = 1` exactly one native unlock is issued, with
the read-only flag exactly when the wrapper is locked read-only, and when it
succeeds the call succeeds and leaves the wrapper unlocked at depth 0. -/
theorem C8_unlock (cvret : Int) (g : GstCoreVideoPixelBuffer)
    (hlocked : g.lock_state ≠ GST_CORE_VIDEO_MEMORY_UNLOCKED)
    (hdepth : 1 ≤ g.lock_count) (hrange : g.lock_count < GUINT_RANGE) :
    (1 < g.lock_count →
      (gst_core_video_pixel_buffer_unlock cvret g).ret = true ∧
      (gst_core_video_pixel_buffer_unlock cvret g).gpixbuf.lock_count = g.lock_count - 1 ∧
      (gst_core_video_pixel_buffer_unlock cvret g).gpixbuf.lock_state = g.lock_state ∧
      (gst_core_video_pixel_buffer_unlock cvret g).calls = []) ∧
    (g.lock_count = 1 →
      (gst_core_video_pixel_buffer_unlock cvret g).calls =
        [CVCall.CVPixelBufferUnlockBaseAddress g.buf
          (if g.lock_state = GST_CORE_VIDEO_MEMORY_LOCKED_READONLY then
            kCVPixelBufferLock_ReadOnly else 0)] ∧
      (cvret = kCVReturnSuccess →
        (gst_core_video_pixel_buffer_unlock cvret g).ret = true ∧
        (gst_core_video_pixel_buffer_unlock cvret g).gpixbuf.lock_state =
          GST_CORE_VIDEO_MEMORY_UNLOCKED ∧
        (gst_core_video_pixel_buffer_unlock cvret g).gpixbuf.lock_count = 0)) := by
  constructor
  · intro hgt
    have hd : g_atomic_int_dec g.lock_count ≠ 0 := by
      intro h0
      have := (g_atomic_int_dec_eq_zero_iff hrange).mp h0
      omega
    rw [unlock_still_locked cvret g hlocked hd]
    exact ⟨rfl, g_atomic_int_dec_of_pos hdepth hrange, rfl, rfl⟩
  · intro hone
    have hd : g_atomic_int_dec g.lock_count = 0 := (g_atomic_int_dec_eq_zero_iff hrange).mpr hone
    constructor
    · by_cases hc : cvret = kCVReturnSuccess
      · rw [unlock_last_ok cvret g hlocked hd hc]
      · rw [unlock_last_fail cvret g hlocked hd hc]
    · intro hc
      rw [unlock_last_ok cvret g hlocked hd hc]
      exact ⟨rfl, rfl, hd⟩

/-- C8 at a wrapper locked read-only once, the native unlock succeeding. -/
theorem C8_unlock_witness :
    (GST_CORE_VIDEO_MEMORY_LOCKED_READONLY ≠ GST_CORE_VIDEO_MEMORY_UNLOCKED ∧
      1 ≤ 1 ∧ 1 < GUINT_RANGE) ∧
    (gst_core_video_pixel_buffer_unlock kCVReturnSuccess
      { refcount := 1, buf := 7, lock_state := GST_CORE_VIDEO_MEMORY_LOCKED_READONLY,
        lock_count := 1 }).calls =
      [CVCall.CVPixelBufferUnlockBaseAddress 7 kCVPixelBufferLock_ReadOnly] ∧
    (gst_core_video_pixel_buffer_unlock kCVReturnSuccess
      { refcount := 1, buf := 7, lock_state := GST_CORE_VIDEO_MEMORY_LOCKED_READONLY,
        lock_count := 1 }).ret = true ∧
    (gst_core_video_pixel_buffer_unlock kCVReturnSuccess
      { refcount := 1, buf := 7, lock_state := GST_CORE_VIDEO_MEMORY_LOCKED_READONLY,
        lock_count := 1 }).gpixbuf.lock_state = GST_CORE_VIDEO_MEMORY_UNLOCKED ∧
    (gst_core_video_pixel_buffer_unlock kCVReturnSuccess
      { refcount := 1, buf := 7, lock_state := GST_CORE_VIDEO_MEMORY_LOCKED_READONLY,
        lock_count := 1 }).gpixbuf.lock_count = 0 :=
  ⟨⟨readonly_ne_unlocked, Nat.le_refl 1, by decide⟩,
    ((C8_unlock kCVReturnSuccess
      { refcount := 1, buf := 7, lock_state := GST_CORE_VIDEO_MEMORY_LOCKED_READONLY,
        lock_count := 1 } readonly_ne_unlocked (Nat.le_refl 1) (by decide)).2 rfl).1,
    (((C8_unlock kCVReturnSuccess
      { refcount := 1, buf := 7, lock_state := GST_CORE_VIDEO_MEMORY_LOCKED_READONLY,
        lock_count := 1 } readonly_ne_unlocked (Nat.le_refl 1) (by decide)).2 rfl).2 rfl)⟩

/-- C9: when the native unlock fails on a locked wrapper of lock depth 1, the
unlock call returns failure and the lock state and the lock depth are what
they were before the call. -/
theorem C9_unlock_native_failure (cvret : Int) (g : GstCoreVideoPixelBuffer)
    (hlocked : g.lock_state ≠ GST_CORE_VIDEO_MEMORY_UNLOCKED)
    (hdepth : g.lock_count = 1) (hfail : cvret ≠ kCVReturnSuccess) :
    (gst_core_video_pixel_buffer_unlock cvret g).ret = false ∧
    (gst_core_video_pixel_buffer_unlock cvret g).gpixbuf.lock_state = g.lock_state ∧
    (gst_core_video_pixel_buffer_unlock cvret g).gpixbuf.lock_count = g.lock_count ∧
    (gst_core_video_pixel_buffer_unlock cvret g).gpixbuf.lock_count = 1 := by
  have hrange : g.lock_count < GUINT_RANGE := by rw [hdepth]; decide
  have hd : g_atomic_int_dec g.lock_count = 0 := (g_atomic_int_dec_eq_zero_iff hrange).mpr hdepth
  rw [unlock_last_fail cvret g hlocked hd hfail]
  exact ⟨rfl, rfl, g_atomic_int_inc_dec hrange, (g_atomic_int_inc_dec hrange).trans hdepth⟩

/-- C9 at a wrapper locked read-write once, the native unlock returning an
error status. -/
theorem C9_unlock_native_failure_witness :
    (GST_CORE_VIDEO_MEMORY_LOCKED_READ_WRITE ≠ GST_CORE_VIDEO_MEMORY_UNLOCKED ∧
      (-6661 : Int) ≠ kCVReturnSuccess) ∧
    (gst_core_video_pixel_buffer_unlock (-6661)
      { refcount := 1, buf := 7, lock_state := GST_CORE_VIDEO_MEMORY_LOCKED_READ_WRITE,
        lock_count := 1 }).ret = false ∧
    (gst_core_video_pixel_buffer_unlock (-6661)
      { refcount := 1, buf := 7, lock_state := GST_CORE_VIDEO_MEMORY_LOCKED_READ_WRITE,
        lock_count := 1 }).gpixbuf.lock_state = GST_CORE_VIDEO_MEMORY_LOCKED_READ_WRITE ∧
    (gst_core_video_pixel_buffer_unlock (-6661)
      { refcount := 1, buf := 7, lock_state := GST_CORE_VIDEO_MEMORY_LOCKED_READ_WRITE,
        lock_count := 1 }).gpixbuf.lock_count = 1 ∧
    (gst_core_video_pixel_buffer_unlock (-6661)
      { refcount := 1, buf := 7, lock_state := GST_CORE_VIDEO_MEMORY_LOCKED_READ_WRITE,
        lock_count := 1 }).gpixbuf.lock_count = 1 :=
  ⟨⟨readwrite_ne_unlocked, by decide⟩,
    C9_unlock_native_failure (-6661)
      { refcount := 1, buf := 7, lock_state := GST_CORE_VIDEO_MEMORY_LOCKED_READ_WRITE,
        lock_count := 1 } readwrite_ne_unlocked rfl (by decide)⟩

/-- Every operation applied to a wrapper of lock depth at most `k`, with `k`
below the largest counter value, keeps the depth at most `k + 1` and keeps
"unlocked exactly when the depth is zero". -/
theorem apply_keeps_unlocked_iff_zero (op : LockOp) (g : GstCoreVideoPixelBuffer) (k : Nat)
    (hk : k + 1 < GUINT_RANGE)
    (h : g.lock_count ≤ k ∧
      (g.lock_state = GST_CORE_VIDEO_MEMORY_UNLOCKED ↔ g.lock_count = 0)) :
    (op.apply g).gpixbuf.lock_count ≤ k + 1 ∧
      ((op.apply g).gpixbuf.lock_state = GST_CORE_VIDEO_MEMORY_UNLOCKED ↔
        (op.apply g).gpixbuf.lock_count = 0) := by
  obtain ⟨hle, hiff⟩ := h
  have hrange : g.lock_count < GUINT_RANGE := by omega
  have hinc : g_atomic_int_inc g.lock_count = g.lock_count + 1 :=
    g_atomic_int_inc_of_lt (by omega)
  cases op with
  | lock flags cvret =>
    rw [LockOp.apply_lock]
    cases hs : g.lock_state with
    | GST_CORE_VIDEO_MEMORY_UNLOCKED =>
      by_cases hc : cvret = kCVReturnSuccess
      · rw [lock_unlocked_ok cvret g flags hs hc]
        dsimp only
        rw [hinc]
        exact ⟨by omega, ⟨fun h => absurd h (locked_mode_ne_unlocked _), fun h => by omega⟩⟩
      · rw [lock_unlocked_fail cvret g flags hs hc]
        dsimp only
        exact ⟨by omega, ⟨fun _ => hiff.mp hs, fun _ => hs⟩⟩
    | GST_CORE_VIDEO_MEMORY_LOCKED_READONLY =>
      have hne : g.lock_state ≠ GST_CORE_VIDEO_MEMORY_UNLOCKED := by
        rw [hs]; exact readonly_ne_unlocked
      cases hw : wants_write flags with
      | true =>
        rw [lock_readonly_write cvret g flags hs hw]
        dsimp only
        exact ⟨by omega, ⟨fun h => absurd h hne, fun h => absurd (hiff.mpr h) hne⟩⟩
      | false =>
        rw [lock_readonly_read cvret g flags hs hw]
        dsimp only
        rw [hinc]
        exact ⟨by omega, ⟨fun h => absurd h hne, fun h => by omega⟩⟩
    | GST_CORE_VIDEO_MEMORY_LOCKED_READ_WRITE =>
      have hne : g.lock_state ≠ GST_CORE_VIDEO_MEMORY_UNLOCKED := by
        rw [hs]; exact readwrite_ne_unlocked
      rw [lock_readwrite cvret g flags hs]
      dsimp only
      rw [hinc]
      exact ⟨by omega, ⟨fun h => absurd h hne, fun h => by omega⟩⟩
  | unlock cvret =>
    rw [LockOp.apply_unlock]
    by_cases hs : g.lock_state = GST_CORE_VIDEO_MEMORY_UNLOCKED
    · rw [unlock_unlocked cvret g hs]
      dsimp only
      exact ⟨by omega, hiff⟩
    · have hpos : 0 < g.lock_count := by
        rcases Nat.eq_zero_or_pos g.lock_count with h0 | h0
        · exact absurd (hiff.mpr h0) hs
        · exact h0
      have hdec : g_atomic_int_dec g.lock_count = g.lock_count - 1 :=
        g_atomic_int_dec_of_pos hpos hrange
      by_cases hd : g_atomic_int_dec g.lock_count = 0
      · by_cases hc : cvret = kCVReturnSuccess
        · rw [unlock_last_ok cvret g hs hd hc]
          dsimp only
          exact ⟨by omega, ⟨fun _ => hd, fun _ => rfl⟩⟩
        · rw [unlock_last_fail cvret g hs hd hc]
          dsimp only
          rw [g_atomic_int_inc_dec hrange]
          exact ⟨by omega, ⟨fun h => absurd h hs, fun h => by omega⟩⟩
      · rw [unlock_still_locked cvret g hs hd]
        dsimp only
        exact ⟨by omega, ⟨fun h => absurd h hs, fun h => absurd h hd⟩⟩

/-- Sequences short enough for the counter not to wrap keep "unlocked exactly
when the depth is zero". -/
theorem run_keeps_unlocked_iff_zero (ops : List LockOp) (t : Traced) (k : Nat)
    (hk : k + ops.length < GUINT_RANGE)
    (h : t.gpixbuf.lock_count ≤ k ∧
      (t.gpixbuf.lock_state = GST_CORE_VIDEO_MEMORY_UNLOCKED ↔ t.gpixbuf.lock_count = 0)) :
    (t.run ops).gpixbuf.lock_count ≤ k + ops.length ∧
      ((t.run ops).gpixbuf.lock_state = GST_CORE_VIDEO_MEMORY_UNLOCKED ↔
        (t.run ops).gpixbuf.lock_count = 0) := by
  induction ops generalizing t k with
  | nil => exact ⟨by simpa using h.1, h.2⟩
  | cons op ops ih =>
    rw [Traced.run_cons]
    have hlen : (op :: ops).length = ops.length + 1 := rfl
    rw [hlen] at hk ⊢
    have hstep := apply_keeps_unlocked_iff_zero op t.gpixbuf k (by omega) h
    have := ih (t.step op) (k + 1) (by omega) hstep
    exact ⟨by omega, this.2⟩

/-- C10 (as amended): in every state reached from creation by lock and unlock
operations, whatever the native calls return, an unlocked wrapper has lock
depth 0; and when the sequence has fewer than `2 ^ 32` operations, so that the
32-bit counter cannot wrap, the wrapper is unlocked if and only if its lock
depth is 0. -/
theorem C10_unlocked_iff_depth_zero (pixbuf : Nat) (ops : List LockOp) :
    (((Traced.fresh pixbuf).run ops).gpixbuf.lock_state = GST_CORE_VIDEO_MEMORY_UNLOCKED →
      ((Traced.fresh pixbuf).run ops).gpixbuf.lock_count = 0) ∧
    (ops.length < GUINT_RANGE →
      (((Traced.fresh pixbuf).run ops).gpixbuf.lock_state = GST_CORE_VIDEO_MEMORY_UNLOCKED ↔
        ((Traced.fresh pixbuf).run ops).gpixbuf.lock_count = 0)) := by
  refine ⟨(reachable_unlocked_zero pixbuf ops).2, fun hlen => ?_⟩
  exact (run_keeps_unlocked_iff_zero ops (Traced.fresh pixbuf) 0 (by omega)
    ⟨Nat.le_refl 0, ⟨fun _ => rfl, fun _ => rfl⟩⟩).2

/-- C10 (as amended) after a read lock, a rejected write lock, an unlock whose
native call fails and an unlock whose native call succeeds. -/
theorem C10_unlocked_iff_depth_zero_witness :
    [LockOp.lock GST_MAP_READ 0, LockOp.lock GST_MAP_READWRITE 0, LockOp.unlock (-6661),
      LockOp.unlock 0].length < GUINT_RANGE ∧
    (((Traced.fresh 7).run
        [LockOp.lock GST_MAP_READ 0, LockOp.lock GST_MAP_READWRITE 0, LockOp.unlock (-6661),
          LockOp.unlock 0]).gpixbuf.lock_state = GST_CORE_VIDEO_MEMORY_UNLOCKED ↔
      ((Traced.fresh 7).run
        [LockOp.lock GST_MAP_READ 0, LockOp.lock GST_MAP_READWRITE 0, LockOp.unlock (-6661),
          LockOp.unlock 0]).gpixbuf.lock_count = 0) :=
  ⟨by decide,
    (C10_unlocked_iff_depth_zero 7
      [LockOp.lock GST_MAP_READ 0, LockOp.lock GST_MAP_READWRITE 0, LockOp.unlock (-6661),
        LockOp.unlock 0]).2 (by decide)⟩

/-- C10 as stated fails when the counter wraps: after `2 ^ 32` successful read
locks on a fresh wrapper the lock depth reads 0 while the wrapper is locked
read-only. -/
theorem C10_unlocked_iff_depth_zero_counterexample :
    ((Traced.fresh 7).run
        (List.replicate 4294967296 (LockOp.lock GST_MAP_READ kCVReturnSuccess))).gpixbuf.lock_count
      = 0 ∧
    ((Traced.fresh 7).run
        (List.replicate 4294967296 (LockOp.lock GST_MAP_READ kCVReturnSuccess))).gpixbuf.lock_state
      = GST_CORE_VIDEO_MEMORY_LOCKED_READONLY ∧
    ¬ (((Traced.fresh 7).run
        (List.replicate 4294967296 (LockOp.lock GST_MAP_READ kCVReturnSuccess))).gpixbuf.lock_state
          = GST_CORE_VIDEO_MEMORY_UNLOCKED ↔
       ((Traced.fresh 7).run
        (List.replicate 4294967296 (LockOp.lock GST_MAP_READ kCVReturnSuccess))).gpixbuf.lock_count
          = 0) := by
  rw [run_read_locks 7 4294967296 (by decide)]
  refine ⟨rfl, rfl, fun h => ?_⟩
  exact readonly_ne_unlocked (h.mpr rfl)

/-! ## Lock arbiter: the trace of native calls -/

theorem replay_trace_append (l1 l2 : List CVCall) (e : Bool) :
    replay_trace e (l1 ++ l2) = (replay_trace e l1).bind (fun e1 => replay_trace e1 l2) := by
  induction l1 generalizing e with
  | nil => cases e <;> rfl
  | cons c rest ih =>
    cases c with
    | CVPixelBufferLockBaseAddress b f =>
      cases e
      · rfl
      · exact ih false
    | CVPixelBufferUnlockBaseAddress b f =>
      cases e
      · exact ih true
      · rfl

/-- With every native call succeeding, each operation keeps the trace
alternating and keeps "a lock is expected next exactly when the wrapper is
unlocked". -/
theorem step_keeps_alternation (t : Traced) (req : LockReq)
    (h : replay_trace true t.trace =
      some (decide (t.gpixbuf.lock_state = GST_CORE_VIDEO_MEMORY_UNLOCKED))) :
    replay_trace true (t.step (req.withStatus kCVReturnSuccess)).trace =
      some (decide ((t.step (req.withStatus kCVReturnSuccess)).gpixbuf.lock_state
        = GST_CORE_VIDEO_MEMORY_UNLOCKED)) := by
  rw [Traced.step_trace, Traced.step_gpixbuf, replay_trace_append, h]
  cases req with
  | lock flags =>
    show Option.bind _ _ = some (decide ((gst_core_video_pixel_buffer_lock kCVReturnSuccess
      t.gpixbuf flags).gpixbuf.lock_state = GST_CORE_VIDEO_MEMORY_UNLOCKED))
    rw [show (LockReq.lock flags).withStatus kCVReturnSuccess
      = LockOp.lock flags kCVReturnSuccess from rfl, LockOp.apply_lock]
    cases hs : t.gpixbuf.lock_state with
    | GST_CORE_VIDEO_MEMORY_UNLOCKED =>
      rw [lock_unlocked_ok _ _ _ hs rfl]
      dsimp only
      rw [decide_eq_false (locked_mode_ne_unlocked _)]
      rfl
    | GST_CORE_VIDEO_MEMORY_LOCKED_READONLY =>
      cases hw : wants_write flags with
      | true =>
        rw [lock_readonly_write _ _ _ hs hw]
        dsimp only
        rw [hs]
        rfl
      | false =>
        rw [lock_readonly_read _ _ _ hs hw]
        dsimp only
        rw [hs]
        rfl
    | GST_CORE_VIDEO_MEMORY_LOCKED_READ_WRITE =>
      rw [lock_readwrite _ _ _ hs]
      dsimp only
      rw [hs]
      rfl
  | unlock =>
    rw [show LockReq.unlock.withStatus kCVReturnSuccess
      = LockOp.unlock kCVReturnSuccess from rfl, LockOp.apply_unlock]
    by_cases hs : t.gpixbuf.lock_state = GST_CORE_VIDEO_MEMORY_UNLOCKED
    · rw [unlock_unlocked _ _ hs]
      dsimp only
      rw [decide_eq_true hs]
      rfl
    · by_cases hd : g_atomic_int_dec t.gpixbuf.lock_count = 0
      · rw [unlock_last_ok _ _ hs hd rfl]
        dsimp only
        rw [decide_eq_false hs]
        rfl
      · rw [unlock_still_locked _ _ hs hd]
        dsimp only
        rw [decide_eq_false hs]
        rfl

theorem run_keeps_alternation (reqs : List LockReq) (t : Traced)
    (h : replay_trace true t.trace =
      some (decide (t.gpixbuf.lock_state = GST_CORE_VIDEO_MEMORY_UNLOCKED))) :
    replay_trace true (t.run (reqs.map (LockReq.withStatus kCVReturnSuccess))).trace =
      some (decide ((t.run (reqs.map (LockReq.withStatus kCVReturnSuccess))).gpixbuf.lock_state
        = GST_CORE_VIDEO_MEMORY_UNLOCKED)) := by
  induction reqs generalizing t with
  | nil => exact h
  | cons req reqs ih =>
    rw [List.map_cons, Traced.run_cons]
    exact ih _ (step_keeps_alternation t req h)

/-- Successful lock requests on a locked wrapper issue no native call, keep
the lock state and add at most one to the counter each. -/
theorem run_locks_on_locked (fs : List Nat) (t : Traced)
    (hs : t.gpixbuf.lock_state ≠ GST_CORE_VIDEO_MEMORY_UNLOCKED) :
    (t.run (fs.map (fun fl => LockOp.lock fl kCVReturnSuccess))).trace = t.trace ∧
    (t.run (fs.map (fun fl => LockOp.lock fl kCVReturnSuccess))).gpixbuf.lock_state
      = t.gpixbuf.lock_state ∧
    (t.run (fs.map (fun fl => LockOp.lock fl kCVReturnSuccess))).gpixbuf.buf = t.gpixbuf.buf ∧
    ∃ k, k ≤ fs.length ∧
      (t.run (fs.map (fun fl => LockOp.lock fl kCVReturnSuccess))).gpixbuf.lock_count
        = (t.gpixbuf.lock_count + k) % GUINT_RANGE ∨
      (k = 0 ∧ (t.run (fs.map (fun fl => LockOp.lock fl kCVReturnSuccess))).gpixbuf.lock_count
        = t.gpixbuf.lock_count) := by
  induction fs generalizing t with
  | nil => exact ⟨rfl, rfl, rfl, 0, Or.inr ⟨rfl, rfl⟩⟩
  | cons f fs ih =>
    rw [List.map_cons, Traced.run_cons]
    have key : (t.step (LockOp.lock f kCVReturnSuccess)).trace = t.trace ∧
        (t.step (LockOp.lock f kCVReturnSuccess)).gpixbuf.lock_state = t.gpixbuf.lock_state ∧
        (t.step (LockOp.lock f kCVReturnSuccess)).gpixbuf.buf = t.gpixbuf.buf ∧
        ((t.step (LockOp.lock f kCVReturnSuccess)).gpixbuf.lock_count = t.gpixbuf.lock_count ∨
          (t.step (LockOp.lock f kCVReturnSuccess)).gpixbuf.lock_count
            = (t.gpixbuf.lock_count + 1) % GUINT_RANGE) := by
      rw [Traced.step_trace, Traced.step_gpixbuf, LockOp.apply_lock]
      cases hst : t.gpixbuf.lock_state with
      | GST_CORE_VIDEO_MEMORY_UNLOCKED => exact absurd hst hs
      | GST_CORE_VIDEO_MEMORY_LOCKED_READONLY =>
        cases hw : wants_write f with
        | true =>
          rw [lock_readonly_write _ _ _ hst hw]
          exact ⟨List.append_nil _, hst, rfl, Or.inl rfl⟩
        | false =>
          rw [lock_readonly_read _ _ _ hst hw]
          exact ⟨List.append_nil _, hst, rfl, Or.inr rfl⟩
      | GST_CORE_VIDEO_MEMORY_LOCKED_READ_WRITE =>
        rw [lock_readwrite _ _ _ hst]
        exact ⟨List.append_nil _, hst, rfl, Or.inr rfl⟩
    obtain ⟨k1, k2, k3, k4⟩ := key
    obtain ⟨i1, i2, i3, k, hk⟩ := ih (t.step (LockOp.lock f kCVReturnSuccess)) (by rw [k2]; exact hs)
    refine ⟨i1.trans k1, i2.trans k2, i3.trans k3, ?_⟩
    have hlen : (f :: fs).length = fs.length + 1 := rfl
    rw [hlen]
    rcases hk with ⟨hkl, hc⟩ | ⟨hk0, hc⟩
    · rcases k4 with h4 | h4
      · exact ⟨k, Or.inl ⟨by omega, by rw [hc, h4]⟩⟩
      · refine ⟨k + 1, Or.inl ⟨by omega, ?_⟩⟩
        rw [hc, h4]
        unfold GUINT_RANGE
        omega
    · rcases k4 with h4 | h4
      · exact ⟨0, Or.inr ⟨rfl, by rw [hc, h4]⟩⟩
      · refine ⟨1, Or.inl ⟨by omega, ?_⟩⟩
        rw [hc, h4]

/-- Unlock requests on an unlocked wrapper change nothing. -/
theorem run_unlocks_on_unlocked (n : Nat) (cvret : Int) (t : Traced)
    (hs : t.gpixbuf.lock_state = GST_CORE_VIDEO_MEMORY_UNLOCKED) :
    t.run (List.replicate n (LockOp.unlock cvret)) = t := by
  induction n with
  | zero => rfl
  | succ n ih =>
    rw [List.replicate_succ, Traced.run_cons]
    have hstep : t.step (LockOp.unlock cvret) = t := by
      unfold Traced.step
      rw [LockOp.apply_unlock, unlock_unlocked cvret _ hs]
      dsimp only
      rw [List.append_nil]
    rw [hstep]
    exact ih

/-- Enough successful unlock requests on a locked wrapper issue exactly one
native unlock, by the request that brings the counter to zero, and leave the
wrapper unlocked. -/
theorem run_unlocks_on_locked (n : Nat) (t : Traced)
    (hs : t.gpixbuf.lock_state ≠ GST_CORE_VIDEO_MEMORY_UNLOCKED)
    (hrange : t.gpixbuf.lock_count < GUINT_RANGE)
    (hn : (if t.gpixbuf.lock_count = 0 then GUINT_RANGE else t.gpixbuf.lock_count) ≤ n) :
    (t.run (List.replicate n (LockOp.unlock kCVReturnSuccess))).trace =
      t.trace ++ [CVCall.CVPixelBufferUnlockBaseAddress t.gpixbuf.buf
        (if t.gpixbuf.lock_state = GST_CORE_VIDEO_MEMORY_LOCKED_READONLY then
          kCVPixelBufferLock_ReadOnly else 0)] ∧
    (t.run (List.replicate n (LockOp.unlock kCVReturnSuccess))).gpixbuf.lock_state
      = GST_CORE_VIDEO_MEMORY_UNLOCKED := by
  induction n generalizing t with
  | zero =>
    exfalso
    have hpos : 0 < GUINT_RANGE := zero_lt_guint_range
    split at hn <;> omega
  | succ n ih =>
    rw [List.replicate_succ, Traced.run_cons]
    by_cases hd : g_atomic_int_dec t.gpixbuf.lock_count = 0
    · have hstep : t.step (LockOp.unlock kCVReturnSuccess) =
          { gpixbuf :=
              { t.gpixbuf with
                lock_state := GST_CORE_VIDEO_MEMORY_UNLOCKED
                lock_count := g_atomic_int_dec t.gpixbuf.lock_count }
            trace := t.trace ++ [CVCall.CVPixelBufferUnlockBaseAddress t.gpixbuf.buf
              (if t.gpixbuf.lock_state = GST_CORE_VIDEO_MEMORY_LOCKED_READONLY then
                kCVPixelBufferLock_ReadOnly else 0)] } := by
        unfold Traced.step
        rw [LockOp.apply_unlock, unlock_last_ok _ _ hs hd rfl]
      rw [hstep, run_unlocks_on_unlocked n kCVReturnSuccess _ rfl]
      exact ⟨rfl, rfl⟩
    · have hstep : t.step (LockOp.unlock kCVReturnSuccess) =
          { gpixbuf := { t.gpixbuf with lock_count := g_atomic_int_dec t.gpixbuf.lock_count }
            trace := t.trace } := by
        unfold Traced.step
        rw [LockOp.apply_unlock, unlock_still_locked _ _ hs hd]
        dsimp only
        rw [List.append_nil]
      rw [hstep]
      have hneed : (if g_atomic_int_dec t.gpixbuf.lock_count = 0 then GUINT_RANGE
          else g_atomic_int_dec t.gpixbuf.lock_count) ≤ n := by
        rw [if_neg hd]
        by_cases h0 : t.gpixbuf.lock_count = 0
        · rw [h0, g_atomic_int_dec_zero]
          rw [if_pos h0] at hn
          omega
        · rw [if_neg h0] at hn
          rw [g_atomic_int_dec_of_pos (Nat.pos_of_ne_zero h0) hrange]
          omega
      exact ih _ hs (g_atomic_int_dec_lt _) hneed

theorem native_flags_of_mode (flags : Nat) :
    (if (if wants_write flags = true then GST_CORE_VIDEO_MEMORY_LOCKED_READ_WRITE
          else GST_CORE_VIDEO_MEMORY_LOCKED_READONLY) = GST_CORE_VIDEO_MEMORY_LOCKED_READONLY
      then kCVPixelBufferLock_ReadOnly else 0) = native_flags flags ∧
    (if wants_write flags = true then 0 else kCVPixelBufferLock_ReadOnly) = native_flags flags := by
  unfold native_flags
  by_cases hw : flags &&& GST_MAP_WRITE = 0
  · rw [(wants_write_eq_false_iff flags).mpr hw, if_pos hw]
    exact ⟨rfl, rfl⟩
  · rw [(wants_write_eq_true_iff flags).mpr hw, if_neg hw]
    exact ⟨rfl, rfl⟩

/-- Nested lock requests on a wrapper locked once, followed by one more unlock
than there were nested requests, add exactly one native unlock to the trace. -/
theorem locks_then_unlocks (fs : List Nat) (t : Traced)
    (hs : t.gpixbuf.lock_state ≠ GST_CORE_VIDEO_MEMORY_UNLOCKED)
    (hone : t.gpixbuf.lock_count = 1) :
    ((t.run (fs.map (fun fl => LockOp.lock fl kCVReturnSuccess))).run
      (List.replicate (fs.length + 1) (LockOp.unlock kCVReturnSuccess))).trace =
      t.trace ++ [CVCall.CVPixelBufferUnlockBaseAddress t.gpixbuf.buf
        (if t.gpixbuf.lock_state = GST_CORE_VIDEO_MEMORY_LOCKED_READONLY then
          kCVPixelBufferLock_ReadOnly else 0)] := by
  obtain ⟨h1, h2, h3, k, hk⟩ := run_locks_on_locked fs t hs
  generalize t.run (fs.map (fun fl => LockOp.lock fl kCVReturnSuccess)) = t2 at h1 h2 h3 hk ⊢
  rw [hone] at hk
  have hrange : t2.gpixbuf.lock_count < GUINT_RANGE := by
    rcases hk with ⟨_, hc⟩ | ⟨_, hc⟩
    · rw [hc]; exact Nat.mod_lt _ zero_lt_guint_range
    · rw [hc]; decide
  have hneed : (if t2.gpixbuf.lock_count = 0 then GUINT_RANGE else t2.gpixbuf.lock_count)
      ≤ fs.length + 1 := by
    rcases hk with ⟨hkl, hc⟩ | ⟨_, hc⟩
    · rw [hc]
      unfold GUINT_RANGE
      split <;> omega
    · rw [hc, if_neg (by decide)]
      omega
  rw [(run_unlocks_on_locked (fs.length + 1) t2 (by rw [h2]; exact hs) hrange hneed).1,
    h1, h2, h3]

/-- Any number of nested lock requests followed by as many unlock requests, on
a fresh wrapper with every native call succeeding, issue one native lock and
then one native unlock, both with the flags of the first request. -/
theorem nested_locks_trace (pixbuf : Nat) (f : Nat) (fs : List Nat) :
    ((Traced.fresh pixbuf).run
      ((f :: fs).map (fun fl => LockOp.lock fl kCVReturnSuccess) ++
        List.replicate (fs.length + 1) (LockOp.unlock kCVReturnSuccess))).trace =
      [CVCall.CVPixelBufferLockBaseAddress pixbuf (native_flags f),
        CVCall.CVPixelBufferUnlockBaseAddress pixbuf (native_flags f)] := by
  rw [Traced.run_append, List.map_cons, Traced.run_cons]
  have hfirst : (Traced.fresh pixbuf).step (LockOp.lock f kCVReturnSuccess) =
      { gpixbuf :=
          { refcount := 1, buf := pixbuf
            lock_state :=
              if wants_write f = true then GST_CORE_VIDEO_MEMORY_LOCKED_READ_WRITE
              else GST_CORE_VIDEO_MEMORY_LOCKED_READONLY
            lock_count := 1 }
        trace := [CVCall.CVPixelBufferLockBaseAddress pixbuf (native_flags f)] } := by
    unfold Traced.step
    rw [LockOp.apply_lock]
    have hs : (Traced.fresh pixbuf).gpixbuf.lock_state = GST_CORE_VIDEO_MEMORY_UNLOCKED := rfl
    rw [lock_unlocked_ok _ _ _ hs rfl, (native_flags_of_mode f).2]
    rfl
  rw [hfirst, locks_then_unlocks fs _ (locked_mode_ne_unlocked _) rfl]
  dsimp only
  rw [(native_flags_of_mode f).1]
  rfl

/-- A lock request issues at most a native lock, and only when it finds the
wrapper unlocked. -/
theorem lock_calls (cvret : Int) (g : GstCoreVideoPixelBuffer) (flags : Nat) (c : CVCall)
    (hc : c ∈ (gst_core_video_pixel_buffer_lock cvret g flags).calls) :
    g.lock_state = GST_CORE_VIDEO_MEMORY_UNLOCKED ∧
      c = CVCall.CVPixelBufferLockBaseAddress g.buf (native_flags flags) := by
  cases hs : g.lock_state with
  | GST_CORE_VIDEO_MEMORY_UNLOCKED =>
    refine ⟨rfl, ?_⟩
    by_cases hok : cvret = kCVReturnSuccess
    · rw [lock_unlocked_ok cvret g flags hs hok, (native_flags_of_mode flags).2] at hc
      exact List.mem_singleton.mp hc
    · rw [lock_unlocked_fail cvret g flags hs hok, (native_flags_of_mode flags).2] at hc
      exact List.mem_singleton.mp hc
  | GST_CORE_VIDEO_MEMORY_LOCKED_READONLY =>
    cases hw : wants_write flags with
    | true =>
      rw [lock_readonly_write cvret g flags hs hw] at hc
      exact absurd hc (List.not_mem_nil c)
    | false =>
      rw [lock_readonly_read cvret g flags hs hw] at hc
      exact absurd hc (List.not_mem_nil c)
  | GST_CORE_VIDEO_MEMORY_LOCKED_READ_WRITE =>
    rw [lock_readwrite cvret g flags hs] at hc
    exact absurd hc (List.not_mem_nil c)

/-- An unlock request issues at most a native unlock, and only when it brings
the lock depth of a locked wrapper to zero. -/
theorem unlock_calls (cvret : Int) (g : GstCoreVideoPixelBuffer) (c : CVCall)
    (hc : c ∈ (gst_core_video_pixel_buffer_unlock cvret g).calls) :
    g.lock_state ≠ GST_CORE_VIDEO_MEMORY_UNLOCKED ∧ g_atomic_int_dec g.lock_count = 0 ∧
      c = CVCall.CVPixelBufferUnlockBaseAddress g.buf
        (if g.lock_state = GST_CORE_VIDEO_MEMORY_LOCKED_READONLY then
          kCVPixelBufferLock_ReadOnly else 0) := by
  by_cases hs : g.lock_state = GST_CORE_VIDEO_MEMORY_UNLOCKED
  · rw [unlock_unlocked cvret g hs] at hc
    exact absurd hc (List.not_mem_nil c)
  · by_cases hd : g_atomic_int_dec g.lock_count = 0
    · refine ⟨hs, hd, ?_⟩
      by_cases hok : cvret = kCVReturnSuccess
      · rw [unlock_last_ok cvret g hs hd hok] at hc
        exact List.mem_singleton.mp hc
      · rw [unlock_last_fail cvret g hs hd hok] at hc
        exact List.mem_singleton.mp hc
    · rw [unlock_still_locked cvret g hs hd] at hc
      exact absurd hc (List.not_mem_nil c)

/-- C4: with every native call succeeding, the native calls issued by any
sequence of lock and unlock requests on a fresh wrapper alternate lock,
unlock, lock, ... starting with a lock. A native lock is issued only by a lock
request that finds the wrapper unlocked, and a native unlock only by the
unlock request that brings the lock depth to zero. In particular `n` nested
lock requests followed by `n` unlock requests issue exactly one native lock
followed by exactly one native unlock, for every `n >= 1` (here `n` is
`fs.length + 1`). -/
theorem C4_native_calls_alternate :
    (∀ (pixbuf : Nat) (reqs : List LockReq),
      alternates ((Traced.fresh pixbuf).run
        (reqs.map (LockReq.withStatus kCVReturnSuccess))).trace = true) ∧
    (∀ (cvret : Int) (g : GstCoreVideoPixelBuffer) (flags : Nat) (c : CVCall),
      c ∈ (gst_core_video_pixel_buffer_lock cvret g flags).calls →
        g.lock_state = GST_CORE_VIDEO_MEMORY_UNLOCKED ∧
        c = CVCall.CVPixelBufferLockBaseAddress g.buf (native_flags flags)) ∧
    (∀ (cvret : Int) (g : GstCoreVideoPixelBuffer) (c : CVCall),
      c ∈ (gst_core_video_pixel_buffer_unlock cvret g).calls →
        g.lock_state ≠ GST_CORE_VIDEO_MEMORY_UNLOCKED ∧
        g_atomic_int_dec g.lock_count = 0 ∧
        ∃ lockFlags, c = CVCall.CVPixelBufferUnlockBaseAddress g.buf lockFlags) ∧
    (∀ (pixbuf : Nat) (f : Nat) (fs : List Nat),
      ((Traced.fresh pixbuf).run
        ((f :: fs).map (fun fl => LockOp.lock fl kCVReturnSuccess) ++
          List.replicate (fs.length + 1) (LockOp.unlock kCVReturnSuccess))).trace =
        [CVCall.CVPixelBufferLockBaseAddress pixbuf (native_flags f),
          CVCall.CVPixelBufferUnlockBaseAddress pixbuf (native_flags f)]) := by
  refine ⟨fun pixbuf reqs => ?_, lock_calls, fun cvret g c hc => ?_, nested_locks_trace⟩
  · unfold alternates
    rw [run_keeps_alternation reqs (Traced.fresh pixbuf) rfl]
    rfl
  · obtain ⟨h1, h2, h3⟩ := unlock_calls cvret g c hc
    exact ⟨h1, h2, _, h3⟩

/-! ## Reorder depth -/

theorem wrap_int_of_range {x : Int} (h0 : -2147483648 ≤ x) (h1 : x < 2147483648) :
    wrap_int x = x := by
  unfold wrap_int
  omega

theorem gsize_to_gint_of_lt {n : Nat} (h : n < 2147483648) : gsize_to_gint n = n := by
  unfold gsize_to_gint
  rw [if_pos (by omega)]
  omega

theorem gsize_to_gint_eq_wrap_int (n : Nat) : gsize_to_gint n = wrap_int (n : Int) := by
  unfold gsize_to_gint wrap_int
  split <;> omega

/-- Macroblock count along one axis when rounding up does not overflow. -/
theorem round_up_mb (w : Int) (h0 : 0 < w) (h1 : w + 15 < 2147483648) :
    (GST_ROUND_UP_16 w).tdiv 16 = (w + 15) / 16 := by
  have h : GST_ROUND_UP_16 w = 16 * ((w + 15) / 16) := by
    unfold GST_ROUND_UP_16 wrap_int
    omega
  rw [h]
  exact Int.mul_tdiv_cancel_left _ (by decide)

/-- Macroblock count along one axis when rounding up overflows the `int`. -/
theorem round_up_mb_top (w : Int) (h0 : 2147483648 ≤ w + 15) (h1 : w < 2147483648) :
    (GST_ROUND_UP_16 w).tdiv 16 = -134217728 ∧ (w + 15) / 16 = 134217728 := by
  have h : GST_ROUND_UP_16 w = 16 * (-134217728) := by
    unfold GST_ROUND_UP_16 wrap_int
    omega
  rw [h]
  exact ⟨Int.mul_tdiv_cancel_left _ (by decide), by omega⟩

theorem dpb_level_cases (level : Int) :
    get_dpb_max_mb_s_from_level level = -1 ∨
      (0 < get_dpb_max_mb_s_from_level level ∧ get_dpb_max_mb_s_from_level level ≤ 184320) := by
  unfold get_dpb_max_mb_s_from_level
  split <;> first | exact Or.inr ⟨by decide, by decide⟩ | exact Or.inl rfl

theorem dpb_level_bounds (level : Int) (h : get_dpb_max_mb_s_from_level level ≠ -1) :
    0 < get_dpb_max_mb_s_from_level level ∧ get_dpb_max_mb_s_from_level level ≤ 184320 := by
  rcases dpb_level_cases level with h1 | h1
  · exact absurd h1 h
  · exact h1

theorem parse_ok (codec_data : List guint8) (hlen : 7 ≤ codec_data.length)
    (hsize : codec_data.length < 2147483648) (hver : (codec_data.getD 0 0).val = 1) :
    parse_h264_profile_and_level_from_codec_data codec_data =
      some (((codec_data.getD 1 0).val : Int), ((codec_data.getD 3 0).val : Int)) := by
  unfold parse_h264_profile_and_level_from_codec_data
  dsimp only
  rw [gsize_to_gint_of_lt hsize]
  rw [if_neg (by omega), if_neg (by simpa using hver)]

theorem parse_short (codec_data : List guint8) (hlen : codec_data.length < 7) :
    parse_h264_profile_and_level_from_codec_data codec_data = none := by
  unfold parse_h264_profile_and_level_from_codec_data
  dsimp only
  rw [gsize_to_gint_of_lt (by omega)]
  rw [if_pos (by omega)]

theorem parse_wrong_version (codec_data : List guint8)
    (hver : (codec_data.getD 0 0).val ≠ 1) :
    parse_h264_profile_and_level_from_codec_data codec_data = none := by
  unfold parse_h264_profile_and_level_from_codec_data
  dsimp only
  split
  · rfl
  · rw [if_pos (by simpa using hver)]

/-- The division of the level capacity by a macroblock count that fits an
`int`. -/
theorem depth_in_range (M W H : Int) (hM : 0 ≤ M) (hW : 1 ≤ W) (hH : 1 ≤ H)
    (h : W * H < 2147483648) :
    wrap_int (W * H) ≠ 0 ∧ M.tdiv (wrap_int (W * H)) = M / (W * H) := by
  have hpos : 1 ≤ W * H := by nlinarith
  rw [wrap_int_of_range (by omega) h]
  exact ⟨by omega, Int.tdiv_eq_ediv hM (by omega)⟩

/-- The division when one axis wrapped to `-2^27` macroblocks. -/
theorem depth_wrapped (M K : Int) (hM : 0 ≤ M) (hM2 : M < 134217728) (hK : 1 ≤ K)
    (hK2 : K ≤ 16) :
    wrap_int (-134217728 * K) ≠ 0 ∧
      M.tdiv (wrap_int (-134217728 * K)) = M / (134217728 * K) := by
  rw [wrap_int_of_range (by omega) (by omega)]
  refine ⟨by omega, ?_⟩
  have e : -134217728 * K = -(134217728 * K) := by ring
  rw [e, Int.tdiv_neg, Int.tdiv_eq_zero_of_lt hM (by omega),
    Int.ediv_eq_zero_of_lt hM (by omega)]
  rfl

/-- The computation on a configuration that passes every check: profile and
level parsed, the level known, the division carried out on `mb_count`. -/
theorem compute_non_baseline (video_info : GstVideoInfo) (codec_data : List guint8)
    (hlen : 7 ≤ codec_data.length) (hsize : codec_data.length < 2147483648)
    (hver : (codec_data.getD 0 0).val = 1) (hprof : (codec_data.getD 1 0).val ≠ 66)
    (hlevel : get_dpb_max_mb_s_from_level ((codec_data.getD 3 0).val : Int) ≠ -1)
    (hw : video_info.width ≠ 0) (hh : video_info.height ≠ 0)
    (hmb : wrap_int ((GST_ROUND_UP_16 video_info.width).tdiv 16 *
      (GST_ROUND_UP_16 video_info.height).tdiv 16) ≠ 0) :
    compute_h264_decode_picture_buffer_length video_info codec_data =
      some
        { ret := true
          length :=
            min ((get_dpb_max_mb_s_from_level ((codec_data.getD 3 0).val : Int)).tdiv
              (wrap_int ((GST_ROUND_UP_16 video_info.width).tdiv 16 *
                (GST_ROUND_UP_16 video_info.height).tdiv 16))) 16 } := by
  unfold compute_h264_decode_picture_buffer_length
  dsimp only
  rw [parse_ok codec_data hlen hsize hver]
  dsimp only
  rw [if_neg (by simp [hw, hh]), if_neg (by omega), if_neg hlevel, if_neg hmb]

/-- C2 (amended): for an H.264 configuration whose blob has between 7 and
2^31 - 1 bytes with first byte 1, a profile byte other than 66, a known level
byte, and width and height positive `int`s whose macroblock count
`ceil(width/16) * ceil(height/16)` is below 2^31,
`compute_h264_decode_picture_buffer_length` returns `TRUE` and sets the depth
to `min (floor (maxDpb(level) / macroblock count)) 16`; at level 31 and
1280x720 the depth is 5. -/
theorem C2_reorder_depth (video_info : GstVideoInfo) (codec_data : List guint8)
    (hlen : 7 ≤ codec_data.length) (hsize : codec_data.length < 2147483648)
    (hver : (codec_data.getD 0 0).val = 1) (hprof : (codec_data.getD 1 0).val ≠ 66)
    (hlevel : get_dpb_max_mb_s_from_level ((codec_data.getD 3 0).val : Int) ≠ -1)
    (hw : 0 < video_info.width) (hw2 : video_info.width < 2147483648)
    (hh : 0 < video_info.height) (hh2 : video_info.height < 2147483648)
    (hmb : ((video_info.width + 15) / 16) * ((video_info.height + 15) / 16) < 2147483648) :
    compute_h264_decode_picture_buffer_length video_info codec_data =
        some
          { ret := true
            length :=
              min (get_dpb_max_mb_s_from_level ((codec_data.getD 3 0).val : Int) /
                (((video_info.width + 15) / 16) * ((video_info.height + 15) / 16))) 16 } ∧
      ((codec_data.getD 3 0).val = 31 → video_info.width = 1280 → video_info.height = 720 →
        compute_h264_decode_picture_buffer_length video_info codec_data =
          some { ret := true, length := 5 }) := by
  obtain ⟨hM0, hM1⟩ := dpb_level_bounds _ hlevel
  have hW : 1 ≤ (video_info.width + 15) / 16 := by omega
  have hH : 1 ≤ (video_info.height + 15) / 16 := by omega
  have key : wrap_int ((GST_ROUND_UP_16 video_info.width).tdiv 16 *
        (GST_ROUND_UP_16 video_info.height).tdiv 16) ≠ 0 ∧
      (get_dpb_max_mb_s_from_level ((codec_data.getD 3 0).val : Int)).tdiv
        (wrap_int ((GST_ROUND_UP_16 video_info.width).tdiv 16 *
          (GST_ROUND_UP_16 video_info.height).tdiv 16)) =
        get_dpb_max_mb_s_from_level ((codec_data.getD 3 0).val : Int) /
          (((video_info.width + 15) / 16) * ((video_info.height + 15) / 16)) := by
    by_cases h1 : video_info.width + 15 < 2147483648
    · by_cases h2 : video_info.height + 15 < 2147483648
      · rw [round_up_mb _ hw h1, round_up_mb _ hh h2]
        exact depth_in_range _ _ _ (le_of_lt hM0) hW hH hmb
      · obtain ⟨e1, e2⟩ := round_up_mb_top _ (by omega) hh2
        rw [round_up_mb _ hw h1, e1, e2, mul_comm]
        rw [e2] at hmb
        rw [mul_comm _ (134217728 : Int)]
        exact depth_wrapped _ _ (le_of_lt hM0) (by omega) hW (by omega)
    · by_cases h2 : video_info.height + 15 < 2147483648
      · obtain ⟨e1, e2⟩ := round_up_mb_top _ (by omega) hw2
        rw [round_up_mb _ hh h2, e1, e2]
        rw [e2] at hmb
        exact depth_wrapped _ _ (le_of_lt hM0) (by omega) hH (by omega)
      · obtain ⟨_, e1⟩ := round_up_mb_top _ (by omega) hw2
        obtain ⟨_, e2⟩ := round_up_mb_top _ (by omega) hh2
        rw [e1, e2] at hmb
        exact absurd hmb (by decide)
  have main := compute_non_baseline video_info codec_data hlen hsize hver hprof hlevel
    (by omega) (by omega) key.1
  rw [key.2] at main
  refine ⟨main, ?_⟩
  intro hl hw3 hh3
  rw [main, hw3, hh3, hl]
  rfl

theorem C2_reorder_depth_witness :
    compute_h264_decode_picture_buffer_length
        { width := 1280, height := 720, fps_n := 30, fps_d := 1 } [1, 100, 0, 31, 255, 225, 0] =
      some { ret := true, length := 5 } :=
  (C2_reorder_depth { width := 1280, height := 720, fps_n := 30, fps_d := 1 }
    [1, 100, 0, 31, 255, 225, 0] (by decide) (by decide) (by decide) (by decide) (by decide)
    (by decide) (by decide) (by decide) (by decide) (by decide)).2 rfl rfl rfl

/-- C2 as stated fails: a 1048576x1048592 frame at level 51 satisfies every
condition of the claim, its macroblock count 65536 * 65537 does not fit an
`int` and wraps to 65536, and the depth computed is 2 where the formula gives
0. -/
theorem C2_reorder_depth_counterexample :
    7 ≤ ([1, 100, 0, 51, 255, 225, 0] : List guint8).length ∧
      (([1, 100, 0, 51, 255, 225, 0] : List guint8).getD 0 0).val = 1 ∧
      (([1, 100, 0, 51, 255, 225, 0] : List guint8).getD 1 0).val ≠ 66 ∧
      get_dpb_max_mb_s_from_level 51 = 184320 ∧
      compute_h264_decode_picture_buffer_length
          { width := 1048576, height := 1048592, fps_n := 30, fps_d := 1 }
          [1, 100, 0, 51, 255, 225, 0] =
        some { ret := true, length := 2 } ∧
      min ((184320 : Int) / (((1048576 + 15) / 16) * ((1048592 + 15) / 16))) 16 = 0 := by
  refine ⟨by decide, by decide, by decide, rfl, ?_, by decide⟩
  rfl

/-! ## Baseline profile, unknown level, malformed blob -/

/-- C12: for an H.264 configuration whose blob has at least 7 bytes, first
byte 1 and profile byte 66, the depth left in `*length` by
`compute_h264_decode_picture_buffer_length` (and so in
`reorder_queue_length`) is 0 whatever the level byte, the width and the
height; the function returns `TRUE` exactly when the blob length fits a
`gint` and neither dimension is 0. -/
theorem C12_baseline_depth_zero (video_info : GstVideoInfo) (codec_data : List guint8)
    (hlen : 7 ≤ codec_data.length) (hver : (codec_data.getD 0 0).val = 1)
    (hprof : (codec_data.getD 1 0).val = 66) :
    ∃ r : DpbLength,
      compute_h264_decode_picture_buffer_length video_info codec_data = some r ∧
        gst_vtdec_compute_reorder_queue_length video_info kCMVideoCodecType_H264 codec_data =
          some r ∧
        r.length = 0 ∧
        (codec_data.length < 2147483648 →
          (r.ret = true ↔ video_info.width ≠ 0 ∧ video_info.height ≠ 0)) := by
  have hq : gst_vtdec_compute_reorder_queue_length video_info kCMVideoCodecType_H264
      codec_data = compute_h264_decode_picture_buffer_length video_info codec_data := by
    unfold gst_vtdec_compute_reorder_queue_length
    rw [if_pos rfl]
  rw [hq]
  unfold compute_h264_decode_picture_buffer_length
  dsimp only
  cases hp : parse_h264_profile_and_level_from_codec_data codec_data with
  | none =>
    refine ⟨_, rfl, rfl, rfl, ?_⟩
    intro hsize
    rw [parse_ok codec_data hlen hsize hver] at hp
    exact absurd hp (by simp)
  | some pl =>
    obtain ⟨profile, level⟩ := pl
    dsimp only
    have hprofile : profile = 66 := by
      unfold parse_h264_profile_and_level_from_codec_data at hp
      dsimp only at hp
      split at hp
      · exact absurd hp (by simp)
      · split at hp
        · exact absurd hp (by simp)
        · simp only [Option.some.injEq, Prod.mk.injEq] at hp
          omega
    by_cases hz : video_info.width = 0 ∨ video_info.height = 0
    · rw [if_pos (by simpa using hz)]
      refine ⟨_, rfl, rfl, rfl, ?_⟩
      intro _
      constructor
      · intro h
        exact absurd h (by simp)
      · intro h
        rcases hz with hz | hz
        · exact absurd hz h.1
        · exact absurd hz h.2
    · rw [if_neg (by simpa using hz), if_pos hprofile]
      refine ⟨_, rfl, rfl, rfl, ?_⟩
      intro _
      constructor
      · intro _
        exact ⟨fun h => hz (Or.inl h), fun h => hz (Or.inr h)⟩
      · intro _
        rfl

theorem C12_baseline_depth_zero_witness :
    ∃ r : DpbLength,
      compute_h264_decode_picture_buffer_length
          { width := 1920, height := 1080, fps_n := 30, fps_d := 1 }
          [1, 66, 192, 99, 255, 225, 0] = some r ∧
        gst_vtdec_compute_reorder_queue_length
          { width := 1920, height := 1080, fps_n := 30, fps_d := 1 } kCMVideoCodecType_H264
          [1, 66, 192, 99, 255, 225, 0] = some r ∧
        r.length = 0 ∧
        (([1, 66, 192, 99, 255, 225, 0] : List guint8).length < 2147483648 →
          (r.ret = true ↔ (1920 : Int) ≠ 0 ∧ (1080 : Int) ≠ 0)) :=
  C12_baseline_depth_zero { width := 1920, height := 1080, fps_n := 30, fps_d := 1 }
    [1, 66, 192, 99, 255, 225, 0] (by decide) (by decide) (by decide)

theorem dpb_unknown_level (level : Nat)
    (hl : level ∉ [10, 11, 12, 13, 20, 21, 22, 30, 31, 32, 40, 41, 42, 50, 51, 52]) :
    get_dpb_max_mb_s_from_level (level : Int) = -1 := by
  simp only [List.mem_cons, List.mem_singleton, not_or, List.not_mem_nil, or_false] at hl
  unfold get_dpb_max_mb_s_from_level
  split <;> first | rfl | omega

/-- The depth computation fails, with depth 0, as soon as the blob does not
parse. -/
theorem compute_parse_failure (video_info : GstVideoInfo) (codec_data : List guint8)
    (hp : parse_h264_profile_and_level_from_codec_data codec_data = none) :
    compute_h264_decode_picture_buffer_length video_info codec_data =
      some { ret := false, length := 0 } := by
  unfold compute_h264_decode_picture_buffer_length
  dsimp only
  rw [hp]

/-- The depth computation fails, with depth 0, on a level that is not in the
table, whether or not the blob parses. -/
theorem compute_unknown_level (video_info : GstVideoInfo) (codec_data : List guint8)
    (hprof : (codec_data.getD 1 0).val ≠ 66)
    (hlevel : get_dpb_max_mb_s_from_level ((codec_data.getD 3 0).val : Int) = -1) :
    compute_h264_decode_picture_buffer_length video_info codec_data =
      some { ret := false, length := 0 } := by
  cases hp : parse_h264_profile_and_level_from_codec_data codec_data with
  | none => exact compute_parse_failure video_info codec_data hp
  | some pl =>
    obtain ⟨profile, level⟩ := pl
    have hpl : profile = ((codec_data.getD 1 0).val : Int) ∧
        level = ((codec_data.getD 3 0).val : Int) := by
      unfold parse_h264_profile_and_level_from_codec_data at hp
      dsimp only at hp
      split at hp
      · exact absurd hp (by simp)
      · split at hp
        · exact absurd hp (by simp)
        · simp only [Option.some.injEq, Prod.mk.injEq] at hp
          exact ⟨hp.1.symm, hp.2.symm⟩
    unfold compute_h264_decode_picture_buffer_length
    dsimp only
    rw [hp]
    dsimp only
    split
    · rfl
    · rw [if_neg (by omega), hpl.2, if_pos hlevel]

theorem closed_session (vtdec : GstVtdec) :
    (if vtdec.session.isSome then gst_vtdec_invalidate_session vtdec
      else (vtdec, [])).1.session = none := by
  unfold gst_vtdec_invalidate_session
  cases h : vtdec.session with
  | none => exact h
  | some s => rfl

theorem cm_format_h264 : cm_format_of_caps_name "video/x-h264" = kCMVideoCodecType_H264 := by
  unfold cm_format_of_caps_name
  rw [if_pos rfl]

/-- Configuration of an H.264 stream whose depth computation fails: it
returns `FALSE` after closing the session it held. -/
theorem set_format_depth_failure (vtdec : GstVtdec) (state : GstVideoCodecState)
    (backend : VtBackend) (codec_data : List guint8) (length : Int)
    (hcaps : state.caps_name = "video/x-h264") (hdata : state.codec_data = some codec_data)
    (hfail : compute_h264_decode_picture_buffer_length state.info codec_data =
      some { ret := false, length := length }) :
    ∃ out : SessionOutcome,
      gst_vtdec_set_format vtdec state backend = some out ∧ out.ret = false ∧
        out.vtdec.session = none ∧
        out.calls = (if vtdec.session.isSome then gst_vtdec_invalidate_session vtdec
          else (vtdec, [])).2 := by
  unfold gst_vtdec_set_format
  dsimp only
  rw [hcaps, cm_format_h264, hdata]
  rw [if_neg (by simp)]
  unfold gst_vtdec_compute_reorder_queue_length
  rw [if_pos rfl]
  dsimp only [Option.getD_some]
  rw [hfail]
  dsimp only
  rw [if_pos (by rfl)]
  exact ⟨_, rfl, rfl, closed_session vtdec, rfl⟩

/-- C14: for an H.264 configuration with a valid blob, a profile byte other
than 66, positive width and height and a level byte outside the table,
`get_dpb_max_mb_s_from_level` returns -1,
`compute_h264_decode_picture_buffer_length` returns `FALSE`, and
`gst_vtdec_set_format` returns `FALSE` with no session held. -/
theorem C14_unknown_level_fails (vtdec : GstVtdec) (state : GstVideoCodecState)
    (backend : VtBackend) (codec_data : List guint8)
    (hcaps : state.caps_name = "video/x-h264") (hdata : state.codec_data = some codec_data)
    (hlen : 7 ≤ codec_data.length) (hver : (codec_data.getD 0 0).val = 1)
    (hprof : (codec_data.getD 1 0).val ≠ 66)
    (hw : 0 < state.info.width) (hh : 0 < state.info.height)
    (hlevel : (codec_data.getD 3 0).val ∉
      [10, 11, 12, 13, 20, 21, 22, 30, 31, 32, 40, 41, 42, 50, 51, 52]) :
    get_dpb_max_mb_s_from_level ((codec_data.getD 3 0).val : Int) = -1 ∧
      compute_h264_decode_picture_buffer_length state.info codec_data =
        some { ret := false, length := 0 } ∧
      gst_vtdec_compute_reorder_queue_length state.info kCMVideoCodecType_H264 codec_data =
        some { ret := false, length := 0 } ∧
      ∃ out : SessionOutcome,
        gst_vtdec_set_format vtdec state backend = some out ∧ out.ret = false ∧
          out.vtdec.session = none := by
  have h1 := dpb_unknown_level _ hlevel
  have h2 := compute_unknown_level state.info codec_data hprof h1
  refine ⟨h1, h2, ?_, ?_⟩
  · unfold gst_vtdec_compute_reorder_queue_length
    rw [if_pos rfl]
    exact h2
  · obtain ⟨out, e1, e2, e3, _⟩ :=
      set_format_depth_failure vtdec state backend codec_data 0 hcaps hdata h2
    exact ⟨out, e1, e2, e3⟩

theorem C14_unknown_level_fails_witness :
    get_dpb_max_mb_s_from_level
        (((([1, 100, 0, 99, 255, 225, 0] : List guint8).getD 3 0).val : Nat) : Int) = -1 ∧
      compute_h264_decode_picture_buffer_length
          { width := 1280, height := 720, fps_n := 30, fps_d := 1 }
          [1, 100, 0, 99, 255, 225, 0] =
        some { ret := false, length := 0 } ∧
      gst_vtdec_compute_reorder_queue_length
          { width := 1280, height := 720, fps_n := 30, fps_d := 1 } kCMVideoCodecType_H264
          [1, 100, 0, 99, 255, 225, 0] =
        some { ret := false, length := 0 } ∧
      ∃ out : SessionOutcome,
        gst_vtdec_set_format (GstVtdec.idle 0 none)
            { caps_name := "video/x-h264"
              info := { width := 1280, height := 720, fps_n := 30, fps_d := 1 }
              codec_data := some [1, 100, 0, 99, 255, 225, 0] }
            { format_description := some 7, session_status := 0, session := 9 } = some out ∧
          out.ret = false ∧ out.vtdec.session = none :=
  C14_unknown_level_fails (GstVtdec.idle 0 none)
    { caps_name := "video/x-h264"
      info := { width := 1280, height := 720, fps_n := 30, fps_d := 1 }
      codec_data := some [1, 100, 0, 99, 255, 225, 0] }
    { format_description := some 7, session_status := 0, session := 9 }
    [1, 100, 0, 99, 255, 225, 0] rfl rfl (by decide) (by decide) (by decide) (by decide)
    (by decide) (by decide)

/-- C13 (amended): for an H.264 configuration (caps `video/x-h264`) whose
blob is shorter than 7 bytes or does not start with byte 1,
`gst_vtdec_set_format` returns `FALSE` and holds no session when it returns,
whatever session it held before; a session held before is invalidated and no
session is created. -/
theorem C13_malformed_blob_fails (vtdec : GstVtdec) (state : GstVideoCodecState)
    (backend : VtBackend) (codec_data : List guint8)
    (hcaps : state.caps_name = "video/x-h264") (hdata : state.codec_data = some codec_data)
    (hbad : codec_data.length < 7 ∨ (codec_data.getD 0 0).val ≠ 1) :
    ∃ out : SessionOutcome,
      gst_vtdec_set_format vtdec state backend = some out ∧ out.ret = false ∧
        out.vtdec.session = none ∧
        (∀ fd, SessionCall.VTDecompressionSessionCreate fd ∉ out.calls) := by
  have hp : parse_h264_profile_and_level_from_codec_data codec_data = none := by
    rcases hbad with h | h
    · exact parse_short codec_data h
    · exact parse_wrong_version codec_data h
  obtain ⟨out, e1, e2, e3, e4⟩ :=
    set_format_depth_failure vtdec state backend codec_data 0 hcaps hdata
      (compute_parse_failure state.info codec_data hp)
  refine ⟨out, e1, e2, e3, ?_⟩
  intro fd hmem
  rw [e4] at hmem
  unfold gst_vtdec_invalidate_session at hmem
  cases hs : vtdec.session with
  | none =>
    rw [hs] at hmem
    exact absurd hmem (by simp)
  | some s =>
    rw [hs] at hmem
    exact absurd hmem (by simp)

theorem C13_malformed_blob_fails_witness :
    ∃ out : SessionOutcome,
      gst_vtdec_set_format (GstVtdec.idle 3 none)
          { caps_name := "video/x-h264"
            info := { width := 1280, height := 720, fps_n := 30, fps_d := 1 }
            codec_data := some [1, 100, 0] }
          { format_description := some 7, session_status := 0, session := 9 } = some out ∧
        out.ret = false ∧ out.vtdec.session = none ∧
        (∀ fd, SessionCall.VTDecompressionSessionCreate fd ∉ out.calls) :=
  C13_malformed_blob_fails (GstVtdec.idle 3 none)
    { caps_name := "video/x-h264"
      info := { width := 1280, height := 720, fps_n := 30, fps_d := 1 }
      codec_data := some [1, 100, 0] }
    { format_description := some 7, session_status := 0, session := 9 } [1, 100, 0] rfl rfl
    (Or.inl (by decide))

/-- C13 as stated fails: with caps `video/mpeg` the blob is not parsed; a
3-byte blob whose first byte is 0 is accepted, and when the backend opens the
session the configuration returns `TRUE` with that session held. -/
theorem C13_malformed_blob_fails_counterexample :
    ([0, 0, 1] : List guint8).length < 7 ∧
      (([0, 0, 1] : List guint8).getD 0 0).val ≠ 1 ∧
      ∃ out : SessionOutcome,
        gst_vtdec_set_format (GstVtdec.idle 0 none)
            { caps_name := "video/mpeg"
              info := { width := 1280, height := 720, fps_n := 30, fps_d := 1 }
              codec_data := some [0, 0, 1] }
            { format_description := some 7, session_status := 0, session := 9 } = some out ∧
          out.ret = true ∧ out.vtdec.session = some 9 :=
  ⟨by decide, by decide, _, rfl, rfl, rfl⟩

/-! ## The emission loop -/

theorem try_pop_nil {α : Type} : g_async_queue_try_pop ([] : List α) = (none, []) := rfl

theorem try_pop_concat {α : Type} (L : List α) (x : α) :
    g_async_queue_try_pop (L ++ [x]) = (some x, L) := by
  unfold g_async_queue_try_pop
  rw [List.getLast?_concat, List.dropLast_concat]

/-- The loop leaves at once when its condition is false. -/
theorem loop_stop (depth : Int) (tc : Option TextureCache) (drain flush : Bool)
    (ds : Nat → GstFlowReturn) (fuel : Nat) (s : PushState)
    (h : (decide (g_async_queue_length s.reorder_queue >= depth) || drain || flush) = false) :
    push_frames_loop depth tc drain flush ds (fuel + 1) s = s := by
  unfold push_frames_loop
  rw [h]
  rfl

/-- The loop leaves at once on an empty queue. -/
theorem loop_empty (depth : Int) (tc : Option TextureCache) (drain flush : Bool)
    (ds : Nat → GstFlowReturn) (fuel : Nat) (s : PushState) (h : s.reorder_queue = []) :
    push_frames_loop depth tc drain flush ds (fuel + 1) s = s := by
  unfold push_frames_loop
  rw [h, try_pop_nil]
  dsimp only
  split <;> rfl

/-- One iteration of the loop when flushing. -/
theorem loop_flush_step (depth : Int) (tc : Option TextureCache) (drain : Bool)
    (ds : Nat → GstFlowReturn) (fuel : Nat) (s : PushState) (L : List GstVideoCodecFrame)
    (x : GstVideoCodecFrame) (h : s.reorder_queue = L ++ [x]) :
    push_frames_loop depth tc drain true ds (fuel + 1) s =
      push_frames_loop depth tc drain true ds fuel
        { s with
          reorder_queue := L
          calls := s.calls ++ [DecoderCall.gst_video_decoder_drop_frame (handed_frame tc x)]
          popped := s.popped ++ [x] } := by
  rw [push_frames_loop]
  rw [h, try_pop_concat]
  dsimp only
  rw [if_pos (by simp), if_pos rfl]
  rfl

/-- One iteration of the loop when delivering. -/
theorem loop_finish_step (depth : Int) (tc : Option TextureCache) (drain : Bool)
    (ds : Nat → GstFlowReturn) (fuel : Nat) (s : PushState) (L : List GstVideoCodecFrame)
    (x : GstVideoCodecFrame) (h : s.reorder_queue = L ++ [x])
    (hc : (decide (g_async_queue_length (L ++ [x]) >= depth) || drain) = true) :
    push_frames_loop depth tc drain false ds (fuel + 1) s =
      if ds s.finished != GST_FLOW_OK then
        { reorder_queue := L
          ret := ds s.finished
          calls := s.calls ++ [DecoderCall.gst_video_decoder_finish_frame (handed_frame tc x)]
          popped := s.popped ++ [x]
          finished := s.finished + 1 }
      else
        push_frames_loop depth tc drain false ds fuel
          { reorder_queue := L
            ret := ds s.finished
            calls := s.calls ++ [DecoderCall.gst_video_decoder_finish_frame (handed_frame tc x)]
            popped := s.popped ++ [x]
            finished := s.finished + 1 } := by
  rw [push_frames_loop]
  rw [h, try_pop_concat]
  dsimp only
  rw [Bool.or_false, hc, if_pos rfl, if_neg (by simp)]
  rfl

theorem emit_count_zero (depth : Int) (drain : Bool) : emit_count depth drain 0 = 0 := by
  unfold emit_count
  split
  · rfl
  · split
    · rfl
    · split
      · omega
      · rfl

/-- While the loop condition holds, one more queued frame is one more frame
taken. -/
theorem emit_count_succ (depth : Int) (drain : Bool) (n : Nat)
    (hc : (decide (((n + 1 : Nat) : Int) ≥ depth) || drain) = true) :
    emit_count depth drain (n + 1) = emit_count depth drain n + 1 := by
  unfold emit_count
  cases drain with
  | true => simp
  | false =>
    simp only [Bool.or_false, decide_eq_true_eq] at hc
    simp only [Bool.false_eq_true, if_false]
    split
    · rfl
    · split_ifs <;> omega

/-- When the loop condition fails, no frame is taken. -/
theorem emit_count_stop (depth : Int) (drain : Bool) (n : Nat)
    (hc : (decide (((n : Nat) : Int) ≥ depth) || drain) = false) :
    emit_count depth drain n = 0 := by
  unfold emit_count
  cases drain with
  | true => simp at hc
  | false =>
    simp only [Bool.or_false, decide_eq_false_iff_not] at hc
    simp only [Bool.false_eq_true, if_false]
    split_ifs <;> omega

theorem emit_count_le (depth : Int) (drain : Bool) (n : Nat) : emit_count depth drain n ≤ n := by
  unfold emit_count
  split_ifs <;> omega

theorem queue_length_concat (L : List GstVideoCodecFrame) (x : GstVideoCodecFrame) :
    g_async_queue_length (L ++ [x]) = ((L.length + 1 : Nat) : Int) := by
  unfold g_async_queue_length
  rw [List.length_append]
  rfl

theorem take_concat_pred (L : List GstVideoCodecFrame) (x : GstVideoCodecFrame) (k : Nat) :
    (L ++ [x]).take ((L ++ [x]).length - (k + 1)) = L.take (L.length - k) := by
  rw [List.length_append, List.length_singleton, Nat.add_sub_add_right]
  exact List.take_append_of_le_length (Nat.sub_le _ _)

theorem reverse_take_concat (L : List GstVideoCodecFrame) (x : GstVideoCodecFrame) (k : Nat) :
    (L ++ [x]).reverse.take (k + 1) = x :: L.reverse.take k := by
  rw [List.reverse_append]
  rfl

theorem queue_nil_or_snoc {α : Type} (q : List α) : q = [] ∨ ∃ L x, q = L ++ [x] := by
  rcases List.eq_nil_or_concat q with h | ⟨L, x, h⟩
  · exact Or.inl h
  · exact Or.inr ⟨L, x, by rw [h, List.concat_eq_append]⟩

/-- Flushing empties the queue: every frame is dropped in pop order, the
flow value and the delivery count stay as they were. -/
theorem loop_flush (depth : Int) (tc : Option TextureCache) (drain : Bool)
    (ds : Nat → GstFlowReturn) :
    ∀ (fuel : Nat) (q : List GstVideoCodecFrame) (ret : GstFlowReturn)
      (calls : List DecoderCall) (popped : List GstVideoCodecFrame) (finished : Nat),
      q.length < fuel →
      push_frames_loop depth tc drain true ds fuel
          { reorder_queue := q, ret := ret, calls := calls, popped := popped,
            finished := finished } =
        { reorder_queue := []
          ret := ret
          calls :=
            calls ++
              q.reverse.map
                (fun f => DecoderCall.gst_video_decoder_drop_frame (handed_frame tc f))
          popped := popped ++ q.reverse
          finished := finished } := by
  intro fuel
  induction fuel with
  | zero =>
    intro q ret calls popped finished h
    exact absurd h (Nat.not_lt_zero _)
  | succ fuel ih =>
    intro q ret calls popped finished h
    rcases queue_nil_or_snoc q with hq | ⟨L, x, hq⟩
    · subst hq
      rw [loop_empty _ _ _ _ _ _ _ rfl]
      simp
    · subst hq
      rw [loop_flush_step depth tc drain ds fuel _ L x rfl]
      dsimp only
      rw [ih L ret _ _ finished (by simpa using h)]
      simp

/-- Delivery when no delivery fails: `emit_count` frames leave the queue from
its tail, each handed to `gst_video_decoder_finish_frame`. -/
theorem loop_all_ok (depth : Int) (tc : Option TextureCache) (drain : Bool)
    (ds : Nat → GstFlowReturn) :
    ∀ (fuel : Nat) (q : List GstVideoCodecFrame) (ret : GstFlowReturn)
      (calls : List DecoderCall) (popped : List GstVideoCodecFrame) (finished : Nat),
      q.length < fuel →
      (∀ i, i < emit_count depth drain q.length → ds (finished + i) = GST_FLOW_OK) →
      push_frames_loop depth tc drain false ds fuel
          { reorder_queue := q, ret := ret, calls := calls, popped := popped,
            finished := finished } =
        { reorder_queue := q.take (q.length - emit_count depth drain q.length)
          ret := if emit_count depth drain q.length = 0 then ret else GST_FLOW_OK
          calls :=
            calls ++
              (q.reverse.take (emit_count depth drain q.length)).map
                (fun f => DecoderCall.gst_video_decoder_finish_frame (handed_frame tc f))
          popped := popped ++ q.reverse.take (emit_count depth drain q.length)
          finished := finished + emit_count depth drain q.length } := by
  intro fuel
  induction fuel with
  | zero =>
    intro q ret calls popped finished h
    exact absurd h (Nat.not_lt_zero _)
  | succ fuel ih =>
    intro q ret calls popped finished h hok
    rcases queue_nil_or_snoc q with hq | ⟨L, x, hq⟩
    · subst hq
      rw [loop_empty _ _ _ _ _ _ _ rfl]
      simp [emit_count_zero]
    · subst hq
      by_cases hc : (decide (g_async_queue_length (L ++ [x]) ≥ depth) || drain) = true
      · have hlen : (L ++ [x]).length = L.length + 1 := by simp
        have hk : emit_count depth drain (L ++ [x]).length =
            emit_count depth drain L.length + 1 := by
          rw [hlen]
          exact emit_count_succ depth drain L.length (by rwa [queue_length_concat] at hc)
        have h0 : ds finished = GST_FLOW_OK := by
          have := hok 0 (by omega)
          simpa using this
        rw [loop_finish_step depth tc drain ds fuel _ L x rfl hc]
        dsimp only
        rw [if_neg (by simp [h0])]
        rw [ih L _ _ _ _ (by simpa using h)
          (fun i hi => by
            have := hok (i + 1) (by omega)
            rw [← this]
            congr 1
            omega)]
        rw [hk, take_concat_pred, reverse_take_concat, h0]
        simp [Nat.add_assoc, Nat.add_comm 1]
      · have hc2 : (decide (g_async_queue_length (L ++ [x]) ≥ depth) || drain) = false := by
          simpa using hc
        have hk : emit_count depth drain (L ++ [x]).length = 0 :=
          emit_count_stop depth drain _ (by
            unfold g_async_queue_length at hc2
            exact hc2)
        rw [loop_stop depth tc drain false ds fuel _ (by simpa using hc2)]
        rw [hk]
        simp

/-- Delivery when the delivery number `j` (counted from 0) is the first to
fail: the loop stops right after it with its flow value, `j + 1` frames taken
and the others left as they were. -/
theorem loop_first_failure (depth : Int) (tc : Option TextureCache) (drain : Bool)
    (ds : Nat → GstFlowReturn) :
    ∀ (fuel : Nat) (q : List GstVideoCodecFrame) (ret : GstFlowReturn)
      (calls : List DecoderCall) (popped : List GstVideoCodecFrame) (finished j : Nat),
      q.length < fuel → j < emit_count depth drain q.length →
      (∀ i, i < j → ds (finished + i) = GST_FLOW_OK) →
      ds (finished + j) ≠ GST_FLOW_OK →
      push_frames_loop depth tc drain false ds fuel
          { reorder_queue := q, ret := ret, calls := calls, popped := popped,
            finished := finished } =
        { reorder_queue := q.take (q.length - (j + 1))
          ret := ds (finished + j)
          calls :=
            calls ++
              (q.reverse.take (j + 1)).map
                (fun f => DecoderCall.gst_video_decoder_finish_frame (handed_frame tc f))
          popped := popped ++ q.reverse.take (j + 1)
          finished := finished + (j + 1) } := by
  intro fuel
  induction fuel with
  | zero =>
    intro q ret calls popped finished j h
    exact absurd h (Nat.not_lt_zero _)
  | succ fuel ih =>
    intro q ret calls popped finished j h hj hok hfail
    rcases queue_nil_or_snoc q with hq | ⟨L, x, hq⟩
    · subst hq
      rw [List.length_nil, emit_count_zero] at hj
      exact absurd hj (Nat.not_lt_zero _)
    · subst hq
      have hc : (decide (g_async_queue_length (L ++ [x]) ≥ depth) || drain) = true := by
        by_contra hn
        have hc2 : (decide (g_async_queue_length (L ++ [x]) ≥ depth) || drain) = false := by
          simpa using hn
        have hk : emit_count depth drain (L ++ [x]).length = 0 :=
          emit_count_stop depth drain _ (by
            unfold g_async_queue_length at hc2
            exact hc2)
        omega
      have hlen : (L ++ [x]).length = L.length + 1 := by simp
      have hk : emit_count depth drain (L ++ [x]).length =
          emit_count depth drain L.length + 1 := by
        rw [hlen]
        exact emit_count_succ depth drain L.length (by rwa [queue_length_concat] at hc)
      rw [loop_finish_step depth tc drain ds fuel _ L x rfl hc]
      dsimp only
      cases j with
      | zero =>
        have h0 : ds finished ≠ GST_FLOW_OK := by simpa using hfail
        rw [if_pos (by simpa using h0)]
        rw [take_concat_pred, reverse_take_concat]
        simp
      | succ j =>
        have h0 : ds finished = GST_FLOW_OK := by
          have := hok 0 (by omega)
          simpa using this
        rw [if_neg (by simp [h0])]
        have e : finished + (j + 1) = finished + 1 + j := by omega
        rw [ih L _ _ _ _ j (by simpa using h) (by omega)
          (fun i hi => by
            have := hok (i + 1) (by omega)
            rw [← this]
            congr 1
            omega)
          (by rw [← e]; exact hfail)]
        rw [take_concat_pred, reverse_take_concat, e]
        simp [Nat.add_assoc, Nat.add_comm 1]

/-- The emission call when none of the deliveries it makes fails. -/
theorem push_all_ok (vtdec : GstVtdec) (drain : Bool) (ds : Nat → GstFlowReturn)
    (hok : ∀ i, i < emit_count vtdec.reorder_queue_length drain vtdec.reorder_queue.length →
      ds i = GST_FLOW_OK) :
    gst_vtdec_push_frames_if_needed vtdec drain false ds =
      { ret := GST_FLOW_OK
        vtdec :=
          { vtdec with
            reorder_queue :=
              vtdec.reorder_queue.take
                (vtdec.reorder_queue.length -
                  emit_count vtdec.reorder_queue_length drain vtdec.reorder_queue.length) }
        calls :=
          (if drain then [DecoderCall.VTDecompressionSessionWaitForAsynchronousFrames] else []) ++
            (vtdec.reorder_queue.reverse.take
              (emit_count vtdec.reorder_queue_length drain vtdec.reorder_queue.length)).map
              (fun f =>
                DecoderCall.gst_video_decoder_finish_frame (handed_frame vtdec.texture_cache f))
        popped :=
          vtdec.reorder_queue.reverse.take
            (emit_count vtdec.reorder_queue_length drain vtdec.reorder_queue.length) } := by
  unfold gst_vtdec_push_frames_if_needed
  dsimp only
  rw [loop_all_ok _ _ _ _ _ _ _ _ _ _ (Nat.lt_succ_self _) (by simpa using hok)]
  simp

/-- The emission call when delivery number `j` (from 0) is the first to
fail. -/
theorem push_first_failure (vtdec : GstVtdec) (drain : Bool) (ds : Nat → GstFlowReturn)
    (j : Nat)
    (hj : j < emit_count vtdec.reorder_queue_length drain vtdec.reorder_queue.length)
    (hok : ∀ i, i < j → ds i = GST_FLOW_OK) (hfail : ds j ≠ GST_FLOW_OK) :
    gst_vtdec_push_frames_if_needed vtdec drain false ds =
      { ret := ds j
        vtdec :=
          { vtdec with
            reorder_queue :=
              vtdec.reorder_queue.take (vtdec.reorder_queue.length - (j + 1)) }
        calls :=
          (if drain then [DecoderCall.VTDecompressionSessionWaitForAsynchronousFrames] else []) ++
            (vtdec.reorder_queue.reverse.take (j + 1)).map
              (fun f =>
                DecoderCall.gst_video_decoder_finish_frame (handed_frame vtdec.texture_cache f))
        popped := vtdec.reorder_queue.reverse.take (j + 1) } := by
  unfold gst_vtdec_push_frames_if_needed
  dsimp only
  rw [loop_first_failure _ _ _ _ _ _ _ _ _ _ j (Nat.lt_succ_self _) hj (by simpa using hok)
    (by simpa using hfail)]
  simp

/-- The emission call when flushing. -/
theorem push_flush (vtdec : GstVtdec) (drain : Bool) (ds : Nat → GstFlowReturn) :
    gst_vtdec_push_frames_if_needed vtdec drain true ds =
      { ret := GST_FLOW_OK
        vtdec := { vtdec with reorder_queue := [] }
        calls :=
          (if drain then [DecoderCall.VTDecompressionSessionWaitForAsynchronousFrames] else []) ++
            vtdec.reorder_queue.reverse.map
              (fun f =>
                DecoderCall.gst_video_decoder_drop_frame (handed_frame vtdec.texture_cache f))
        popped := vtdec.reorder_queue.reverse } := by
  unfold gst_vtdec_push_frames_if_needed
  dsimp only
  rw [loop_flush _ _ _ _ _ _ _ _ _ _ (Nat.lt_succ_self _)]
  simp

/-! ## Emission: steady state, flush, finish, failure -/

theorem emit_count_steady (depth : Int) (n : Nat) :
    (depth ≤ 0 → emit_count depth false n = n) ∧
      (1 ≤ depth → depth ≤ n → ((emit_count depth false n : Nat) : Int) = n - depth + 1) ∧
      ((n : Int) < depth → emit_count depth false n = 0) ∧
      (∀ i, i < emit_count depth false n → depth ≤ ((n - i : Nat) : Int)) ∧
      (((n - emit_count depth false n : Nat) : Int) < depth ∨ n - emit_count depth false n = 0) := by
  unfold emit_count
  simp only [Bool.false_eq_true, if_false]
  refine ⟨?_, ?_, ?_, ?_, ?_⟩
  · intro h
    rw [if_pos h]
  · intro h1 h2
    rw [if_neg (by omega), if_pos h2]
    omega
  · intro h
    rw [if_neg (by omega), if_neg (by omega)]
  · intro i
    split_ifs <;> omega
  · split_ifs <;> omega

theorem emit_count_drain (depth : Int) (n : Nat) : emit_count depth true n = n := by
  unfold emit_count
  rw [if_pos rfl]

theorem length_reverse_take (q : List GstVideoCodecFrame) (k : Nat) (h : k ≤ q.length) :
    (q.reverse.take k).length = k := by
  rw [List.length_take, List.length_reverse]
  omega

/-- The frames left in the queue followed by the frames taken, last taken
first, are the queue as it was. -/
theorem take_append_popped (q : List GstVideoCodecFrame) (k : Nat) :
    q.take (q.length - k) ++ (q.reverse.take k).reverse = q := by
  rw [List.take_reverse, List.reverse_reverse, List.take_append_drop]

/-- C15: a steady-state call (`drain` and `flush` false) on a queue of `n`
frames, with every delivery returning `GST_FLOW_OK`, hands to
`gst_video_decoder_finish_frame` the frames at the tail of the queue one by
one, each while the queue length is at least the reorder depth, and stops
with the length below the depth or the queue empty: `n - depth + 1` frames
when `1 <= depth <= n`, all `n` when `depth <= 0`, none when `depth > n`. -/
theorem C15_steady_state_emission (vtdec : GstVtdec) (downstream : Nat → GstFlowReturn)
    (hok : ∀ i, downstream i = GST_FLOW_OK) :
    (gst_vtdec_push_frames_if_needed vtdec false false downstream).ret = GST_FLOW_OK ∧
      (gst_vtdec_push_frames_if_needed vtdec false false downstream).popped =
        vtdec.reorder_queue.reverse.take
          (emit_count vtdec.reorder_queue_length false vtdec.reorder_queue.length) ∧
      (gst_vtdec_push_frames_if_needed vtdec false false downstream).calls =
        (gst_vtdec_push_frames_if_needed vtdec false false downstream).popped.map
          (fun f =>
            DecoderCall.gst_video_decoder_finish_frame (handed_frame vtdec.texture_cache f)) ∧
      (gst_vtdec_push_frames_if_needed vtdec false false downstream).vtdec.reorder_queue ++
          (gst_vtdec_push_frames_if_needed vtdec false false downstream).popped.reverse =
        vtdec.reorder_queue ∧
      (∀ i, i < (gst_vtdec_push_frames_if_needed vtdec false false downstream).popped.length →
        vtdec.reorder_queue_length ≤ ((vtdec.reorder_queue.length - i : Nat) : Int)) ∧
      (g_async_queue_length
            (gst_vtdec_push_frames_if_needed vtdec false false downstream).vtdec.reorder_queue <
          vtdec.reorder_queue_length ∨
        (gst_vtdec_push_frames_if_needed vtdec false false downstream).vtdec.reorder_queue = []) ∧
      (1 ≤ vtdec.reorder_queue_length →
        vtdec.reorder_queue_length ≤ vtdec.reorder_queue.length →
        (((gst_vtdec_push_frames_if_needed vtdec false false downstream).popped.length : Nat) :
            Int) =
          vtdec.reorder_queue.length - vtdec.reorder_queue_length + 1) ∧
      (vtdec.reorder_queue_length ≤ 0 →
        (gst_vtdec_push_frames_if_needed vtdec false false downstream).popped.length =
          vtdec.reorder_queue.length) ∧
      ((vtdec.reorder_queue.length : Int) < vtdec.reorder_queue_length →
        (gst_vtdec_push_frames_if_needed vtdec false false downstream).popped.length = 0) := by
  rw [push_all_ok vtdec false downstream (fun i _ => hok i)]
  dsimp only
  obtain ⟨h1, h2, h3, h4, h5⟩ :=
    emit_count_steady vtdec.reorder_queue_length vtdec.reorder_queue.length
  have hle := emit_count_le vtdec.reorder_queue_length false vtdec.reorder_queue.length
  rw [length_reverse_take _ _ hle]
  refine ⟨rfl, rfl, by simp, ?_, h4, ?_, h2, h1, h3⟩
  · exact take_append_popped _ _
  · unfold g_async_queue_length
    rw [List.length_take]
    rcases h5 with h | h
    · left
      rw [Nat.min_eq_left (Nat.sub_le _ _)]
      exact h
    · right
      rw [h]
      rfl


theorem C15_steady_state_emission_witness :
    (gst_vtdec_push_frames_if_needed
        (vtdec_holding 2 [frame_at 2 120, frame_at 1 80, frame_at 0 40]) false false
        (fun _ => GST_FLOW_OK)).popped = [frame_at 0 40, frame_at 1 80] :=
  (C15_steady_state_emission (vtdec_holding 2 [frame_at 2 120, frame_at 1 80, frame_at 0 40])
    (fun _ => GST_FLOW_OK) (fun _ => rfl)).2.1

/-- C16: flushing (`gst_vtdec_flush`) returns `TRUE`, never calls
`VTDecompressionSessionWaitForAsynchronousFrames`, hands every queued frame
to `gst_video_decoder_drop_frame` and none to
`gst_video_decoder_finish_frame`, and leaves the queue empty, whatever the
queue, the reorder depth and the answers of downstream. -/
theorem C16_flush_drops_all (vtdec : GstVtdec) (downstream : Nat → GstFlowReturn) :
    (gst_vtdec_flush vtdec downstream).1 = true ∧
      (gst_vtdec_flush vtdec downstream).2.calls =
        vtdec.reorder_queue.reverse.map
          (fun f =>
            DecoderCall.gst_video_decoder_drop_frame (handed_frame vtdec.texture_cache f)) ∧
      (gst_vtdec_flush vtdec downstream).2.popped = vtdec.reorder_queue.reverse ∧
      (gst_vtdec_flush vtdec downstream).2.vtdec.reorder_queue = [] ∧
      (gst_vtdec_flush vtdec downstream).2.ret = GST_FLOW_OK ∧
      DecoderCall.VTDecompressionSessionWaitForAsynchronousFrames ∉
        (gst_vtdec_flush vtdec downstream).2.calls ∧
      (∀ f, DecoderCall.gst_video_decoder_finish_frame f ∉
        (gst_vtdec_flush vtdec downstream).2.calls) := by
  unfold gst_vtdec_flush
  dsimp only
  rw [push_flush]
  dsimp only
  refine ⟨rfl, by simp, rfl, rfl, rfl, by simp, ?_⟩
  intro f
  simp

/-- Among the first `m` deliveries either none fails or one is the first to
fail. -/
theorem all_ok_or_first_failure (ds : Nat → GstFlowReturn) (m : Nat) :
    (∀ i, i < m → ds i = GST_FLOW_OK) ∨
      ∃ j, j < m ∧ (∀ i, i < j → ds i = GST_FLOW_OK) ∧ ds j ≠ GST_FLOW_OK := by
  induction m with
  | zero => exact Or.inl (fun i hi => absurd hi (Nat.not_lt_zero _))
  | succ m ih =>
    rcases ih with h | ⟨j, hj, h1, h2⟩
    · by_cases hm : ds m = GST_FLOW_OK
      · left
        intro i hi
        rcases Nat.lt_succ_iff_lt_or_eq.mp hi with h3 | h3
        · exact h i h3
        · rw [h3]
          exact hm
      · exact Or.inr ⟨m, Nat.lt_succ_self _, h, hm⟩
    · exact Or.inr ⟨j, Nat.lt_succ_of_lt hj, h1, h2⟩

theorem wait_not_mem_finish (tc : Option TextureCache) (l : List GstVideoCodecFrame) :
    DecoderCall.VTDecompressionSessionWaitForAsynchronousFrames ∉
      l.map (fun f => DecoderCall.gst_video_decoder_finish_frame (handed_frame tc f)) := by
  intro h
  rcases List.mem_map.mp h with ⟨f, _, hf⟩
  cases hf

theorem drop_not_mem_finish (tc : Option TextureCache) (l : List GstVideoCodecFrame)
    (g : GstVideoCodecFrame) :
    DecoderCall.gst_video_decoder_drop_frame g ∉
      l.map (fun f => DecoderCall.gst_video_decoder_finish_frame (handed_frame tc f)) := by
  intro h
  rcases List.mem_map.mp h with ⟨f, _, hf⟩
  cases hf

/-- C17: finishing (`gst_vtdec_finish`) calls
`VTDecompressionSessionWaitForAsynchronousFrames` exactly once, as its first
call and so before any frame is popped; when every delivery returns
`GST_FLOW_OK` it hands every queued frame, in pop order, to
`gst_video_decoder_finish_frame`, drops none, and leaves the queue empty. -/
theorem C17_finish_drains_then_delivers (vtdec : GstVtdec) (downstream : Nat → GstFlowReturn) :
    (∃ rest,
        (gst_vtdec_finish vtdec downstream).calls =
          DecoderCall.VTDecompressionSessionWaitForAsynchronousFrames :: rest ∧
        DecoderCall.VTDecompressionSessionWaitForAsynchronousFrames ∉ rest ∧
        rest =
          (gst_vtdec_finish vtdec downstream).popped.map
            (fun f =>
              DecoderCall.gst_video_decoder_finish_frame
                (handed_frame vtdec.texture_cache f))) ∧
      ((∀ i, downstream i = GST_FLOW_OK) →
        (gst_vtdec_finish vtdec downstream).ret = GST_FLOW_OK ∧
          (gst_vtdec_finish vtdec downstream).popped = vtdec.reorder_queue.reverse ∧
          (gst_vtdec_finish vtdec downstream).vtdec.reorder_queue = [] ∧
          (∀ f, DecoderCall.gst_video_decoder_drop_frame f ∉
            (gst_vtdec_finish vtdec downstream).calls)) := by
  unfold gst_vtdec_finish
  constructor
  · rcases all_ok_or_first_failure downstream
        (emit_count vtdec.reorder_queue_length true vtdec.reorder_queue.length) with h | ⟨j, hj, h1, h2⟩
    · rw [push_all_ok vtdec true downstream h]
      exact ⟨_, rfl, wait_not_mem_finish _ _, rfl⟩
    · rw [push_first_failure vtdec true downstream j hj h1 h2]
      exact ⟨_, rfl, wait_not_mem_finish _ _, rfl⟩
  · intro hok
    rw [push_all_ok vtdec true downstream (fun i _ => hok i)]
    dsimp only
    rw [emit_count_drain]
    refine ⟨rfl, by simp, by simp, ?_⟩
    intro f hmem
    rw [if_pos rfl] at hmem
    rcases List.mem_append.mp hmem with h | h
    · rw [List.mem_singleton] at h
      cases h
    · exact drop_not_mem_finish _ _ _ h

/-- C18: when delivery number `j + 1` of an emission call (steady state or
finish) is the first to return a value other than `GST_FLOW_OK`,
`gst_vtdec_push_frames_if_needed` returns that value, has popped and
delivered exactly `j + 1` frames, and leaves the other frames in the queue in
their order. -/
theorem C18_delivery_failure_stops (vtdec : GstVtdec) (drain : Bool)
    (downstream : Nat → GstFlowReturn) (j : Nat)
    (hj : j < emit_count vtdec.reorder_queue_length drain vtdec.reorder_queue.length)
    (hok : ∀ i, i < j → downstream i = GST_FLOW_OK) (hfail : downstream j ≠ GST_FLOW_OK) :
    (gst_vtdec_push_frames_if_needed vtdec drain false downstream).ret = downstream j ∧
      (gst_vtdec_push_frames_if_needed vtdec drain false downstream).popped =
        vtdec.reorder_queue.reverse.take (j + 1) ∧
      (gst_vtdec_push_frames_if_needed vtdec drain false downstream).popped.length = j + 1 ∧
      (gst_vtdec_push_frames_if_needed vtdec drain false downstream).calls =
        (if drain then [DecoderCall.VTDecompressionSessionWaitForAsynchronousFrames] else []) ++
          (gst_vtdec_push_frames_if_needed vtdec drain false downstream).popped.map
            (fun f =>
              DecoderCall.gst_video_decoder_finish_frame
                (handed_frame vtdec.texture_cache f)) ∧
      (gst_vtdec_push_frames_if_needed vtdec drain false downstream).vtdec.reorder_queue =
        vtdec.reorder_queue.take (vtdec.reorder_queue.length - (j + 1)) ∧
      (gst_vtdec_push_frames_if_needed vtdec drain false downstream).vtdec.reorder_queue ++
          (gst_vtdec_push_frames_if_needed vtdec drain false downstream).popped.reverse =
        vtdec.reorder_queue := by
  rw [push_first_failure vtdec drain downstream j hj hok hfail]
  dsimp only
  have hle := emit_count_le vtdec.reorder_queue_length drain vtdec.reorder_queue.length
  exact ⟨rfl, rfl, length_reverse_take _ _ (by omega), rfl, rfl, take_append_popped _ _⟩

theorem C18_delivery_failure_stops_witness :
    (gst_vtdec_push_frames_if_needed
          (vtdec_holding 1 [frame_at 2 120, frame_at 1 80, frame_at 0 40]) false false
          (fun i => if i = 1 then -5 else GST_FLOW_OK)).ret = -5 ∧
      (gst_vtdec_push_frames_if_needed
          (vtdec_holding 1 [frame_at 2 120, frame_at 1 80, frame_at 0 40]) false false
          (fun i => if i = 1 then -5 else GST_FLOW_OK)).vtdec.reorder_queue =
        [frame_at 2 120] :=
  ⟨(C18_delivery_failure_stops (vtdec_holding 1 [frame_at 2 120, frame_at 1 80, frame_at 0 40])
      false (fun i => if i = 1 then -5 else GST_FLOW_OK) 1 (by decide) (by decide)
      (by decide)).1,
    (C18_delivery_failure_stops (vtdec_holding 1 [frame_at 2 120, frame_at 1 80, frame_at 0 40])
      false (fun i => if i = 1 then -5 else GST_FLOW_OK) 1 (by decide) (by decide)
      (by decide)).2.2.2.2.1⟩

/-! ## Completion callback and frame submission -/

/-- C19: the completion callback gives the frame exactly one of three
outcomes. With a failure status or a null image it calls
`gst_video_decoder_drop_frame` and leaves the queue alone, whatever the info
flags; with success, an image and no output state it calls
`gst_video_decoder_release_frame` and leaves the queue alone; with success,
an image and an output state it makes no call and inserts the frame, its
output buffer carrying the time stamp and duration of the callback arguments,
into the reorder queue with `sort_frames_by_pts`. -/
theorem C19_callback_outcomes (vtdec : GstVtdec) (frame : GstVideoCodecFrame) (status : Int)
    (info_flags : Nat) (image_buffer : Option Nat) (pts duration : CMTime) :
    (status ≠ noErr ∨ image_buffer = none →
        (gst_vtdec_session_output_callback vtdec frame status info_flags image_buffer pts
            duration).calls = [DecoderCall.gst_video_decoder_drop_frame frame] ∧
          (gst_vtdec_session_output_callback vtdec frame status info_flags image_buffer pts
            duration).vtdec.reorder_queue = vtdec.reorder_queue) ∧
      (status = noErr → image_buffer ≠ none → vtdec.output_state = none →
        (gst_vtdec_session_output_callback vtdec frame status info_flags image_buffer pts
            duration).calls = [DecoderCall.gst_video_decoder_release_frame frame] ∧
          (gst_vtdec_session_output_callback vtdec frame status info_flags image_buffer pts
            duration).vtdec.reorder_queue = vtdec.reorder_queue) ∧
      (∀ image, status = noErr → image_buffer = some image → vtdec.output_state ≠ none →
        (gst_vtdec_session_output_callback vtdec frame status info_flags image_buffer pts
            duration).calls = [] ∧
          (gst_vtdec_session_output_callback vtdec frame status info_flags image_buffer pts
            duration).vtdec.reorder_queue =
            g_async_queue_push_sorted vtdec.reorder_queue
              { frame with
                output_buffer :=
                  some
                    { pts := to_guint64 pts.value
                      duration := to_guint64 duration.value
                      image_buffer := image } }
              sort_frames_by_pts) := by
  refine ⟨?_, ?_, ?_⟩
  · intro h
    unfold gst_vtdec_session_output_callback
    by_cases hs : status = noErr
    · rcases h with h | h
      · exact absurd hs h
      · rw [if_neg (by simpa using hs), h]
        exact ⟨rfl, rfl⟩
    · rw [if_pos (by simpa using hs)]
      exact ⟨rfl, rfl⟩
  · intro hs hi ho
    unfold gst_vtdec_session_output_callback
    rw [if_neg (by simpa using hs)]
    cases image_buffer with
    | none => exact absurd rfl hi
    | some image =>
      dsimp only
      rw [ho]
      exact ⟨rfl, rfl⟩
  · intro image hs hi ho
    unfold gst_vtdec_session_output_callback
    rw [if_neg (by simpa using hs), hi]
    dsimp only
    cases hstate : vtdec.output_state with
    | none => exact absurd hstate ho
    | some st => exact ⟨rfl, rfl⟩

/-- The queue an emission call leaves is an initial part of the queue it
found. -/
theorem push_queue_take (vtdec : GstVtdec) (drain : Bool) (ds : Nat → GstFlowReturn) :
    ∃ k, (gst_vtdec_push_frames_if_needed vtdec drain false ds).vtdec.reorder_queue =
      vtdec.reorder_queue.take k := by
  rcases all_ok_or_first_failure ds
      (emit_count vtdec.reorder_queue_length drain vtdec.reorder_queue.length) with
    h | ⟨j, hj, h1, h2⟩
  · rw [push_all_ok vtdec drain ds h]
    exact ⟨_, rfl⟩
  · rw [push_first_failure vtdec drain ds j hj h1 h2]
    exact ⟨_, rfl⟩

/-- What the error path of `gst_vtdec_handle_frame` does when the backend
rejects the submission (`VTDecompressionSessionDecodeFrame` returns a status
other than `noErr`): it reports the status through `GST_VIDEO_DECODER_ERROR`
and returns the flow value that macro assigns; after the emission of ready
frames its only calls are the submission and that report, and the reorder
queue is as the emission left it, without the frame. -/
theorem handle_frame_rejected (vtdec : GstVtdec) (frame : GstVideoCodecFrame)
    (downstream : Nat → GstFlowReturn) (status : Int) (decoder_error : GstFlowReturn)
    (hfd : vtdec.format_description ≠ none)
    (hpush : (gst_vtdec_push_frames_if_needed vtdec false false downstream).ret = GST_FLOW_OK)
    (hstatus : status ≠ noErr) :
    (gst_vtdec_handle_frame vtdec frame downstream status decoder_error).ret = decoder_error ∧
      (gst_vtdec_handle_frame vtdec frame downstream status decoder_error).calls =
        (gst_vtdec_push_frames_if_needed vtdec false false downstream).calls ++
          [DecoderCall.VTDecompressionSessionDecodeFrame frame,
            DecoderCall.GST_VIDEO_DECODER_ERROR status] ∧
      (gst_vtdec_handle_frame vtdec frame downstream status decoder_error).vtdec.reorder_queue =
        (gst_vtdec_push_frames_if_needed vtdec false false downstream).vtdec.reorder_queue ∧
      (frame ∉ vtdec.reorder_queue →
        frame ∉
          (gst_vtdec_handle_frame vtdec frame downstream status
            decoder_error).vtdec.reorder_queue) := by
  have e : gst_vtdec_handle_frame vtdec frame downstream status decoder_error =
      { ret := decoder_error
        vtdec := (gst_vtdec_push_frames_if_needed vtdec false false downstream).vtdec
        calls :=
          (gst_vtdec_push_frames_if_needed vtdec false false downstream).calls ++
            [DecoderCall.VTDecompressionSessionDecodeFrame frame,
              DecoderCall.GST_VIDEO_DECODER_ERROR status] } := by
    unfold gst_vtdec_handle_frame
    cases hf : vtdec.format_description with
    | none => exact absurd hf hfd
    | some fd =>
      dsimp only
      rw [if_neg (by simpa using hpush), if_pos (by simpa using hstatus)]
  rw [e]
  refine ⟨rfl, rfl, rfl, ?_⟩
  intro hnot hmem
  obtain ⟨k, hk⟩ := push_queue_take vtdec false downstream
  dsimp only at hmem
  rw [hk] at hmem
  exact hnot (List.mem_of_mem_take hmem)

/-- C20: the code departs from the claim. When the backend rejects the
submission, `gst_vtdec_handle_frame` does report the failure (it returns the
flow value of `GST_VIDEO_DECODER_ERROR`) and does not queue the frame, but it
never gives the frame the dropped disposition: for every decoder state with a
format description, every emission that returns `GST_FLOW_OK` and every
status other than `noErr`, the calls after the emission are the submission
and the error report only, none of them `gst_video_decoder_drop_frame`. At
the failing input (empty queue, status -12909) the calls are exactly these
two, while the completion callback given the same status for the same frame
does call `gst_video_decoder_drop_frame`. -/
theorem C20_submission_rejected :
    (∀ (vtdec : GstVtdec) (frame : GstVideoCodecFrame) (downstream : Nat → GstFlowReturn)
        (status : Int) (decoder_error : GstFlowReturn),
      vtdec.format_description ≠ none →
      (gst_vtdec_push_frames_if_needed vtdec false false downstream).ret = GST_FLOW_OK →
      status ≠ noErr →
      (gst_vtdec_handle_frame vtdec frame downstream status decoder_error).ret =
          decoder_error ∧
        (gst_vtdec_handle_frame vtdec frame downstream status decoder_error).calls =
          (gst_vtdec_push_frames_if_needed vtdec false false downstream).calls ++
            [DecoderCall.VTDecompressionSessionDecodeFrame frame,
              DecoderCall.GST_VIDEO_DECODER_ERROR status] ∧
        (frame ∉ vtdec.reorder_queue →
          frame ∉
            (gst_vtdec_handle_frame vtdec frame downstream status
              decoder_error).vtdec.reorder_queue)) ∧
      (gst_vtdec_handle_frame (vtdec_holding 2 []) (frame_at 0 40) (fun _ => GST_FLOW_OK)
        (-12909) (-5)).ret = -5 ∧
      (gst_vtdec_handle_frame (vtdec_holding 2 []) (frame_at 0 40) (fun _ => GST_FLOW_OK)
        (-12909) (-5)).calls =
        [DecoderCall.VTDecompressionSessionDecodeFrame (frame_at 0 40),
          DecoderCall.GST_VIDEO_DECODER_ERROR (-12909)] ∧
      (gst_vtdec_handle_frame (vtdec_holding 2 []) (frame_at 0 40) (fun _ => GST_FLOW_OK)
        (-12909) (-5)).calls.contains
          (DecoderCall.gst_video_decoder_drop_frame (frame_at 0 40)) = false ∧
      (gst_vtdec_handle_frame (vtdec_holding 2 []) (frame_at 0 40) (fun _ => GST_FLOW_OK)
        (-12909) (-5)).vtdec.reorder_queue = [] ∧
      (gst_vtdec_session_output_callback (vtdec_holding 2 []) (frame_at 0 40) (-12909) 0 none
        { value := 40, timescale := 1 } { value := 1, timescale := 1 }).calls =
        [DecoderCall.gst_video_decoder_drop_frame (frame_at 0 40)] := by
  refine ⟨?_, by decide, by decide, by decide, by decide, by decide⟩
  intro vtdec frame downstream status decoder_error hfd hpush hstatus
  have h := handle_frame_rejected vtdec frame downstream status decoder_error hfd hpush hstatus
  exact ⟨h.1, h.2.1, h.2.2.2⟩

/-! ## Mapping a region -/

/-- A lock that fails leaves the handle as it was; it fails either on the
native call or on a write request against a read-only lock. -/
theorem lock_failure_keeps (cvret : Int) (g : GstCoreVideoPixelBuffer) (flags : Nat)
    (h : (gst_core_video_pixel_buffer_lock cvret g flags).ret = false) :
    (gst_core_video_pixel_buffer_lock cvret g flags).gpixbuf = g ∧
      (g.lock_state = GST_CORE_VIDEO_MEMORY_UNLOCKED ∧ cvret ≠ kCVReturnSuccess ∨
        g.lock_state = GST_CORE_VIDEO_MEMORY_LOCKED_READONLY ∧ wants_write flags = true) := by
  cases hs : g.lock_state with
  | GST_CORE_VIDEO_MEMORY_UNLOCKED =>
    by_cases hc : cvret = kCVReturnSuccess
    · rw [lock_unlocked_ok cvret g flags hs hc] at h
      exact absurd h (by simp)
    · rw [lock_unlocked_fail cvret g flags hs hc]
      exact ⟨rfl, Or.inl ⟨rfl, hc⟩⟩
  | GST_CORE_VIDEO_MEMORY_LOCKED_READONLY =>
    cases hw : wants_write flags with
    | true =>
      rw [lock_readonly_write cvret g flags hs hw]
      exact ⟨rfl, Or.inr ⟨rfl, rfl⟩⟩
    | false =>
      rw [lock_readonly_read cvret g flags hs hw] at h
      exact absurd h (by simp)
  | GST_CORE_VIDEO_MEMORY_LOCKED_READ_WRITE =>
    rw [lock_readwrite cvret g flags hs] at h
    exact absurd h (by simp)

/-- Mapping when the lock fails. -/
theorem map_lock_failed (cvret : Int) (base : Nat) (bop : Nat → Nat) (mem : GstCoreVideoMemory)
    (g : GstCoreVideoPixelBuffer) (flags : Nat)
    (h : (gst_core_video_pixel_buffer_lock cvret g flags).ret = false) :
    gst_core_video_mem_map cvret base bop mem g flags =
      { ret := 0
        gpixbuf := (gst_core_video_pixel_buffer_lock cvret g flags).gpixbuf
        calls := (gst_core_video_pixel_buffer_lock cvret g flags).calls } := by
  unfold gst_core_video_mem_map
  dsimp only
  rw [h]
  rfl

/-- Mapping when the lock succeeds: the address of the plane, or of the whole
buffer for the no-plane sentinel, with the handle as the lock left it. -/
theorem map_lock_ok (cvret : Int) (base : Nat) (bop : Nat → Nat) (mem : GstCoreVideoMemory)
    (g : GstCoreVideoPixelBuffer) (flags : Nat)
    (h : (gst_core_video_pixel_buffer_lock cvret g flags).ret = true) :
    gst_core_video_mem_map cvret base bop mem g flags =
      { ret := if mem.plane = GST_CORE_VIDEO_NO_PLANE then base else bop mem.plane
        gpixbuf := (gst_core_video_pixel_buffer_lock cvret g flags).gpixbuf
        calls := (gst_core_video_pixel_buffer_lock cvret g flags).calls } := by
  unfold gst_core_video_mem_map
  dsimp only
  rw [h]
  by_cases hp : mem.plane = GST_CORE_VIDEO_NO_PLANE
  · rw [if_pos hp]
    simp [hp]
  · rw [if_neg hp]
    simp [hp]

/-- C11: when `gst_core_video_mem_map` fails because the lock fails (native
lock failure, or write request on a read-only lock) the handle is as before
the call. When it fails because the native base address is null after a
successful lock, the handle keeps the lock just taken: from a fresh handle a
read map of plane 0 whose address is null returns null and leaves the handle
locked read-only with depth 1. -/
theorem C11_failed_map_state :
    (∀ (cvret : Int) (base : Nat) (bop : Nat → Nat) (mem : GstCoreVideoMemory)
        (g : GstCoreVideoPixelBuffer) (flags : Nat),
        (gst_core_video_pixel_buffer_lock cvret g flags).ret = false →
        (gst_core_video_mem_map cvret base bop mem g flags).ret = 0 ∧
          (gst_core_video_mem_map cvret base bop mem g flags).gpixbuf = g) ∧
      (∀ (cvret : Int) (base : Nat) (bop : Nat → Nat) (mem : GstCoreVideoMemory)
        (g : GstCoreVideoPixelBuffer) (flags : Nat),
        (gst_core_video_pixel_buffer_lock cvret g flags).ret = true →
        (if mem.plane = GST_CORE_VIDEO_NO_PLANE then base else bop mem.plane) = 0 →
        (gst_core_video_mem_map cvret base bop mem g flags).ret = 0 ∧
          (gst_core_video_mem_map cvret base bop mem g flags).gpixbuf =
            (gst_core_video_pixel_buffer_lock cvret g flags).gpixbuf) ∧
      gst_core_video_mem_map kCVReturnSuccess 0 (fun _ => 0)
          { flags := 0, parent := none, maxsize := 4096, align := 0, offset := 0, size := 4096,
            plane := 0 }
          (gst_core_video_pixel_buffer_create 7) GST_MAP_READ =
        { ret := 0
          gpixbuf :=
            { refcount := 1, buf := 7, lock_state := GST_CORE_VIDEO_MEMORY_LOCKED_READONLY,
              lock_count := 1 }
          calls := [CVCall.CVPixelBufferLockBaseAddress 7 kCVPixelBufferLock_ReadOnly] } := by
  refine ⟨?_, ?_, ?_⟩
  · intro cvret base bop mem g flags h
    rw [map_lock_failed cvret base bop mem g flags h]
    exact ⟨rfl, (lock_failure_keeps cvret g flags h).1⟩
  · intro cvret base bop mem g flags h h0
    rw [map_lock_ok cvret base bop mem g flags h]
    exact ⟨h0, rfl⟩
  · decide

/-! ## Reorder queue: sorted insertion -/

/-- With two valid time stamps the inverted comparison is negative exactly
when the queued frame is later than the new one. -/
theorem inverted_compare_neg (x d : GstVideoCodecFrame)
    (hx : GST_CLOCK_TIME_IS_VALID x.buffer_pts = true)
    (hd : GST_CLOCK_TIME_IS_VALID d.buffer_pts = true) :
    - sort_frames_by_pts x d < 0 ↔ d.buffer_pts < x.buffer_pts := by
  unfold sort_frames_by_pts
  simp only [hx, hd, Bool.not_true, Bool.or_self, Bool.false_eq_true, if_false]
  split_ifs <;> omega

theorem push_sorted_nil (d : GstVideoCodecFrame) :
    g_async_queue_push_sorted [] d sort_frames_by_pts = [d] := rfl

/-- Insertion walks past a queued frame that is later than the new one. -/
theorem push_sorted_cons_later (x d : GstVideoCodecFrame) (q : List GstVideoCodecFrame)
    (hx : GST_CLOCK_TIME_IS_VALID x.buffer_pts = true)
    (hd : GST_CLOCK_TIME_IS_VALID d.buffer_pts = true) (h : d.buffer_pts < x.buffer_pts) :
    g_async_queue_push_sorted (x :: q) d sort_frames_by_pts =
      x :: g_async_queue_push_sorted q d sort_frames_by_pts := by
  unfold g_async_queue_push_sorted
  rw [g_queue_insert_sorted]
  rw [if_pos ((inverted_compare_neg x d hx hd).mpr h)]

/-- Insertion stops in front of a queued frame that is not later than the new
one. -/
theorem push_sorted_cons_not_later (x d : GstVideoCodecFrame) (q : List GstVideoCodecFrame)
    (hx : GST_CLOCK_TIME_IS_VALID x.buffer_pts = true)
    (hd : GST_CLOCK_TIME_IS_VALID d.buffer_pts = true) (h : x.buffer_pts ≤ d.buffer_pts) :
    g_async_queue_push_sorted (x :: q) d sort_frames_by_pts = d :: x :: q := by
  unfold g_async_queue_push_sorted
  rw [g_queue_insert_sorted]
  rw [if_neg (fun hn => absurd ((inverted_compare_neg x d hx hd).mp hn) (by omega))]

/-- Insertion adds the new frame and keeps the others. -/
theorem push_sorted_perm (d : GstVideoCodecFrame) :
    ∀ q : List GstVideoCodecFrame,
      (g_async_queue_push_sorted q d sort_frames_by_pts).Perm (d :: q) := by
  intro q
  unfold g_async_queue_push_sorted
  induction q with
  | nil => exact List.Perm.refl _
  | cons x q ih =>
    rw [g_queue_insert_sorted]
    split
    · exact (List.Perm.cons x ih).trans (List.Perm.swap d x q)
    · exact List.Perm.refl _

theorem push_sorted_mem (d f : GstVideoCodecFrame) (q : List GstVideoCodecFrame) :
    f ∈ g_async_queue_push_sorted q d sort_frames_by_pts ↔ f = d ∨ f ∈ q := by
  rw [(push_sorted_perm d q).mem_iff, List.mem_cons]

/-- Insertion keeps a queue of valid frames in descending order from its
head. -/
theorem push_sorted_desc (d : GstVideoCodecFrame)
    (hd : GST_CLOCK_TIME_IS_VALID d.buffer_pts = true) :
    ∀ q : List GstVideoCodecFrame,
      (∀ f ∈ q, GST_CLOCK_TIME_IS_VALID f.buffer_pts = true) →
      q.Pairwise (fun a b => b.buffer_pts ≤ a.buffer_pts) →
      (g_async_queue_push_sorted q d sort_frames_by_pts).Pairwise
        (fun a b => b.buffer_pts ≤ a.buffer_pts) := by
  intro q
  induction q with
  | nil =>
    intro _ _
    rw [push_sorted_nil]
    exact List.pairwise_singleton _ _
  | cons x q ih =>
    intro hv hs
    have hx := hv x (List.mem_cons_self x q)
    have hvq : ∀ f ∈ q, GST_CLOCK_TIME_IS_VALID f.buffer_pts = true :=
      fun f hf => hv f (List.mem_cons_of_mem x hf)
    rw [List.pairwise_cons] at hs
    by_cases h : d.buffer_pts < x.buffer_pts
    · rw [push_sorted_cons_later x d q hx hd h, List.pairwise_cons]
      refine ⟨?_, ih hvq hs.2⟩
      intro f hf
      rcases (push_sorted_mem d f q).mp hf with e | e
      · rw [e]
        omega
      · exact hs.1 f e
    · rw [push_sorted_cons_not_later x d q hx hd (by omega), List.pairwise_cons]
      refine ⟨?_, List.pairwise_cons.mpr hs⟩
      intro f hf
      rcases List.mem_cons.mp hf with e | e
      · rw [e]
        omega
      · have := hs.1 f e
        omega

/-- Insertion puts the new frame in front of the queued frames with the same
time stamp, so behind them in pop order. -/
theorem push_sorted_filter (d : GstVideoCodecFrame)
    (hd : GST_CLOCK_TIME_IS_VALID d.buffer_pts = true) (p : Nat) :
    ∀ q : List GstVideoCodecFrame,
      (∀ f ∈ q, GST_CLOCK_TIME_IS_VALID f.buffer_pts = true) →
      (g_async_queue_push_sorted q d sort_frames_by_pts).filter
          (fun f => decide (f.buffer_pts = p)) =
        (d :: q).filter (fun f => decide (f.buffer_pts = p)) := by
  intro q
  induction q with
  | nil =>
    intro _
    rw [push_sorted_nil]
  | cons x q ih =>
    intro hv
    have hx := hv x (List.mem_cons_self x q)
    have hvq : ∀ f ∈ q, GST_CLOCK_TIME_IS_VALID f.buffer_pts = true :=
      fun f hf => hv f (List.mem_cons_of_mem x hf)
    by_cases h : d.buffer_pts < x.buffer_pts
    · rw [push_sorted_cons_later x d q hx hd h]
      have ihq := ih hvq
      by_cases hxp : x.buffer_pts = p
      · have hdp : d.buffer_pts ≠ p := by omega
        simp only [List.filter_cons, hxp, hdp, decide_True, decide_False, if_true,
          Bool.false_eq_true, if_false] at ihq ⊢
        rw [ihq]
      · simp only [List.filter_cons, hxp, decide_False, Bool.false_eq_true, if_false] at ihq ⊢
        exact ihq
    · rw [push_sorted_cons_not_later x d q hx hd (by omega)]

theorem successive_pops_eq_reverse {α : Type} :
    ∀ (n : Nat) (q : List α), q.length ≤ n → successive_pops n q = q.reverse := by
  intro n
  induction n with
  | zero =>
    intro q h
    have : q = [] := List.length_eq_zero.mp (Nat.le_zero.mp h)
    rw [this]
    rfl
  | succ n ih =>
    intro q h
    rcases queue_nil_or_snoc q with hq | ⟨L, x, hq⟩
    · rw [hq]
      rfl
    · rw [hq, successive_pops, try_pop_concat]
      dsimp only
      rw [ih L (by
        rw [hq, List.length_append, List.length_singleton] at h
        omega)]
      rw [List.reverse_append]
      rfl

theorem insert_frames_nil (q : List GstVideoCodecFrame) : insert_frames q [] = q := rfl

theorem insert_frames_cons (q : List GstVideoCodecFrame) (f : GstVideoCodecFrame)
    (fs : List GstVideoCodecFrame) :
    insert_frames q (f :: fs) =
      insert_frames (g_async_queue_push_sorted q f sort_frames_by_pts) fs := rfl

/-- A sequence of insertions of valid frames into a descending queue of valid
frames: the result is descending and valid, holds the old and the new frames,
and lists the frames of each time stamp with the latest inserted first. -/
theorem insert_frames_spec :
    ∀ (fs q : List GstVideoCodecFrame),
      (∀ f ∈ fs, GST_CLOCK_TIME_IS_VALID f.buffer_pts = true) →
      (∀ f ∈ q, GST_CLOCK_TIME_IS_VALID f.buffer_pts = true) →
      q.Pairwise (fun a b => b.buffer_pts ≤ a.buffer_pts) →
      (∀ f ∈ insert_frames q fs, GST_CLOCK_TIME_IS_VALID f.buffer_pts = true) ∧
        (insert_frames q fs).Pairwise (fun a b => b.buffer_pts ≤ a.buffer_pts) ∧
        (insert_frames q fs).Perm (fs.reverse ++ q) ∧
        ∀ p, (insert_frames q fs).filter (fun f => decide (f.buffer_pts = p)) =
          (fs.reverse ++ q).filter (fun f => decide (f.buffer_pts = p)) := by
  intro fs
  induction fs with
  | nil =>
    intro q _ hq hs
    rw [insert_frames_nil]
    exact ⟨hq, hs, by simp, fun p => by simp⟩
  | cons f fs ih =>
    intro q hfs hq hs
    have hf := hfs f (List.mem_cons_self f fs)
    have hrest : ∀ g ∈ fs, GST_CLOCK_TIME_IS_VALID g.buffer_pts = true :=
      fun g hg => hfs g (List.mem_cons_of_mem f hg)
    have hq1 : ∀ g ∈ g_async_queue_push_sorted q f sort_frames_by_pts,
        GST_CLOCK_TIME_IS_VALID g.buffer_pts = true := by
      intro g hg
      rcases (push_sorted_mem f g q).mp hg with e | e
      · rw [e]
        exact hf
      · exact hq g e
    obtain ⟨h1, h2, h3, h4⟩ := ih _ hrest hq1 (push_sorted_desc f hf q hq hs)
    rw [insert_frames_cons]
    refine ⟨h1, h2, ?_, ?_⟩
    · refine h3.trans ?_
      rw [List.reverse_cons, List.append_assoc]
      exact List.Perm.append_left _ (push_sorted_perm f q)
    · intro p
      rw [h4 p, List.reverse_cons, List.append_assoc, List.filter_append, List.filter_append,
        push_sorted_filter f hf p q hq]
      rfl

/-- C5: after the completion callback has inserted frames with valid time
stamps into an empty reorder queue (sorted insertion with
`sort_frames_by_pts`), successive pops return all of them, in ascending order
of time stamp, and the frames of any one time stamp in the order in which
they were inserted. -/
theorem C5_pops_ascending_and_stable (frames : List GstVideoCodecFrame)
    (hvalid : ∀ f ∈ frames, GST_CLOCK_TIME_IS_VALID f.buffer_pts = true) :
    (successive_pops (insert_frames [] frames).length (insert_frames [] frames)).Pairwise
        (fun a b => a.buffer_pts ≤ b.buffer_pts) ∧
      (successive_pops (insert_frames [] frames).length (insert_frames [] frames)).Perm frames ∧
      ∀ p,
        (successive_pops (insert_frames [] frames).length (insert_frames [] frames)).filter
            (fun f => decide (f.buffer_pts = p)) =
          frames.filter (fun f => decide (f.buffer_pts = p)) := by
  obtain ⟨_, h2, h3, h4⟩ :=
    insert_frames_spec frames [] hvalid (fun f hf => absurd hf (List.not_mem_nil f))
      List.Pairwise.nil
  rw [successive_pops_eq_reverse _ _ (Nat.le_refl _)]
  refine ⟨List.pairwise_reverse.mpr h2, ?_, ?_⟩
  · refine (List.reverse_perm _).trans (h3.trans ?_)
    rw [List.append_nil]
    exact List.reverse_perm _
  · intro p
    rw [List.filter_reverse, h4 p, List.append_nil, List.filter_reverse, List.reverse_reverse]

theorem C5_pops_ascending_and_stable_witness :
    successive_pops 4
        (insert_frames [] [frame_at 0 80, frame_at 1 40, frame_at 2 80, frame_at 3 40]) =
      [frame_at 1 40, frame_at 3 40, frame_at 0 80, frame_at 2 80] ∧
    (successive_pops
        (insert_frames [] [frame_at 0 80, frame_at 1 40, frame_at 2 80, frame_at 3 40]).length
        (insert_frames [] [frame_at 0 80, frame_at 1 40, frame_at 2 80, frame_at 3 40])).Pairwise
      (fun a b => a.buffer_pts ≤ b.buffer_pts) :=
  ⟨by decide,
    (C5_pops_ascending_and_stable [frame_at 0 80, frame_at 1 40, frame_at 2 80, frame_at 3 40]
      (by decide)).1⟩

/-! ## Emission order over interleavings -/

/-- C27: for every codec tag other than `kCMVideoCodecType_H264` (MPEG-2
video, JPEG, or the tag 0 of an unrecognised caps name) and every
configuration blob, `gst_vtdec_compute_reorder_queue_length` returns `TRUE`
with reorder depth 0; the blob is not looked at. -/
theorem C27_other_codecs_depth_zero (video_info : GstVideoInfo) (cm_format : Nat)
    (codec_data : List guint8) (hcodec : cm_format ≠ kCMVideoCodecType_H264) :
    gst_vtdec_compute_reorder_queue_length video_info cm_format codec_data =
        some { ret := true, length := 0 } ∧
      kCMVideoCodecType_MPEG2Video ≠ kCMVideoCodecType_H264 ∧
      kCMVideoCodecType_JPEG ≠ kCMVideoCodecType_H264 ∧
      (0 : Nat) ≠ kCMVideoCodecType_H264 := by
  refine ⟨?_, by decide, by decide, by decide⟩
  unfold gst_vtdec_compute_reorder_queue_length
  rw [if_neg hcodec]

theorem C27_other_codecs_depth_zero_witness :
    gst_vtdec_compute_reorder_queue_length { width := 0, height := 0, fps_n := 0, fps_d := 1 }
        kCMVideoCodecType_JPEG [9, 9] =
        some { ret := true, length := 0 } ∧
      kCMVideoCodecType_MPEG2Video ≠ kCMVideoCodecType_H264 ∧
      kCMVideoCodecType_JPEG ≠ kCMVideoCodecType_H264 ∧
      (0 : Nat) ≠ kCMVideoCodecType_H264 :=
  C27_other_codecs_depth_zero { width := 0, height := 0, fps_n := 0, fps_d := 1 }
    kCMVideoCodecType_JPEG [9, 9] (by decide)

/-- C29: on a handle whose `lock_state` is Unlocked,
`gst_core_video_pixel_buffer_unlock` returns `FALSE`, makes no native call and
leaves the handle, its `lock_state` and `lock_count` included, as it was; on
every handle reached from creation the depth is then 0 before and after. -/
theorem C29_unmatched_unlock (cvret : Int) (gpixbuf : GstCoreVideoPixelBuffer)
    (hs : gpixbuf.lock_state = GST_CORE_VIDEO_MEMORY_UNLOCKED) :
    gst_core_video_pixel_buffer_unlock cvret gpixbuf =
        { ret := false, gpixbuf := gpixbuf, calls := [] } ∧
      ∀ (pixbuf : Nat) (ops : List LockOp),
        gpixbuf = ((Traced.fresh pixbuf).run ops).gpixbuf →
        (gst_core_video_pixel_buffer_unlock cvret gpixbuf).gpixbuf.lock_count = 0 := by
  refine ⟨unlock_unlocked cvret gpixbuf hs, ?_⟩
  intro pixbuf ops hg
  rw [unlock_unlocked cvret gpixbuf hs]
  dsimp only
  rw [hg] at hs ⊢
  exact (reachable_unlocked_zero pixbuf ops).2 hs

theorem C29_unmatched_unlock_witness :
    gst_core_video_pixel_buffer_unlock 0 (gst_core_video_pixel_buffer_create 7) =
      { ret := false, gpixbuf := gst_core_video_pixel_buffer_create 7, calls := [] } :=
  (C29_unmatched_unlock 0 (gst_core_video_pixel_buffer_create 7) rfl).1

/-- C28: `gst_core_video_mem_is_span` returns `FALSE` for every pair of
regions and does not write the offset. -/
theorem C28_is_span_false (mem1 mem2 : GstCoreVideoMemory) (offset : Nat) :
    (gst_core_video_mem_is_span mem1 mem2 offset).1 = false ∧
      (gst_core_video_mem_is_span mem1 mem2 offset).2 = offset :=
  ⟨rfl, rfl⟩

/-- C26: when the lock on the handle succeeds, `gst_core_video_mem_map`
returns what `CVPixelBufferGetBaseAddressOfPlane` gives for the region's plane
when the region has a plane, and what `CVPixelBufferGetBaseAddress` gives when
the plane is `GST_CORE_VIDEO_NO_PLANE`; when that address is null the result
is null. -/
theorem C26_map_address (cvret : Int) (base_address : Nat) (base_address_of_plane : Nat → Nat)
    (mem : GstCoreVideoMemory) (gpixbuf : GstCoreVideoPixelBuffer) (flags : Nat)
    (hlock : (gst_core_video_pixel_buffer_lock cvret gpixbuf flags).ret = true) :
    (mem.plane ≠ GST_CORE_VIDEO_NO_PLANE →
        (gst_core_video_mem_map cvret base_address base_address_of_plane mem gpixbuf flags).ret =
          base_address_of_plane mem.plane) ∧
      (mem.plane = GST_CORE_VIDEO_NO_PLANE →
        (gst_core_video_mem_map cvret base_address base_address_of_plane mem gpixbuf flags).ret =
          base_address) ∧
      ((if mem.plane = GST_CORE_VIDEO_NO_PLANE then base_address
          else base_address_of_plane mem.plane) = 0 →
        (gst_core_video_mem_map cvret base_address base_address_of_plane mem gpixbuf flags).ret =
          0) := by
  rw [map_lock_ok cvret base_address base_address_of_plane mem gpixbuf flags hlock]
  dsimp only
  refine ⟨fun h => by rw [if_neg h], fun h => by rw [if_pos h], fun h => h⟩

theorem C26_map_address_witness :
    (gst_core_video_mem_map 0 4096 (fun plane => 8192 + 1024 * plane)
        { flags := 1, parent := none, maxsize := 1024, align := 0, offset := 0, size := 1024,
          plane := 1 }
        (gst_core_video_pixel_buffer_create 7) GST_MAP_READ).ret = 9216 :=
  (C26_map_address 0 4096 (fun plane => 8192 + 1024 * plane)
    { flags := 1, parent := none, maxsize := 1024, align := 0, offset := 0, size := 1024,
      plane := 1 }
    (gst_core_video_pixel_buffer_create 7) GST_MAP_READ (by decide)).1 (by decide)

/-! ## Safety of the depth division -/

/-- For positive `int` dimensions whose macroblock count fits an `int`, the
divisor of the depth computation is not zero and the truncating quotient is
the floor of the exact one. -/
theorem mb_count_nonzero (w h M : Int) (hM0 : 0 < M) (hM1 : M ≤ 184320)
    (hw : 0 < w) (hw2 : w < 2147483648) (hh : 0 < h) (hh2 : h < 2147483648)
    (hmb : ((w + 15) / 16) * ((h + 15) / 16) < 2147483648) :
    wrap_int ((GST_ROUND_UP_16 w).tdiv 16 * (GST_ROUND_UP_16 h).tdiv 16) ≠ 0 ∧
      M.tdiv (wrap_int ((GST_ROUND_UP_16 w).tdiv 16 * (GST_ROUND_UP_16 h).tdiv 16)) =
        M / (((w + 15) / 16) * ((h + 15) / 16)) := by
  have hW : 1 ≤ (w + 15) / 16 := by omega
  have hH : 1 ≤ (h + 15) / 16 := by omega
  by_cases h1 : w + 15 < 2147483648
  · by_cases h2 : h + 15 < 2147483648
    · rw [round_up_mb _ hw h1, round_up_mb _ hh h2]
      exact depth_in_range _ _ _ (le_of_lt hM0) hW hH hmb
    · obtain ⟨e1, e2⟩ := round_up_mb_top _ (by omega) hh2
      rw [round_up_mb _ hw h1, e1, e2, mul_comm]
      rw [e2] at hmb
      rw [mul_comm _ (134217728 : Int)]
      exact depth_wrapped _ _ (le_of_lt hM0) (by omega) hW (by omega)
  · by_cases h2 : h + 15 < 2147483648
    · obtain ⟨e1, e2⟩ := round_up_mb_top _ (by omega) hw2
      rw [round_up_mb _ hh h2, e1, e2]
      rw [e2] at hmb
      exact depth_wrapped _ _ (le_of_lt hM0) (by omega) hH (by omega)
    · obtain ⟨_, e1⟩ := round_up_mb_top _ (by omega) hw2
      obtain ⟨_, e2⟩ := round_up_mb_top _ (by omega) hh2
      rw [e1, e2] at hmb
      exact absurd hmb (by decide)

/-- The depth computation with a zero dimension: `FALSE`, depth 0, the
division not reached. -/
theorem compute_zero_dimension (video_info : GstVideoInfo) (codec_data : List guint8)
    (hz : video_info.width = 0 ∨ video_info.height = 0) :
    compute_h264_decode_picture_buffer_length video_info codec_data =
      some { ret := false, length := 0 } := by
  cases hp : parse_h264_profile_and_level_from_codec_data codec_data with
  | none => exact compute_parse_failure video_info codec_data hp
  | some pl =>
    unfold compute_h264_decode_picture_buffer_length
    dsimp only
    rw [hp]
    dsimp only
    rw [if_pos (by simpa using hz)]

/-- C30: for an H.264 configuration with a valid blob and `int` width and
height of at least 1 whose macroblock count `ceil(width/16) * ceil(height/16)`
is below 2^31, `compute_h264_decode_picture_buffer_length` returns without
dividing by zero (the divisor `mb_count` is not 0), and when it returns `TRUE`
the depth is between 0 and 16; with a width or height of 0 it returns `FALSE`
before the division by `mb_count`. -/
theorem C30_depth_division_safe (video_info : GstVideoInfo) (codec_data : List guint8)
    (hlen : 7 ≤ codec_data.length) (hver : (codec_data.getD 0 0).val = 1)
    (hw : 1 ≤ video_info.width) (hw2 : video_info.width < 2147483648)
    (hh : 1 ≤ video_info.height) (hh2 : video_info.height < 2147483648)
    (hmb : ((video_info.width + 15) / 16) * ((video_info.height + 15) / 16) < 2147483648) :
    wrap_int ((GST_ROUND_UP_16 video_info.width).tdiv 16 *
        (GST_ROUND_UP_16 video_info.height).tdiv 16) ≠ 0 ∧
      (∃ r : DpbLength,
        compute_h264_decode_picture_buffer_length video_info codec_data = some r ∧
          (r.ret = true → 0 ≤ r.length ∧ r.length ≤ 16)) ∧
      (∀ (zero_info : GstVideoInfo) (blob : List guint8),
        zero_info.width = 0 ∨ zero_info.height = 0 →
        compute_h264_decode_picture_buffer_length zero_info blob =
          some { ret := false, length := 0 }) := by
  have hnz := (mb_count_nonzero video_info.width video_info.height 396 (by decide) (by decide)
    (by omega) hw2 (by omega) hh2 hmb).1
  refine ⟨hnz, ?_, compute_zero_dimension⟩
  cases hp : parse_h264_profile_and_level_from_codec_data codec_data with
  | none =>
    refine ⟨_, compute_parse_failure video_info codec_data hp, ?_⟩
    intro h
    exact absurd h (by simp)
  | some pl =>
    obtain ⟨profile, level⟩ := pl
    unfold compute_h264_decode_picture_buffer_length
    dsimp only
    rw [hp]
    dsimp only
    rw [if_neg (by
      simp only [Bool.or_eq_true, decide_eq_true_eq, not_or]
      exact ⟨by omega, by omega⟩)]
    by_cases hprof : profile = 66
    · rw [if_pos hprof]
      exact ⟨_, rfl, fun _ => ⟨le_refl _, by decide⟩⟩
    · rw [if_neg hprof]
      by_cases hlevel : get_dpb_max_mb_s_from_level level = -1
      · rw [if_pos hlevel]
        refine ⟨_, rfl, ?_⟩
        intro h
        exact absurd h (by simp)
      · rw [if_neg hlevel, if_neg hnz]
        refine ⟨_, rfl, ?_⟩
        intro _
        dsimp only
        obtain ⟨hM0, hM1⟩ := dpb_level_bounds level hlevel
        have key := (mb_count_nonzero video_info.width video_info.height
          (get_dpb_max_mb_s_from_level level) hM0 hM1 (by omega) hw2 (by omega) hh2 hmb).2
        rw [key]
        have hpos : 0 < ((video_info.width + 15) / 16) * ((video_info.height + 15) / 16) := by
          have hW : 1 ≤ (video_info.width + 15) / 16 := by omega
          have hH : 1 ≤ (video_info.height + 15) / 16 := by omega
          nlinarith
        have hq : 0 ≤ get_dpb_max_mb_s_from_level level /
            (((video_info.width + 15) / 16) * ((video_info.height + 15) / 16)) :=
          Int.ediv_nonneg (le_of_lt hM0) (le_of_lt hpos)
        exact ⟨le_min hq (by decide), min_le_right _ _⟩

theorem C30_depth_division_safe_witness :
    ∃ r : DpbLength,
      compute_h264_decode_picture_buffer_length
          { width := 176, height := 144, fps_n := 15, fps_d := 1 }
          [1, 77, 0, 52, 255, 225, 0] = some r ∧
        (r.ret = true → 0 ≤ r.length ∧ r.length ≤ 16) :=
  (C30_depth_division_safe { width := 176, height := 144, fps_n := 15, fps_d := 1 }
    [1, 77, 0, 52, 255, 225, 0] (by decide) (by decide) (by decide) (by decide) (by decide)
    (by decide) (by decide)).2.1

/-! ## Sessions across configuration and stop -/

/-- Closing the session when there is one is what
`gst_vtdec_invalidate_session` does in every case. -/
theorem closed_eq_invalidate (vtdec : GstVtdec) :
    (if vtdec.session.isSome then gst_vtdec_invalidate_session vtdec else (vtdec, [])) =
      gst_vtdec_invalidate_session vtdec := by
  unfold gst_vtdec_invalidate_session
  cases h : vtdec.session with
  | none => rfl
  | some s => rfl

theorem invalidate_session_none (vtdec : GstVtdec) :
    (gst_vtdec_invalidate_session vtdec).1.session = none := by
  rw [← closed_eq_invalidate]
  exact closed_session vtdec

theorem invalidate_calls (vtdec : GstVtdec) :
    (gst_vtdec_invalidate_session vtdec).2 =
      match vtdec.session with
      | some s => [SessionCall.VTDecompressionSessionInvalidate s]
      | none => [] := by
  unfold gst_vtdec_invalidate_session
  cases h : vtdec.session with
  | none => rfl
  | some s => rfl

/-- The ways `gst_vtdec_set_format` can return: at once without touching the
session; with `FALSE` after closing the session; with `FALSE` after closing it
and failing to open a new one; with `TRUE` after closing it and opening a new
one. -/
theorem set_format_cases (vtdec : GstVtdec) (state : GstVideoCodecState) (backend : VtBackend)
    (out : SessionOutcome) (h : gst_vtdec_set_format vtdec state backend = some out) :
    (out.vtdec.session = vtdec.session ∧ out.calls = []) ∨
      (out.vtdec.session = none ∧ out.calls = (gst_vtdec_invalidate_session vtdec).2) ∨
      ((backend.session_status != noErr) = true ∧ out.vtdec.session = none ∧
        out.calls = (gst_vtdec_invalidate_session vtdec).2 ++
          [SessionCall.VTDecompressionSessionCreate backend.format_description]) ∨
      ((backend.session_status != noErr) = false ∧
        out.vtdec.session = some backend.session ∧
        out.calls = (gst_vtdec_invalidate_session vtdec).2 ++
          [SessionCall.VTDecompressionSessionCreate backend.format_description]) := by
  unfold gst_vtdec_set_format at h
  dsimp only at h
  rw [closed_eq_invalidate] at h
  split at h
  · simp only [Option.some.injEq] at h
    rw [← h]
    exact Or.inl ⟨rfl, rfl⟩
  · split at h
    · exact absurd h (by simp)
    · rename_i depth hdepth
      split at h
      · simp only [Option.some.injEq] at h
        rw [← h]
        exact Or.inr (Or.inl ⟨invalidate_session_none vtdec, rfl⟩)
      · unfold gst_vtdec_create_session at h
        by_cases hs : (backend.session_status != noErr) = true
        · rw [if_pos hs] at h
          simp only [Bool.not_false, if_true, Option.some.injEq] at h
          rw [← h]
          exact Or.inr (Or.inr (Or.inl ⟨hs, invalidate_session_none vtdec, rfl⟩))
        · rw [if_neg hs] at h
          simp only [Bool.not_true, Bool.false_eq_true, if_false, Option.some.injEq] at h
          rw [← h]
          exact Or.inr (Or.inr (Or.inr ⟨by simpa using hs, rfl, rfl⟩))

/-- The ledger after the calls of an invalidation, when the backend holds open
exactly the session of the decoder: no session is open. -/
theorem replay_invalidate (created : Option Nat) (vtdec : GstVtdec) (peak : Nat) :
    (gst_vtdec_invalidate_session vtdec).2.foldl (replay_session_call created)
        (vtdec.session.toList, peak) = ([], peak) := by
  rw [invalidate_calls]
  cases h : vtdec.session with
  | none => rfl
  | some s =>
    simp only [Option.toList, List.foldl_cons, List.foldl_nil, replay_session_call,
      List.erase_cons_head]

/-- One call keeps the ledger in step with the decoder: the backend holds
open exactly the session the decoder holds, and never held two at once. -/
theorem config_step_keeps (r r1 : ConfigRun) (op : ConfigOp)
    (hopen : r.open_sessions = r.vtdec.session.toList) (hpeak : r.peak ≤ 1)
    (hstep : r.step op = some r1) :
    r1.open_sessions = r1.vtdec.session.toList ∧ r1.peak ≤ 1 := by
  cases op with
  | set_format state backend =>
    unfold ConfigRun.step at hstep
    dsimp only at hstep
    cases hset : gst_vtdec_set_format r.vtdec state backend with
    | none =>
      rw [hset] at hstep
      exact absurd hstep (by simp)
    | some out =>
      rw [hset] at hstep
      simp only [Option.some.injEq] at hstep
      rw [← hstep]
      dsimp only
      rw [hopen]
      rcases set_format_cases r.vtdec state backend out hset with
        ⟨h1, h2⟩ | ⟨h1, h2⟩ | ⟨hs, h1, h2⟩ | ⟨hs, h1, h2⟩
      · rw [h2, h1]
        exact ⟨rfl, hpeak⟩
      · rw [h2, h1, replay_invalidate]
        exact ⟨rfl, hpeak⟩
      · rw [h2, h1, List.foldl_append, replay_invalidate, hs]
        exact ⟨rfl, hpeak⟩
      · rw [h2, h1, List.foldl_append, replay_invalidate, hs]
        refine ⟨rfl, ?_⟩
        simp only [Bool.false_eq_true, if_false, List.foldl_cons, List.foldl_nil,
          replay_session_call, List.length_nil]
        omega
  | stop =>
    unfold ConfigRun.step at hstep
    dsimp only at hstep
    simp only [Option.some.injEq] at hstep
    rw [← hstep]
    dsimp only
    unfold gst_vtdec_stop
    dsimp only
    rw [closed_eq_invalidate, hopen, replay_invalidate, invalidate_session_none]
    exact ⟨rfl, hpeak⟩

theorem config_run_keeps :
    ∀ (ops : List ConfigOp) (r final : ConfigRun),
      r.open_sessions = r.vtdec.session.toList → r.peak ≤ 1 → r.run ops = some final →
      final.open_sessions = final.vtdec.session.toList ∧ final.peak ≤ 1 := by
  intro ops
  induction ops with
  | nil =>
    intro r final h1 h2 hrun
    unfold ConfigRun.run at hrun
    simp only [Option.some.injEq] at hrun
    rw [← hrun]
    exact ⟨h1, h2⟩
  | cons op ops ih =>
    intro r final h1 h2 hrun
    unfold ConfigRun.run at hrun
    cases hstep : r.step op with
    | none =>
      rw [hstep] at hrun
      exact absurd hrun (by simp)
    | some r1 =>
      rw [hstep] at hrun
      obtain ⟨k1, k2⟩ := config_step_keeps r r1 op h1 h2 hstep
      exact ih r1 final k1 k2 hrun

/-- C21: over every sequence of `gst_vtdec_set_format` and `gst_vtdec_stop`
calls the backend holds open exactly the session the decoder holds, so never
two at once. A `VTDecompressionSessionCreate` call of a configuration comes
right after the invalidation of the session held before, if there was one,
and is made on a decoder whose session handle is cleared; after
`gst_vtdec_stop` no session is held. -/
theorem C21_one_session_at_a_time (vtdec : GstVtdec) (ops : List ConfigOp) (final : ConfigRun)
    (hrun : (ConfigRun.start vtdec).run ops = some final) :
    final.open_sessions = final.vtdec.session.toList ∧ final.peak ≤ 1 ∧
      (∀ (v : GstVtdec) (state : GstVideoCodecState) (backend : VtBackend)
          (out : SessionOutcome) (fd : Option Nat),
        gst_vtdec_set_format v state backend = some out →
        SessionCall.VTDecompressionSessionCreate fd ∈ out.calls →
        (gst_vtdec_invalidate_session v).1.session = none ∧
          out.calls =
            (match v.session with
              | some s => [SessionCall.VTDecompressionSessionInvalidate s]
              | none => []) ++
              [SessionCall.VTDecompressionSessionCreate fd]) ∧
      (∀ v : GstVtdec,
        (gst_vtdec_stop v).vtdec.session = none ∧
          (gst_vtdec_stop v).calls =
            match v.session with
            | some s => [SessionCall.VTDecompressionSessionInvalidate s]
            | none => []) := by
  have hstart : (ConfigRun.start vtdec).peak ≤ 1 := by
    unfold ConfigRun.start
    dsimp only
    cases vtdec.session <;> simp
  obtain ⟨h1, h2⟩ := config_run_keeps ops (ConfigRun.start vtdec) final rfl hstart hrun
  refine ⟨h1, h2, ?_, ?_⟩
  · intro v state backend out fd hset hmem
    refine ⟨invalidate_session_none v, ?_⟩
    have hno : ∀ w : GstVtdec,
        SessionCall.VTDecompressionSessionCreate fd ∉ (gst_vtdec_invalidate_session w).2 := by
      intro w hw
      rw [invalidate_calls] at hw
      cases hsess : w.session with
      | none =>
        rw [hsess] at hw
        exact absurd hw (by simp)
      | some s =>
        rw [hsess] at hw
        exact absurd hw (by simp)
    rcases set_format_cases v state backend out hset with
      ⟨_, h4⟩ | ⟨_, h4⟩ | ⟨_, _, h4⟩ | ⟨_, _, h4⟩
    · rw [h4] at hmem
      exact absurd hmem (by simp)
    · rw [h4] at hmem
      exact absurd hmem (hno v)
    · rw [h4] at hmem ⊢
      rcases List.mem_append.mp hmem with h5 | h5
      · exact absurd h5 (hno v)
      · rw [List.mem_singleton] at h5
        rw [← h5, invalidate_calls]
    · rw [h4] at hmem ⊢
      rcases List.mem_append.mp hmem with h5 | h5
      · exact absurd h5 (hno v)
      · rw [List.mem_singleton] at h5
        rw [← h5, invalidate_calls]
  · intro v
    unfold gst_vtdec_stop
    dsimp only
    rw [closed_eq_invalidate]
    exact ⟨invalidate_session_none v, invalidate_calls v⟩

theorem C21_one_session_at_a_time_witness :
    ∃ final : ConfigRun,
      (ConfigRun.start (GstVtdec.idle 0 none)).run sample_reconfiguration = some final ∧
        final.open_sessions = final.vtdec.session.toList ∧ final.peak ≤ 1 ∧
        final.vtdec.session = some 10 ∧
        final.calls =
          [SessionCall.VTDecompressionSessionInvalidate 1,
            SessionCall.VTDecompressionSessionCreate (some 7),
            SessionCall.VTDecompressionSessionInvalidate 9,
            SessionCall.VTDecompressionSessionCreate (some 8)] := by
  refine ⟨_, rfl, ?_, ?_, rfl, rfl⟩
  · exact (C21_one_session_at_a_time (GstVtdec.idle 0 none) sample_reconfiguration _ rfl).1
  · exact (C21_one_session_at_a_time (GstVtdec.idle 0 none) sample_reconfiguration _ rfl).2.1

/-! ## Shared regions -/

theorem share_parent (flags_at : Nat → Nat) (addr : Nat) (gmem : GstCoreVideoMemory)
    (g : GstCoreVideoPixelBuffer) (offset size : Int) :
    (gst_core_video_mem_share flags_at addr gmem g offset size).mem.parent =
      some (match gmem.parent with
        | some p => p
        | none => addr) := rfl

theorem share_handle (flags_at : Nat → Nat) (addr : Nat) (gmem : GstCoreVideoMemory)
    (g : GstCoreVideoPixelBuffer) (offset size : Int) :
    (gst_core_video_mem_share flags_at addr gmem g offset size).gpixbuf =
      gst_core_video_pixel_buffer_ref g := rfl

/-- The read-only bit survives the flags `gst_core_video_memory_new` stores. -/
theorem readonly_bit_set (x : Nat) :
    ((x ||| GST_MINI_OBJECT_FLAG_LOCK_READONLY) ||| GST_MINI_OBJECT_FLAG_LOCKABLE) &&&
        GST_MINI_OBJECT_FLAG_LOCK_READONLY ≠ 0 := by
  intro h
  have hb : (((x ||| GST_MINI_OBJECT_FLAG_LOCK_READONLY) ||| GST_MINI_OBJECT_FLAG_LOCKABLE) &&&
      GST_MINI_OBJECT_FLAG_LOCK_READONLY).testBit 1 = true := by
    rw [Nat.testBit_and, Nat.testBit_or, Nat.testBit_or]
    have h2 : GST_MINI_OBJECT_FLAG_LOCK_READONLY.testBit 1 = true := by decide
    rw [h2]
    simp
  rw [h] at hb
  simp at hb

theorem share_flags_readonly (flags_at : Nat → Nat) (addr : Nat) (gmem : GstCoreVideoMemory)
    (g : GstCoreVideoPixelBuffer) (offset size : Int) :
    (gst_core_video_mem_share flags_at addr gmem g offset size).mem.flags &&&
        GST_MINI_OBJECT_FLAG_LOCK_READONLY ≠ 0 := by
  unfold gst_core_video_mem_share gst_core_video_memory_new
  dsimp only
  exact readonly_bit_set _

/-- Every region of a chain of shares has the same parent as the first shared
region of the chain. -/
theorem share_chain_parent (flags_at : Nat → Nat) :
    ∀ (steps : List (Nat × Int × Int))
      (current : Nat × GstCoreVideoMemory × GstCoreVideoPixelBuffer) (root : Nat),
      current.2.1.parent = some root →
      (share_chain flags_at current steps).2.1.parent = some root := by
  intro steps
  induction steps with
  | nil =>
    intro current root h
    exact h
  | cons step rest ih =>
    intro current root h
    obtain ⟨addr, offset, size⟩ := step
    rw [share_chain]
    apply ih
    dsimp only
    rw [share_parent, h]

/-- C24: a region made by `gst_core_video_memory_new_wrapped` has no parent,
and every region obtained from it by a chain of one or more shares has that
wrapped region as its parent; so no region has a parent that has a parent. -/
theorem C24_parent_is_root (flags_at : Nat → Nat) (gpixbuf : GstCoreVideoPixelBuffer)
    (plane size root_addr : Nat) (steps : List (Nat × Int × Int)) (hsteps : steps ≠ []) :
    (gst_core_video_memory_new_wrapped gpixbuf plane size).mem.parent = none ∧
      (share_chain flags_at
          (root_addr, (gst_core_video_memory_new_wrapped gpixbuf plane size).mem,
            (gst_core_video_memory_new_wrapped gpixbuf plane size).gpixbuf)
          steps).2.1.parent = some root_addr := by
  refine ⟨rfl, ?_⟩
  cases steps with
  | nil => exact absurd rfl hsteps
  | cons step rest =>
    obtain ⟨addr, offset, size1⟩ := step
    rw [share_chain]
    apply share_chain_parent
    rfl

theorem C24_parent_is_root_witness :
    (gst_core_video_memory_new_wrapped (gst_core_video_pixel_buffer_create 7) 0 4096).mem.parent =
        none ∧
      (share_chain (fun _ => 1)
          (1000, (gst_core_video_memory_new_wrapped (gst_core_video_pixel_buffer_create 7) 0
              4096).mem,
            (gst_core_video_memory_new_wrapped (gst_core_video_pixel_buffer_create 7) 0
              4096).gpixbuf)
          [(2000, 16, 64), (3000, 8, -1), (4000, 0, 4)]).2.1.parent = some 1000 :=
  C24_parent_is_root (fun _ => 1) (gst_core_video_pixel_buffer_create 7) 0 4096 1000
    [(2000, 16, 64), (3000, 8, -1), (4000, 0, 4)] (by decide)

/-- C23: the region returned by `gst_core_video_mem_share` carries the
read-only flag, and `gst_memory_map` with write intent on it fails for every
state of the handle, Locked Read-Write included, without touching the handle
or calling Core Video. The flag is what refuses the map:
`gst_core_video_mem_map` does not look at it and returns the address of the
plane whenever the lock on the handle succeeds. -/
theorem C23_share_never_writable (flags_at : Nat → Nat) (addr : Nat) (r : GstCoreVideoMemory)
    (g gpixbuf : GstCoreVideoPixelBuffer) (offset size : Int) (granted : Bool) (cvret : Int)
    (base_address : Nat) (base_address_of_plane : Nat → Nat) (flags : Nat)
    (hwrite : wants_write flags = true) :
    (gst_core_video_mem_share flags_at addr r g offset size).mem.flags &&&
        GST_MINI_OBJECT_FLAG_LOCK_READONLY ≠ 0 ∧
      gst_memory_map granted cvret base_address base_address_of_plane
          (gst_core_video_mem_share flags_at addr r g offset size).mem gpixbuf flags =
        { ok := false, data := 0, size := 0, maxsize := 0, gpixbuf := gpixbuf, calls := [] } ∧
      ((gst_core_video_pixel_buffer_lock cvret gpixbuf flags).ret = true →
        (gst_core_video_mem_map cvret base_address base_address_of_plane
            (gst_core_video_mem_share flags_at addr r g offset size).mem gpixbuf flags).ret =
          if r.plane = GST_CORE_VIDEO_NO_PLANE then base_address
          else base_address_of_plane r.plane) := by
  have hflag := share_flags_readonly flags_at addr r g offset size
  refine ⟨hflag, ?_, ?_⟩
  · unfold gst_memory_map
    rw [if_pos]
    rw [hwrite]
    simp only [Bool.and_true, Bool.or_eq_true, bne_iff_ne]
    exact Or.inl hflag
  · intro hl
    rw [map_lock_ok cvret base_address base_address_of_plane _ gpixbuf flags hl]
    rfl

theorem C23_share_never_writable_witness :
    (gst_memory_map true 0 4096 (fun _ => 8192)
        (gst_core_video_mem_share (fun _ => 1) 1000
          (gst_core_video_memory_new_wrapped (gst_core_video_pixel_buffer_create 7) 0 4096).mem
          (gst_core_video_pixel_buffer_create 7) 1 4094).mem
        { refcount := 2, buf := 7, lock_state := GST_CORE_VIDEO_MEMORY_LOCKED_READ_WRITE,
          lock_count := 1 }
        GST_MAP_READWRITE).ok = false := by
  rw [(C23_share_never_writable (fun _ => 1) 1000
    (gst_core_video_memory_new_wrapped (gst_core_video_pixel_buffer_create 7) 0 4096).mem
    (gst_core_video_pixel_buffer_create 7)
    { refcount := 2, buf := 7, lock_state := GST_CORE_VIDEO_MEMORY_LOCKED_READ_WRITE,
      lock_count := 1 }
    1 4094 true 0 4096 (fun _ => 8192) GST_MAP_READWRITE (by decide)).2.1]

/-- A lock that succeeds leaves the handle locked. -/
theorem lock_success_locked (cvret : Int) (g : GstCoreVideoPixelBuffer) (flags : Nat)
    (h : (gst_core_video_pixel_buffer_lock cvret g flags).ret = true) :
    (gst_core_video_pixel_buffer_lock cvret g flags).gpixbuf.lock_state ≠
      GST_CORE_VIDEO_MEMORY_UNLOCKED := by
  cases hs : g.lock_state with
  | GST_CORE_VIDEO_MEMORY_UNLOCKED =>
    by_cases hc : cvret = kCVReturnSuccess
    · rw [lock_unlocked_ok cvret g flags hs hc]
      dsimp only
      split
      · exact readwrite_ne_unlocked
      · exact readonly_ne_unlocked
    · rw [lock_unlocked_fail cvret g flags hs hc] at h
      exact absurd h (by simp)
  | GST_CORE_VIDEO_MEMORY_LOCKED_READONLY =>
    cases hw : wants_write flags with
    | true =>
      rw [lock_readonly_write cvret g flags hs hw] at h
      exact absurd h (by simp)
    | false =>
      rw [lock_readonly_read cvret g flags hs hw]
      dsimp only
      rw [hs]
      exact readonly_ne_unlocked
  | GST_CORE_VIDEO_MEMORY_LOCKED_READ_WRITE =>
    rw [lock_readwrite cvret g flags hs]
    dsimp only
    rw [hs]
    exact readwrite_ne_unlocked

/-- A read lock on a locked handle succeeds. -/
theorem read_lock_on_locked (cvret : Int) (g : GstCoreVideoPixelBuffer) (flags : Nat)
    (hs : g.lock_state ≠ GST_CORE_VIDEO_MEMORY_UNLOCKED) (hw : wants_write flags = false) :
    (gst_core_video_pixel_buffer_lock cvret g flags).ret = true := by
  cases h : g.lock_state with
  | GST_CORE_VIDEO_MEMORY_UNLOCKED => exact absurd h hs
  | GST_CORE_VIDEO_MEMORY_LOCKED_READONLY => rw [lock_readonly_read cvret g flags h hw]
  | GST_CORE_VIDEO_MEMORY_LOCKED_READ_WRITE => rw [lock_readwrite cvret g flags h]

/-- What a successful `gst_memory_map` reports. -/
theorem memory_map_ok (granted : Bool) (cvret : Int) (base : Nat) (bop : Nat → Nat)
    (mem : GstCoreVideoMemory) (g : GstCoreVideoPixelBuffer) (flags : Nat)
    (h : (gst_memory_map granted cvret base bop mem g flags).ok = true) :
    (gst_core_video_pixel_buffer_lock cvret g flags).ret = true ∧
      (if mem.plane = GST_CORE_VIDEO_NO_PLANE then base else bop mem.plane) ≠ 0 ∧
      (gst_memory_map granted cvret base bop mem g flags).data =
        (if mem.plane = GST_CORE_VIDEO_NO_PLANE then base else bop mem.plane) + mem.offset ∧
      (gst_memory_map granted cvret base bop mem g flags).size = mem.size ∧
      (gst_memory_map granted cvret base bop mem g flags).gpixbuf =
        (gst_core_video_pixel_buffer_lock cvret g flags).gpixbuf := by
  unfold gst_memory_map at h ⊢
  split at h
  · exact absurd h (by simp)
  · rename_i hgate
    rw [if_neg hgate]
    dsimp only at h ⊢
    cases hl : (gst_core_video_pixel_buffer_lock cvret g flags).ret with
    | false =>
      rw [map_lock_failed cvret base bop mem g flags hl] at h
      simp at h
    | true =>
      rw [map_lock_ok cvret base bop mem g flags hl] at h ⊢
      dsimp only at h ⊢
      generalize (if mem.plane = GST_CORE_VIDEO_NO_PLANE then base else bop mem.plane) = A
        at h ⊢
      by_cases hA : A = 0
      · rw [if_pos hA] at h
        exact absurd h (by simp)
      · rw [if_neg hA]
        exact ⟨rfl, hA, rfl, rfl, rfl⟩

/-- A read map of a region without refusal by the GstMemory layer, on a locked
handle and with a non-null address, succeeds. -/
theorem memory_map_read_ok (cvret : Int) (base : Nat) (bop : Nat → Nat)
    (mem : GstCoreVideoMemory) (g : GstCoreVideoPixelBuffer) (flags : Nat)
    (hw : wants_write flags = false)
    (hs : g.lock_state ≠ GST_CORE_VIDEO_MEMORY_UNLOCKED)
    (hne : (if mem.plane = GST_CORE_VIDEO_NO_PLANE then base else bop mem.plane) ≠ 0) :
    (gst_memory_map true cvret base bop mem g flags).ok = true ∧
      (gst_memory_map true cvret base bop mem g flags).data =
        (if mem.plane = GST_CORE_VIDEO_NO_PLANE then base else bop mem.plane) + mem.offset ∧
      (gst_memory_map true cvret base bop mem g flags).size = mem.size := by
  have hl := read_lock_on_locked cvret g flags hs hw
  unfold gst_memory_map
  rw [if_neg (by simp [hw])]
  dsimp only
  rw [map_lock_ok cvret base bop mem g flags hl]
  dsimp only
  generalize (if mem.plane = GST_CORE_VIDEO_NO_PLANE then base else bop mem.plane) = A
    at hne ⊢
  rw [if_neg hne]
  exact ⟨rfl, rfl, rfl⟩

theorem to_guint64_of_range (x : Int) (h0 : 0 ≤ x) (h1 : x < 18446744073709551616) :
    ((to_guint64 x : Nat) : Int) = x := by
  unfold to_guint64
  omega

/-- C22 (amended): `gst_core_video_mem_share (r, o, s)` returns a region on
the handle and plane of `r`, with `r`'s maxsize and alignment, the read-only
flag set, offset `r.offset + o` and size `s`, or `r.size - o` when `s` is -1
(as `gsize` values, exact when they lie in `[0, 2^64)`); the handle gets one
more reference (exactly `refcount + 1` below the top of the `guint` range) and
keeps its buffer, `lock_state` and `lock_count`. For a region at offset 0 of
size at least 2, mapping `r` and then `share (r, r.offset + 1, r.size - 2)`
for reading through `gst_memory_map` gives the share an address one byte past
that of `r` and a size two bytes smaller. -/
theorem C22_share_fields (flags_at : Nat → Nat) (addr : Nat) (r : GstCoreVideoMemory)
    (g : GstCoreVideoPixelBuffer) (o s : Int) :
    (gst_core_video_mem_share flags_at addr r g o s).mem.plane = r.plane ∧
      (gst_core_video_mem_share flags_at addr r g o s).mem.maxsize = r.maxsize ∧
      (gst_core_video_mem_share flags_at addr r g o s).mem.align = r.align ∧
      (gst_core_video_mem_share flags_at addr r g o s).mem.offset =
        to_guint64 ((r.offset : Int) + o) ∧
      (0 ≤ (r.offset : Int) + o → (r.offset : Int) + o < 18446744073709551616 →
        (((gst_core_video_mem_share flags_at addr r g o s).mem.offset : Nat) : Int) =
          r.offset + o) ∧
      (s ≠ -1 → (gst_core_video_mem_share flags_at addr r g o s).mem.size = to_guint64 s) ∧
      (s = -1 →
        (gst_core_video_mem_share flags_at addr r g o s).mem.size =
          to_guint64 ((r.size : Int) - o)) ∧
      (s = -1 → 0 ≤ (r.size : Int) - o → (r.size : Int) - o < 18446744073709551616 →
        (((gst_core_video_mem_share flags_at addr r g o s).mem.size : Nat) : Int) =
          r.size - o) ∧
      (gst_core_video_mem_share flags_at addr r g o s).mem.flags &&&
          GST_MINI_OBJECT_FLAG_LOCK_READONLY ≠ 0 ∧
      (gst_core_video_mem_share flags_at addr r g o s).gpixbuf =
        { g with refcount := g_atomic_int_inc g.refcount } ∧
      (g.refcount < 4294967295 →
        (gst_core_video_mem_share flags_at addr r g o s).gpixbuf.refcount = g.refcount + 1) ∧
      (∀ (granted : Bool) (cvret1 cvret2 : Int) (base : Nat) (bop : Nat → Nat),
        r.offset = 0 → 2 ≤ r.size → r.size < 18446744073709551616 →
        (gst_memory_map granted cvret1 base bop r g GST_MAP_READ).ok = true →
        (gst_memory_map true cvret2 base bop
            (gst_core_video_mem_share flags_at addr r
              (gst_memory_map granted cvret1 base bop r g GST_MAP_READ).gpixbuf
              ((r.offset : Int) + 1) ((r.size : Int) - 2)).mem
            (gst_core_video_mem_share flags_at addr r
              (gst_memory_map granted cvret1 base bop r g GST_MAP_READ).gpixbuf
              ((r.offset : Int) + 1) ((r.size : Int) - 2)).gpixbuf
            GST_MAP_READ).ok = true ∧
          (gst_memory_map true cvret2 base bop
            (gst_core_video_mem_share flags_at addr r
              (gst_memory_map granted cvret1 base bop r g GST_MAP_READ).gpixbuf
              ((r.offset : Int) + 1) ((r.size : Int) - 2)).mem
            (gst_core_video_mem_share flags_at addr r
              (gst_memory_map granted cvret1 base bop r g GST_MAP_READ).gpixbuf
              ((r.offset : Int) + 1) ((r.size : Int) - 2)).gpixbuf
            GST_MAP_READ).data =
            (gst_memory_map granted cvret1 base bop r g GST_MAP_READ).data + 1 ∧
          (gst_memory_map true cvret2 base bop
            (gst_core_video_mem_share flags_at addr r
              (gst_memory_map granted cvret1 base bop r g GST_MAP_READ).gpixbuf
              ((r.offset : Int) + 1) ((r.size : Int) - 2)).mem
            (gst_core_video_mem_share flags_at addr r
              (gst_memory_map granted cvret1 base bop r g GST_MAP_READ).gpixbuf
              ((r.offset : Int) + 1) ((r.size : Int) - 2)).gpixbuf
            GST_MAP_READ).size + 2 =
            (gst_memory_map granted cvret1 base bop r g GST_MAP_READ).size) := by
  have hoff : (gst_core_video_mem_share flags_at addr r g o s).mem.offset =
      to_guint64 ((r.offset : Int) + o) := rfl
  have hsize : (gst_core_video_mem_share flags_at addr r g o s).mem.size =
      to_guint64 (if s = -1 then (r.size : Int) - o else s) := rfl
  refine ⟨rfl, rfl, rfl, hoff, ?_, ?_, ?_, ?_, share_flags_readonly flags_at addr r g o s, rfl,
    ?_, ?_⟩
  · intro h0 h1
    rw [hoff]
    exact to_guint64_of_range _ h0 h1
  · intro hs
    rw [hsize, if_neg hs]
  · intro hs
    rw [hsize, if_pos hs]
  · intro hs h0 h1
    rw [hsize, if_pos hs]
    exact to_guint64_of_range _ h0 h1
  · intro hrc
    rw [share_handle]
    unfold gst_core_video_pixel_buffer_ref
    dsimp only
    exact g_atomic_int_inc_of_lt (by
      unfold GUINT_RANGE
      omega)
  · intro granted cvret1 cvret2 base bop hzero hsz hrange hok
    obtain ⟨hl, hne, hdata, hsize1, hg⟩ := memory_map_ok granted cvret1 base bop r g GST_MAP_READ hok
    have hlocked := lock_success_locked cvret1 g GST_MAP_READ hl
    rw [hdata, hsize1, hg]
    have hstate :
        (gst_core_video_mem_share flags_at addr r
          (gst_core_video_pixel_buffer_lock cvret1 g GST_MAP_READ).gpixbuf
          ((r.offset : Int) + 1) ((r.size : Int) - 2)).gpixbuf.lock_state ≠
          GST_CORE_VIDEO_MEMORY_UNLOCKED := hlocked
    obtain ⟨k1, k2, k3⟩ :=
      memory_map_read_ok cvret2 base bop
        (gst_core_video_mem_share flags_at addr r
          (gst_core_video_pixel_buffer_lock cvret1 g GST_MAP_READ).gpixbuf
          ((r.offset : Int) + 1) ((r.size : Int) - 2)).mem
        (gst_core_video_mem_share flags_at addr r
          (gst_core_video_pixel_buffer_lock cvret1 g GST_MAP_READ).gpixbuf
          ((r.offset : Int) + 1) ((r.size : Int) - 2)).gpixbuf
        GST_MAP_READ wants_write_read hstate hne
    refine ⟨k1, ?_, ?_⟩
    · rw [k2]
      have e : (gst_core_video_mem_share flags_at addr r
          (gst_core_video_pixel_buffer_lock cvret1 g GST_MAP_READ).gpixbuf
          ((r.offset : Int) + 1) ((r.size : Int) - 2)).mem.offset =
          to_guint64 ((r.offset : Int) + ((r.offset : Int) + 1)) := rfl
      have e2 : (gst_core_video_mem_share flags_at addr r
          (gst_core_video_pixel_buffer_lock cvret1 g GST_MAP_READ).gpixbuf
          ((r.offset : Int) + 1) ((r.size : Int) - 2)).mem.plane = r.plane := rfl
      rw [e, e2, hzero]
      have e3 : to_guint64 (((0 : Nat) : Int) + (((0 : Nat) : Int) + 1)) = 1 := by decide
      rw [e3]
    · rw [k3]
      have e : (gst_core_video_mem_share flags_at addr r
          (gst_core_video_pixel_buffer_lock cvret1 g GST_MAP_READ).gpixbuf
          ((r.offset : Int) + 1) ((r.size : Int) - 2)).mem.size =
          to_guint64 (if (r.size : Int) - 2 = -1 then (r.size : Int) - ((r.offset : Int) + 1)
            else (r.size : Int) - 2) := rfl
      rw [e, if_neg (by omega)]
      have := to_guint64_of_range ((r.size : Int) - 2) (by omega) (by omega)
      omega

theorem C22_share_fields_witness :
    (gst_memory_map true 0 4096 (fun _ => 8192) sample_region sample_handle GST_MAP_READ).data =
        8192 ∧
      (gst_memory_map true 0 4096 (fun _ => 8192)
        (gst_core_video_mem_share (fun _ => 1) 1000 sample_region
          (gst_memory_map true 0 4096 (fun _ => 8192) sample_region sample_handle
            GST_MAP_READ).gpixbuf
          ((sample_region.offset : Int) + 1) ((sample_region.size : Int) - 2)).mem
        (gst_core_video_mem_share (fun _ => 1) 1000 sample_region
          (gst_memory_map true 0 4096 (fun _ => 8192) sample_region sample_handle
            GST_MAP_READ).gpixbuf
          ((sample_region.offset : Int) + 1) ((sample_region.size : Int) - 2)).gpixbuf
        GST_MAP_READ).data =
        (gst_memory_map true 0 4096 (fun _ => 8192) sample_region sample_handle
          GST_MAP_READ).data + 1 :=
  ⟨by decide,
    ((C22_share_fields (fun _ => 1) 1000 sample_region sample_handle 1
      4094).2.2.2.2.2.2.2.2.2.2.2 true 0 0 4096 (fun _ => 8192) (by decide) (by decide)
      (by decide) (by decide)).2.1⟩

/-- C22 as stated fails in its last sentence and at the top of the reference
count. For a region of size 1 at offset 0 the size argument `r.size - 2` is
-1, which means "to the end": the share has size 0, not two bytes less. For a
region at offset 4 the share made with offset argument `r.offset + 1` lies at
offset 9, so its address is five bytes past that of the region. And from a
reference count of 4294967295 the share leaves the count at 0. -/
theorem C22_share_fields_counterexample :
    ((gst_memory_map true 0 4096 (fun _ => 8192)
          { flags := 1, parent := none, maxsize := 1, align := 0, offset := 0, size := 1,
            plane := 0 }
          sample_handle GST_MAP_READ).size = 1 ∧
        (gst_memory_map true 0 4096 (fun _ => 8192)
          (gst_core_video_mem_share (fun _ => 1) 1000
            { flags := 1, parent := none, maxsize := 1, align := 0, offset := 0, size := 1,
              plane := 0 }
            (gst_memory_map true 0 4096 (fun _ => 8192)
              { flags := 1, parent := none, maxsize := 1, align := 0, offset := 0, size := 1,
                plane := 0 }
              sample_handle GST_MAP_READ).gpixbuf
            (0 + 1) (1 - 2)).mem
          (gst_core_video_mem_share (fun _ => 1) 1000
            { flags := 1, parent := none, maxsize := 1, align := 0, offset := 0, size := 1,
              plane := 0 }
            (gst_memory_map true 0 4096 (fun _ => 8192)
              { flags := 1, parent := none, maxsize := 1, align := 0, offset := 0, size := 1,
                plane := 0 }
              sample_handle GST_MAP_READ).gpixbuf
            (0 + 1) (1 - 2)).gpixbuf
          GST_MAP_READ).size = 0) ∧
      ((gst_memory_map true 0 4096 (fun _ => 8192)
          { flags := 3, parent := some 1000, maxsize := 4096, align := 0, offset := 4, size := 8,
            plane := 0 }
          sample_handle GST_MAP_READ).data = 8196 ∧
        (gst_memory_map true 0 4096 (fun _ => 8192)
          (gst_core_video_mem_share (fun _ => 1) 2000
            { flags := 3, parent := some 1000, maxsize := 4096, align := 0, offset := 4,
              size := 8, plane := 0 }
            (gst_memory_map true 0 4096 (fun _ => 8192)
              { flags := 3, parent := some 1000, maxsize := 4096, align := 0, offset := 4,
                size := 8, plane := 0 }
              sample_handle GST_MAP_READ).gpixbuf
            (4 + 1) (8 - 2)).mem
          (gst_core_video_mem_share (fun _ => 1) 2000
            { flags := 3, parent := some 1000, maxsize := 4096, align := 0, offset := 4,
              size := 8, plane := 0 }
            (gst_memory_map true 0 4096 (fun _ => 8192)
              { flags := 3, parent := some 1000, maxsize := 4096, align := 0, offset := 4,
                size := 8, plane := 0 }
              sample_handle GST_MAP_READ).gpixbuf
            (4 + 1) (8 - 2)).gpixbuf
          GST_MAP_READ).data = 8201) ∧
      (gst_core_video_mem_share (fun _ => 1) 1000 sample_region
        { refcount := 4294967295, buf := 7, lock_state := GST_CORE_VIDEO_MEMORY_UNLOCKED,
          lock_count := 0 }
        16 64).gpixbuf.refcount = 0 := by
  decide

/-! ## Reference counting and release -/

theorem apply_keeps_buf_refcount (op : LockOp) (g : GstCoreVideoPixelBuffer) :
    (op.apply g).gpixbuf.buf = g.buf ∧ (op.apply g).gpixbuf.refcount = g.refcount := by
  cases op with
  | lock flags cvret =>
    rw [LockOp.apply_lock]
    cases hs : g.lock_state with
    | GST_CORE_VIDEO_MEMORY_UNLOCKED =>
      by_cases hc : cvret = kCVReturnSuccess
      · rw [lock_unlocked_ok cvret g flags hs hc]
        exact ⟨rfl, rfl⟩
      · rw [lock_unlocked_fail cvret g flags hs hc]
        exact ⟨rfl, rfl⟩
    | GST_CORE_VIDEO_MEMORY_LOCKED_READONLY =>
      cases hw : wants_write flags with
      | true =>
        rw [lock_readonly_write cvret g flags hs hw]
        exact ⟨rfl, rfl⟩
      | false =>
        rw [lock_readonly_read cvret g flags hs hw]
        exact ⟨rfl, rfl⟩
    | GST_CORE_VIDEO_MEMORY_LOCKED_READ_WRITE =>
      rw [lock_readwrite cvret g flags hs]
      exact ⟨rfl, rfl⟩
  | unlock cvret =>
    rw [LockOp.apply_unlock]
    by_cases hs : g.lock_state = GST_CORE_VIDEO_MEMORY_UNLOCKED
    · rw [unlock_unlocked cvret g hs]
      exact ⟨rfl, rfl⟩
    · by_cases hd : g_atomic_int_dec g.lock_count = 0
      · by_cases hc : cvret = kCVReturnSuccess
        · rw [unlock_last_ok cvret g hs hd hc]
          exact ⟨rfl, rfl⟩
        · rw [unlock_last_fail cvret g hs hd hc]
          exact ⟨rfl, rfl⟩
      · rw [unlock_still_locked cvret g hs hd]
        exact ⟨rfl, rfl⟩

/-- Lock and unlock operations touch neither the native buffer nor the
reference count. -/
theorem run_keeps_buf_refcount (pixbuf : Nat) (ops : List LockOp) :
    ((Traced.fresh pixbuf).run ops).gpixbuf.buf = pixbuf ∧
      ((Traced.fresh pixbuf).run ops).gpixbuf.refcount = 1 :=
  Traced.run_preserves (fun g => g.buf = pixbuf ∧ g.refcount = 1)
    (fun op g h => by
      obtain ⟨h1, h2⟩ := apply_keeps_buf_refcount op g
      exact ⟨h1.trans h.1, h2.trans h.2⟩)
    ops (Traced.fresh pixbuf) ⟨rfl, rfl⟩

theorem unref_last (g : GstCoreVideoPixelBuffer) (h : g_atomic_int_dec g.refcount = 0) :
    gst_core_video_pixel_buffer_unref g =
      { gpixbuf := none
        released := [g.buf]
        error := g.lock_state != GST_CORE_VIDEO_MEMORY_UNLOCKED } := by
  unfold gst_core_video_pixel_buffer_unref
  rw [if_pos h]

theorem unref_not_last (g : GstCoreVideoPixelBuffer) (h : g_atomic_int_dec g.refcount ≠ 0) :
    gst_core_video_pixel_buffer_unref g =
      { gpixbuf := some { g with refcount := g_atomic_int_dec g.refcount }
        released := []
        error := false } := by
  unfold gst_core_video_pixel_buffer_unref
  rw [if_neg h]

theorem lifetime_run_nil (l : Lifetime) : l.run [] = l := rfl

theorem lifetime_run_cons (l : Lifetime) (op : RefOp) (ops : List RefOp) :
    l.run (op :: ops) = (l.step op).run ops := rfl

theorem lifetime_step_freed (l : Lifetime) (op : RefOp) (h : l.handle = none) :
    l.step op = l := by
  unfold Lifetime.step
  rw [h]

/-- While the handle exists nothing was released and no error logged, and
the handle has the buffer and the lock fields it started with; once it is
freed its buffer was released once, with one error exactly if it was
locked. -/
theorem lifetime_step_keeps (g0 : GstCoreVideoPixelBuffer) (l : Lifetime) (op : RefOp)
    (h : (∃ g, l.handle = some g ∧ g.buf = g0.buf ∧ g.lock_state = g0.lock_state ∧
          l.released = [] ∧ l.errors = 0) ∨
      (l.handle = none ∧ l.released = [g0.buf] ∧
        l.errors = if g0.lock_state = GST_CORE_VIDEO_MEMORY_UNLOCKED then 0 else 1)) :
    (∃ g, (l.step op).handle = some g ∧ g.buf = g0.buf ∧ g.lock_state = g0.lock_state ∧
          (l.step op).released = [] ∧ (l.step op).errors = 0) ∨
      ((l.step op).handle = none ∧ (l.step op).released = [g0.buf] ∧
        (l.step op).errors = if g0.lock_state = GST_CORE_VIDEO_MEMORY_UNLOCKED then 0 else 1) := by
  rcases h with ⟨g, hg, hbuf, hstate, hrel, herr⟩ | hf
  · unfold Lifetime.step
    rw [hg]
    dsimp only
    cases op with
    | ref =>
      dsimp only
      exact Or.inl ⟨_, rfl, hbuf, hstate, hrel, herr⟩
    | unref =>
      dsimp only
      by_cases hd : g_atomic_int_dec g.refcount = 0
      · right
        rw [unref_last g hd]
        dsimp only
        rw [hrel, herr, hbuf, hstate]
        refine ⟨rfl, rfl, ?_⟩
        by_cases hu : g0.lock_state = GST_CORE_VIDEO_MEMORY_UNLOCKED
        · rw [if_pos hu, hu]
          rfl
        · rw [if_neg hu, if_pos (bne_iff_ne.mpr hu)]
      · left
        rw [unref_not_last g hd]
        dsimp only
        rw [hrel, herr]
        exact ⟨_, rfl, hbuf, hstate, rfl, rfl⟩
  · rw [lifetime_step_freed l op hf.1]
    exact Or.inr hf

theorem lifetime_run_keeps (g0 : GstCoreVideoPixelBuffer) :
    ∀ (ops : List RefOp) (l : Lifetime),
      ((∃ g, l.handle = some g ∧ g.buf = g0.buf ∧ g.lock_state = g0.lock_state ∧
          l.released = [] ∧ l.errors = 0) ∨
        (l.handle = none ∧ l.released = [g0.buf] ∧
          l.errors = if g0.lock_state = GST_CORE_VIDEO_MEMORY_UNLOCKED then 0 else 1)) →
      ((∃ g, (l.run ops).handle = some g ∧ g.buf = g0.buf ∧ g.lock_state = g0.lock_state ∧
          (l.run ops).released = [] ∧ (l.run ops).errors = 0) ∨
        ((l.run ops).handle = none ∧ (l.run ops).released = [g0.buf] ∧
          (l.run ops).errors =
            if g0.lock_state = GST_CORE_VIDEO_MEMORY_UNLOCKED then 0 else 1)) := by
  intro ops
  induction ops with
  | nil =>
    intro l h
    exact h
  | cons op ops ih =>
    intro l h
    rw [lifetime_run_cons]
    exact ih (l.step op) (lifetime_step_keeps g0 l op h)

/-- C25 (amended): on a handle created with reference count 1, locked and
unlocked in any way, every sequence of ref and unref operations releases the
native buffer at most once: the release is made by the unref that brings the
reference count to zero, which frees the handle, and by no other operation.
That unref logs the still-locked error exactly when `lock_state` is not
Unlocked, and releases the buffer either way. When fewer than 2^32 lock and
unlock operations were applied, the error is logged exactly when the lock
depth is not zero. -/
theorem C25_released_once (pixbuf : Nat) (lockops : List LockOp) (refops : List RefOp) :
    ((Traced.fresh pixbuf).run lockops).gpixbuf.refcount = 1 ∧
      (((Lifetime.start ((Traced.fresh pixbuf).run lockops).gpixbuf).run refops).released = [] ∨
        ((Lifetime.start ((Traced.fresh pixbuf).run lockops).gpixbuf).run refops).released = [pixbuf]) ∧
      (((Lifetime.start ((Traced.fresh pixbuf).run lockops).gpixbuf).run refops).handle = none ↔
        ((Lifetime.start ((Traced.fresh pixbuf).run lockops).gpixbuf).run refops).released = [pixbuf]) ∧
      (((Lifetime.start ((Traced.fresh pixbuf).run lockops).gpixbuf).run refops).errors = 0 ∨
        ((Lifetime.start ((Traced.fresh pixbuf).run lockops).gpixbuf).run refops).errors = 1) ∧
      (((Lifetime.start ((Traced.fresh pixbuf).run lockops).gpixbuf).run refops).errors = 1 ↔
        ((Lifetime.start ((Traced.fresh pixbuf).run lockops).gpixbuf).run refops).handle = none ∧
          ((Traced.fresh pixbuf).run lockops).gpixbuf.lock_state ≠ GST_CORE_VIDEO_MEMORY_UNLOCKED) ∧
      (lockops.length < GUINT_RANGE →
        (((Lifetime.start ((Traced.fresh pixbuf).run lockops).gpixbuf).run refops).errors = 1 ↔
          ((Lifetime.start ((Traced.fresh pixbuf).run lockops).gpixbuf).run refops).handle = none ∧
            ((Traced.fresh pixbuf).run lockops).gpixbuf.lock_count ≠ 0)) ∧
      (∀ h : GstCoreVideoPixelBuffer,
        (gst_core_video_pixel_buffer_unref h).released =
            (if g_atomic_int_dec h.refcount = 0 then [h.buf] else []) ∧
          ((gst_core_video_pixel_buffer_unref h).gpixbuf = none ↔
            g_atomic_int_dec h.refcount = 0) ∧
          ((gst_core_video_pixel_buffer_unref h).error = true ↔
            g_atomic_int_dec h.refcount = 0 ∧
              h.lock_state ≠ GST_CORE_VIDEO_MEMORY_UNLOCKED)) := by
  obtain ⟨hbuf, hrc⟩ := run_keeps_buf_refcount pixbuf lockops
  have hinv := lifetime_run_keeps ((Traced.fresh pixbuf).run lockops).gpixbuf refops
    (Lifetime.start ((Traced.fresh pixbuf).run lockops).gpixbuf)
    (Or.inl ⟨_, rfl, rfl, rfl, rfl, rfl⟩)
  rw [hbuf] at hinv
  refine ⟨hrc, ?_, ?_, ?_, ?_, ?_, ?_⟩
  · rcases hinv with ⟨g, _, _, _, h4, _⟩ | ⟨_, h2, _⟩
    · exact Or.inl h4
    · exact Or.inr h2
  · rcases hinv with ⟨g, h1, _, _, h4, _⟩ | ⟨h1, h2, _⟩
    · rw [h1, h4]
      simp
    · rw [h1, h2]
      simp
  · rcases hinv with ⟨g, _, _, _, _, h5⟩ | ⟨_, _, h3⟩
    · exact Or.inl h5
    · rw [h3]
      split
      · exact Or.inl rfl
      · exact Or.inr rfl
  · rcases hinv with ⟨g, h1, _, _, _, h5⟩ | ⟨h1, _, h3⟩
    · rw [h1, h5]
      simp
    · rw [h1, h3]
      by_cases hu : ((Traced.fresh pixbuf).run lockops).gpixbuf.lock_state =
          GST_CORE_VIDEO_MEMORY_UNLOCKED
      · rw [if_pos hu]
        simp [hu]
      · rw [if_neg hu]
        simp [hu]
  · intro hlen
    have hiff := (run_keeps_unlocked_iff_zero lockops (Traced.fresh pixbuf) 0 (by omega)
      ⟨Nat.le_refl 0, ⟨fun _ => rfl, fun _ => rfl⟩⟩).2
    rcases hinv with ⟨g, h1, _, _, _, h5⟩ | ⟨h1, _, h3⟩
    · rw [h1, h5]
      simp
    · rw [h1, h3]
      by_cases hu : ((Traced.fresh pixbuf).run lockops).gpixbuf.lock_state =
          GST_CORE_VIDEO_MEMORY_UNLOCKED
      · rw [if_pos hu]
        have := hiff.mp hu
        simp [this]
      · rw [if_neg hu]
        have : ((Traced.fresh pixbuf).run lockops).gpixbuf.lock_count ≠ 0 := fun h0 => hu (hiff.mpr h0)
        simp [this]
  · intro h
    by_cases hd : g_atomic_int_dec h.refcount = 0
    · rw [unref_last h hd, if_pos hd]
      refine ⟨rfl, by simp [hd], ?_⟩
      dsimp only
      rw [bne_iff_ne]
      exact ⟨fun hne => ⟨hd, hne⟩, fun hne => hne.2⟩
    · rw [unref_not_last h hd, if_neg hd]
      refine ⟨rfl, by simp [hd], ?_⟩
      dsimp only
      constructor
      · intro hf
        exact absurd hf (by simp)
      · intro hf
        exact absurd hf.1 hd

theorem C25_released_once_witness :
    (Lifetime.start
          ((Traced.fresh 7).run [LockOp.lock GST_MAP_READ 0, LockOp.unlock 0]).gpixbuf).run
        [RefOp.ref, RefOp.unref, RefOp.unref] =
      { handle := none, released := [7], errors := 0 } ∧
    ((Lifetime.start
          ((Traced.fresh 7).run [LockOp.lock GST_MAP_READ 0]).gpixbuf).run
        [RefOp.ref, RefOp.unref, RefOp.unref]).errors = 1 :=
  ⟨by decide,
    ((C25_released_once 7 [LockOp.lock GST_MAP_READ 0]
      [RefOp.ref, RefOp.unref, RefOp.unref]).2.2.2.2.1).mpr ⟨by decide, by decide⟩⟩

/-- C25 as stated fails in its parenthesis: after 2^32 read locks the handle
is locked read-only with a lock depth that wrapped to 0; the unref that frees
it logs the error although the depth is 0. -/
theorem C25_released_once_counterexample :
    ((Traced.fresh 7).run
          (List.replicate 4294967296 (LockOp.lock GST_MAP_READ kCVReturnSuccess))).gpixbuf.lock_count
        = 0 ∧
      (Lifetime.start
          ((Traced.fresh 7).run
            (List.replicate 4294967296
              (LockOp.lock GST_MAP_READ kCVReturnSuccess))).gpixbuf).run [RefOp.unref] =
        { handle := none, released := [7], errors := 1 } := by
  rw [run_read_locks 7 4294967296 (by decide)]
  exact ⟨rfl, rfl⟩

end AppleMedia
